import Mathlib

/-!
# Air-quality monitor (Quito zones): calculation and alerting pipeline

Shallow embedding of the C program and proofs about it.

## Numbers

Every `float` of the program is an IEEE-754 binary32 value and every `float`
operation rounds its exact result to the nearest binary32 value, ties to even
(the default rounding mode, each operation rounded on its own).  The type `F32`
below models exactly that:

* every finite binary32 value is an integer multiple of `2 ^ (-149)`; a finite
  value is stored as its sign and the number `n` of such units, and `IsRep n`
  says that `n` is one of the magnitudes binary32 can hold (below `2 ^ 277`
  units, that is below `2 ^ 128`, and with at most 24 significant bits);
* `F32.round neg a b` is the binary32 value nearest to the exact quotient
  `a / b` (in units), or an infinity on overflow;
* `F32.nan` stands for all NaN payloads.

`int` values are modelled by `Int`; the subtraction and the increment of the
program that can leave the 32-bit range are guarded (`enInt32`).  Reading an array outside its
bounds and signed overflow are undefined behaviour in C: the model returns
`none` there.
-/

set_option exponentiation.threshold 2000

/-! ## Binary32 arithmetic -/

/-- Number of halvings needed to bring `n` below 2, with a step budget. -/
def log2Aux : Nat → Nat → Nat
  | 0, _ => 0
  | fuel + 1, n => if n < 2 then 0 else log2Aux fuel (n / 2) + 1

/-- Floor of the binary logarithm (`0` at `0`). -/
def ilog2 (n : Nat) : Nat := log2Aux n n

/-- Quotient `a / b` rounded to the nearest integer, ties to the even one. -/
def rne (a b : Nat) : Nat :=
  if 2 * (a % b) < b then a / b
  else if b < 2 * (a % b) then a / b + 1
  else if (a / b) % 2 = 0 then a / b else a / b + 1

/-- Magnitudes (in units of `2 ^ (-149)`) of the finite binary32 values. -/
def IsRep (n : Nat) : Prop := n < 2 ^ 277 ∧ n % 2 ^ (ilog2 n - 23) = 0

instance instDecidableIsRep (n : Nat) : Decidable (IsRep n) := by
  unfold IsRep; infer_instance

/-- IEEE-754 binary32 values. `fin neg n _` is `(-1) ^ neg * n * 2 ^ (-149)`. -/
inductive F32 where
  | nan : F32
  | inf (neg : Bool) : F32
  | fin (neg : Bool) (n : Nat) (h : IsRep n) : F32
  deriving DecidableEq

namespace F32

/-- Exponent (in units) of the last place of the binary32 values around `a / b`. -/
def qexp (a b : Nat) : Nat := ilog2 (a / b) - 23

/-- Magnitude, in units, of `a / b` rounded to 24 significant bits (ties to even). -/
def rmag (a b : Nat) : Nat := rne a (b * 2 ^ qexp a b) * 2 ^ qexp a b

/-- The binary32 value nearest to `± a / b` units (ties to even); overflow gives an infinity. -/
def round (neg : Bool) (a b : Nat) : F32 :=
  if h : IsRep (rmag a b) then fin neg (rmag a b) h else inf neg

/-- Signed zero. -/
def zero (neg : Bool) : F32 := fin neg 0 (by decide)

/-- Signed integer with the given sign and magnitude. -/
def sgn (neg : Bool) (n : Nat) : Int := if neg then -(n : Int) else (n : Int)

/-- Binary32 multiplication. -/
def mul : F32 → F32 → F32
  | fin s m _, fin t n _ => round (s != t) (m * n) (2 ^ 149)
  | fin s m _, inf t => if m = 0 then nan else inf (s != t)
  | inf s, fin t n _ => if n = 0 then nan else inf (s != t)
  | inf s, inf t => inf (s != t)
  | _, _ => nan

/-- Binary32 addition. -/
def add : F32 → F32 → F32
  | fin s m _, fin t n _ =>
    if sgn s m + sgn t n = 0 then zero (s && t)
    else round (decide (sgn s m + sgn t n < 0)) (sgn s m + sgn t n).natAbs 1
  | fin _ _ _, inf t => inf t
  | inf s, fin _ _ _ => inf s
  | inf s, inf t => if s = t then inf s else nan
  | _, _ => nan

/-- Binary32 division. -/
def div : F32 → F32 → F32
  | fin s m _, fin t n _ =>
    if n = 0 then (if m = 0 then nan else inf (s != t))
    else round (s != t) (m * 2 ^ 149) n
  | fin s _ _, inf t => zero (s != t)
  | inf s, fin t _ _ => inf (s != t)
  | _, _ => nan

/-- Conversion `(float) i` of an integer. -/
def ofInt (i : Int) : F32 := round (decide (i < 0)) (i.natAbs * 2 ^ 149) 1

/-- The constant written `num / den` in decimal in the source (for example `0.80f` is `lit 80 100`). -/
def lit (num den : Nat) : F32 := round false (num * 2 ^ 149) den

/-- True on NaN. -/
def isNan : F32 → Bool
  | nan => true
  | _ => false

/-- Order key of a non-NaN value: signed number of units, infinities at `± 2 ^ 277`. -/
def ext : F32 → Int
  | nan => 0
  | inf s => sgn s (2 ^ 277)
  | fin s n _ => sgn s n

/-- The comparison `x < y` of C (false when an operand is NaN). -/
def lt (x y : F32) : Bool := !x.isNan && !y.isNan && decide (x.ext < y.ext)

/-- The comparison `x <= y` of C (false when an operand is NaN). -/
def le (x y : F32) : Bool := !x.isNan && !y.isNan && decide (x.ext ≤ y.ext)

/-- The comparison `x > y` of C. -/
def gt (x y : F32) : Bool := lt y x

/-- The comparison `x >= y` of C. -/
def ge (x y : F32) : Bool := le y x

/-- Exact value of a finite binary32 as a rational number (`0` on NaN and infinities). -/
def toRat : F32 → ℚ
  | fin s n _ => (sgn s n : ℚ) / 2 ^ 149
  | _ => 0

/-- Finite values. -/
def isFin : F32 → Bool
  | fin _ _ _ => true
  | _ => false

end F32

/-! ## The program -/

abbrev ZONAS : Nat := 5
abbrev DIAS : Nat := 30
abbrev CONT : Nat := 4

abbrev PM25 : Fin CONT := 0
abbrev NO2 : Fin CONT := 1
abbrev SO2 : Fin CONT := 2
abbrev CO2 : Fin CONT := 3

/-- Reference limits `{ 15.0f, 40.0f, 40.0f, 1000.0f }`. -/
def LIMITES (c : Fin CONT) : F32 :=
  if c = PM25 then F32.lit 15 1
  else if c = NO2 then F32.lit 40 1
  else if c = SO2 then F32.lit 40 1
  else F32.lit 1000 1

/-- The struct `Clima`. -/
structure Clima where
  temp : F32
  viento : F32
  humedad : F32
  deriving DecidableEq

/-- The struct `Zona`; the fixed-size arrays are indexed by `Fin`. -/
structure Zona where
  nombre : String
  hist : Fin CONT → Fin DIAS → F32
  climaActual : Clima
  promedio30 : Fin CONT → F32
  actual : Fin CONT → F32
  pred24h : Fin CONT → F32

/-- The array `Zona zonas[ZONAS]`. -/
abbrev Zonas := Fin ZONAS → Zona

/-- Names given by `inicializarZonas`. -/
def nombresZonas (i : Fin ZONAS) : String :=
  if i = 0 then "Centro Historico"
  else if i = 1 then "La Mariscal"
  else if i = 2 then "Carapungo"
  else if i = 3 then "Calderon"
  else "Quitumbe"

/-- State of the zones after `inicializarZonas`. -/
def inicializarZonas : Zonas := fun i =>
  { nombre := nombresZonas i
    hist := fun _ _ => F32.lit 0 1
    climaActual := { temp := F32.lit 18 1, viento := F32.lit 2 1, humedad := F32.lit 60 1 }
    promedio30 := fun _ => F32.lit 0 1
    actual := fun _ => F32.lit 0 1
    pred24h := fun _ => F32.lit 0 1 }

/-- Read `arr[i]` through a pointer to an array holding the entries of `arr`. -/
def leer (arr : List F32) (i : Int) : Option F32 :=
  if 0 ≤ i then arr[i.toNat]? else none

/-- The loop of `promedioArreglo`: `for (i = 0; i < n; i++, p++) suma += *p;`. -/
def promedioArreglo.bucle (arr : List F32) (n : Int) : Nat → Int → F32 → Option F32
  | 0, i, suma => if i < n then none else some suma
  | pasos + 1, i, suma =>
    if i < n then
      match leer arr i with
      | some x => promedioArreglo.bucle arr n pasos (i + 1) (F32.add suma x)
      | none => none
    else some suma

/-- The function `promedioArreglo(arr, n)`. -/
def promedioArreglo (arr : List F32) (n : Int) : Option F32 :=
  match promedioArreglo.bucle arr n n.toNat 0 (F32.lit 0 1) with
  | some suma => some (if 0 < n then F32.div suma (F32.ofInt n) else F32.lit 0 1)
  | none => none

/-- Range of the type `int`. -/
def enInt32 (x : Int) : Bool := decide (-(2 : Int) ^ 31 ≤ x) && decide (x < (2 : Int) ^ 31)

/-- The loop of `promedioPonderadoUltimos`, on the state `(i, peso, suma, sumaPesos)`.  Each
round ends with `peso++`, which must stay in the range of `int`. -/
def promedioPonderadoUltimos.bucle (arr30 : List F32) (nTotal : Int) :
    Nat → Int → Int → F32 → F32 → Option (F32 × F32)
  | 0, i, _, suma, sumaPesos => if i < nTotal then none else some (suma, sumaPesos)
  | pasos + 1, i, peso, suma, sumaPesos =>
    if i < nTotal then
      match leer arr30 i with
      | some x =>
        if enInt32 (peso + 1) then
          promedioPonderadoUltimos.bucle arr30 nTotal pasos (i + 1) (peso + 1)
            (F32.add suma (F32.mul x (F32.ofInt peso))) (F32.add sumaPesos (F32.ofInt peso))
        else none
      | none => none
    else some (suma, sumaPesos)

/-- The function `promedioPonderadoUltimos(arr30, nTotal, nUltimos)`. -/
def promedioPonderadoUltimos (arr30 : List F32) (nTotal nUltimos : Int) : Option F32 :=
  if enInt32 (nTotal - (if nUltimos > nTotal then nTotal else nUltimos)) then
    match promedioPonderadoUltimos.bucle arr30 nTotal
        (nTotal - (nTotal - (if nUltimos > nTotal then nTotal else nUltimos))).toNat
        (nTotal - (if nUltimos > nTotal then nTotal else nUltimos)) 1
        (F32.lit 0 1) (F32.lit 0 1) with
    | some (suma, sumaPesos) =>
      some (if F32.gt sumaPesos (F32.ofInt 0) then F32.div suma sumaPesos else F32.lit 0 1)
    | none => none
  else none

/-- The function `ajustarPorClima(valor, c)`. -/
def ajustarPorClima (valor : F32) (c : Clima) : F32 :=
  let valor1 := if F32.ge c.viento (F32.lit 40 10) then F32.mul valor (F32.lit 92 100) else valor
  let valor2 :=
    if F32.lt c.viento (F32.lit 15 10) && F32.ge c.humedad (F32.lit 750 10) then
      F32.mul valor1 (F32.lit 108 100)
    else valor1
  let valor3 := if F32.le c.temp (F32.lit 120 10) then F32.mul valor2 (F32.lit 105 100) else valor2
  valor3

/-- The function `nivelAlerta(valor, limite)`; it returns one of four string literals. -/
def nivelAlerta (valor limite : F32) : String :=
  if F32.lt valor (F32.mul (F32.lit 80 100) limite) then "Normal"
  else if F32.lt valor limite then "Preventiva"
  else if F32.lt valor (F32.mul (F32.lit 120 100) limite) then "Alerta"
  else "Critica"

/-- The choice of `nivelFinal` in `verResumen` (lines 348 to 351). -/
def nivelFinal (nivAct nivPred : String) : String :=
  if nivAct = "Critica" then "Critica"
  else if nivAct = "Alerta" ∧ nivPred ≠ "Critica" then "Alerta"
  else if nivAct = "Preventiva" ∧ nivPred = "Normal" then "Preventiva"
  else nivPred

/-- The level handed to `imprimirRecomendaciones` in `verResumen`, if any (lines 345 to 354). -/
def nivelRecomendado (nivAct nivPred : String) : Option String :=
  if nivAct ≠ "Normal" ∨ nivPred ≠ "Normal" then some (nivelFinal nivAct nivPred) else none

/-- One round `(i, c)` of the loops of `calcularPromediosYActual`. -/
def calcularPromediosYActual.paso (zonas : Zonas) (i : Fin ZONAS) (c : Fin CONT) : Option Zonas :=
  match promedioArreglo (List.ofFn ((zonas i).hist c)) DIAS with
  | some p =>
    some (Function.update zonas i
      { zonas i with
        promedio30 := Function.update (zonas i).promedio30 c p
        actual := Function.update (zonas i).actual c ((zonas i).hist c ⟨DIAS - 1, by decide⟩) })
  | none => none

/-- The function `calcularPromediosYActual(zonas)`. -/
def calcularPromediosYActual (zonas : Zonas) : Option Zonas :=
  (List.finRange ZONAS).foldlM
    (fun zs i => (List.finRange CONT).foldlM (fun zs2 c => calcularPromediosYActual.paso zs2 i c) zs)
    zonas

/-- One round `(i, c)` of the loops of `calcularPrediccion24h`. -/
def calcularPrediccion24h.paso (zonas : Zonas) (i : Fin ZONAS) (c : Fin CONT) : Option Zonas :=
  match promedioPonderadoUltimos (List.ofFn ((zonas i).hist c)) DIAS 7 with
  | some base =>
    some (Function.update zonas i
      { zonas i with
        pred24h := Function.update (zonas i).pred24h c
          (ajustarPorClima base (zonas i).climaActual) })
  | none => none

/-- The function `calcularPrediccion24h(zonas)`. -/
def calcularPrediccion24h (zonas : Zonas) : Option Zonas :=
  (List.finRange ZONAS).foldlM
    (fun zs i => (List.finRange CONT).foldlM (fun zs2 c => calcularPrediccion24h.paso zs2 i c) zs)
    zonas

/-! ### Persistence

The data file is modelled by its data lines (the header line is written by `guardarDatos`
and skipped by `cargarDatos`).  A line holds the zone name, the day number and seven numbers
printed with `"%.2f"`: such a field is the decimal number with two digits after the point
nearest to the exact binary32 value (ties to even), kept here as its sign and its number of
hundredths.  Reading a field with `"%f"` gives the binary32 value nearest to that decimal
number.  The model covers lines that fit the 256-byte buffer of `cargarDatos`, day numbers that
fit an `int` and zone names without a comma, which is the case of the five names of the program and of all values below
`10 ^ 28` in magnitude; opening the file is assumed to succeed. -/

/-- A number as printed by `"%.2f"`. -/
inductive Texto2 where
  | num (neg : Bool) (centesimas : Nat) : Texto2
  | inf (neg : Bool) : Texto2
  | nan : Texto2
  deriving DecidableEq

/-- Printing with `"%.2f"`. -/
def fmt2 : F32 → Texto2
  | F32.fin s n _ => Texto2.num s (rne (n * 100) (2 ^ 149))
  | F32.inf s => Texto2.inf s
  | F32.nan => Texto2.nan

/-- Reading with `"%f"` a number printed by `"%.2f"`. -/
def scanF : Texto2 → F32
  | Texto2.num s h => F32.round s (h * 2 ^ 149) 100
  | Texto2.inf s => F32.inf s
  | Texto2.nan => F32.nan

/-- One data line `zona,dia,pm25,no2,so2,co2,temp,viento,humedad`.  The day is the value that
`"%d"` stores in the `int dia`, so it lies in the range of `int`. -/
structure Fila where
  zona : String
  dia : Int
  diaEnInt : enInt32 dia = true
  pm25 : Texto2
  no2 : Texto2
  so2 : Texto2
  co2 : Texto2
  temp : Texto2
  viento : Texto2
  humedad : Texto2

/-- The line written by `guardarDatos` for zone `i` and day index `d`. -/
def guardarDatos.fila (zonas : Zonas) (i : Fin ZONAS) (d : Fin DIAS) : Fila :=
  { zona := (zonas i).nombre
    dia := (d.val : Int) + 1
    diaEnInt := by
      have h : d.val < 30 := d.isLt
      unfold enInt32
      simp only [Bool.and_eq_true, decide_eq_true_eq]
      omega
    pm25 := fmt2 ((zonas i).hist PM25 d)
    no2 := fmt2 ((zonas i).hist NO2 d)
    so2 := fmt2 ((zonas i).hist SO2 d)
    co2 := fmt2 ((zonas i).hist CO2 d)
    temp := fmt2 (zonas i).climaActual.temp
    viento := fmt2 (zonas i).climaActual.viento
    humedad := fmt2 (zonas i).climaActual.humedad }

/-- The data lines written by `guardarDatos(zonas)`. -/
def guardarDatos (zonas : Zonas) : List Fila :=
  (List.finRange ZONAS).flatMap (fun i => (List.finRange DIAS).map (fun d => guardarDatos.fila zonas i d))

/-- The search `for (i = 0; i < ZONAS; i++) if (strcmp(...) == 0) { idx = i; break; }`. -/
def cargarDatos.buscar (zonas : Zonas) (zonaNombre : String) : Option (Fin ZONAS) :=
  (List.finRange ZONAS).find? (fun i => decide (zonaNombre = (zonas i).nombre))

/-- The effect of one data line in `cargarDatos`. -/
def cargarDatos.linea (zonas : Zonas) (f : Fila) : Zonas :=
  match cargarDatos.buscar zonas f.zona with
  | some idx =>
    if h : 1 ≤ f.dia ∧ f.dia ≤ (DIAS : Int) then
      Function.update zonas idx
        { zonas idx with
          hist :=
            Function.update (Function.update (Function.update (Function.update (zonas idx).hist
              PM25 (Function.update ((zonas idx).hist PM25)
                ⟨(f.dia - 1).toNat, by omega⟩ (scanF f.pm25)))
              NO2 (Function.update ((zonas idx).hist NO2)
                ⟨(f.dia - 1).toNat, by omega⟩ (scanF f.no2)))
              SO2 (Function.update ((zonas idx).hist SO2)
                ⟨(f.dia - 1).toNat, by omega⟩ (scanF f.so2)))
              CO2 (Function.update ((zonas idx).hist CO2)
                ⟨(f.dia - 1).toNat, by omega⟩ (scanF f.co2))
          climaActual :=
            { temp := scanF f.temp, viento := scanF f.viento, humedad := scanF f.humedad } }
    else zonas
  | none => zonas

/-- The function `cargarDatos(zonas)` on a file holding the data lines `archivo`. -/
def cargarDatos (archivo : List Fila) (zonas : Zonas) : Zonas :=
  archivo.foldl cargarDatos.linea zonas

/-! ## Vocabulary of the specification -/

/-- The four alert levels, in increasing severity. -/
def niveles : List String := ["Normal", "Preventiva", "Alerta", "Critica"]

/-- Ordinal of an alert level: Normal < Preventiva < Alerta < Critica. -/
def rangoNivel (s : String) : Nat :=
  if s = "Normal" then 0 else if s = "Preventiva" then 1 else if s = "Alerta" then 2 else 3

/-- The more severe of two alert levels (the second one on a tie). -/
def maxNivel (a b : String) : String := if rangoNivel a ≤ rangoNivel b then b else a

/-- Binary32 sum of a list, from `0.0f`, left to right. -/
def sumaF (l : List F32) : F32 := l.foldl F32.add (F32.lit 0 1)

/-- The weights `1, 2, ..., k`, converted to binary32. -/
def pesosVentana (k : Nat) : List F32 :=
  (List.range' 1 k).map (fun p : Nat => F32.ofInt (p : Int))

/-- The last `k` entries of a sequence. -/
def ultimos (arr : List F32) (k : Nat) : List F32 := arr.drop (arr.length - k)

/-- The weighted recency average in the words of the specification, computed in binary32:
the last `k = min(windowSize, N)` entries with the weights `1, ..., k`,
`sum(value_i * weight_i) / sum(weight_i)`, and `0` for an empty window. -/
def promedioPonderadoSpec (arr : List F32) (windowSize : Int) : F32 :=
  if (min windowSize (arr.length : Int)).toNat = 0 then F32.lit 0 1
  else F32.div
    (sumaF (List.zipWith F32.mul (ultimos arr (min windowSize (arr.length : Int)).toNat)
      (pesosVentana (min windowSize (arr.length : Int)).toNat)))
    (sumaF (pesosVentana (min windowSize (arr.length : Int)).toNat))

/-- The binary32 value with sign `neg` and `n` units, an infinity if there is none. -/
def F32.ofUnits (neg : Bool) (n : Nat) : F32 :=
  if h : IsRep n then F32.fin neg n h else F32.inf neg

/-- The binary32 value of `z` units (`+0` for `z = 0`). -/
def F32.ofSigned (z : Int) : F32 := F32.ofUnits (decide (z < 0)) z.natAbs

/-- Finite values below `2 ^ 123` in magnitude with at most 19 significant bits, except `-0`. -/
def F32.corto : F32 → Bool
  | F32.fin s n _ =>
    decide (n % 2 ^ (ilog2 n - 18) = 0) && decide (n < 2 ^ 272) && !(s && decide (n = 0))
  | _ => false

/-- All partial sums `t, t + z1, t + z1 + z2, ...` and all summands are binary32 values. -/
def SumasRep : Int → List Int → Prop
  | t, [] => IsRep t.natAbs
  | t, z :: zs => IsRep t.natAbs ∧ IsRep z.natAbs ∧ SumasRep (t + z) zs

/-- All products `z_i * (p + i)` are binary32 values, with weights from `1` to `2 ^ 24`. -/
def ProdRep : List Int → Nat → Prop
  | [], _ => True
  | z :: zs, p => IsRep z.natAbs ∧ IsRep (z * (p : Int)).natAbs ∧ 1 ≤ p ∧ p ≤ 2 ^ 24 ∧
      ProdRep zs (p + 1)

/-- Zone after the assignments of `calcularPromediosYActual` for the pollutant `c`. -/
def Zona.conPromedio (z : Zona) (c : Fin CONT) : Zona :=
  { z with
    promedio30 := Function.update z.promedio30 c
      (F32.div (sumaF (List.ofFn (z.hist c))) (F32.ofInt 30))
    actual := Function.update z.actual c (z.hist c ⟨DIAS - 1, by decide⟩) }

/-- Zone after the assignment of `calcularPrediccion24h` for the pollutant `c`. -/
def Zona.conPrediccion (z : Zona) (c : Fin CONT) : Zona :=
  { z with
    pred24h := Function.update z.pred24h c
      (ajustarPorClima (promedioPonderadoSpec (List.ofFn (z.hist c)) 7) z.climaActual) }

/-- The recomputation done by `verResumen` and by the report export:
`calcularPromediosYActual(zonas); calcularPrediccion24h(zonas);`. -/
def recalcular (zonas : Zonas) : Option Zonas :=
  (calcularPromediosYActual zonas).bind calcularPrediccion24h

/-- A store whose history is the constant `x` for every zone, pollutant and day, under the
climate `c`: the fixture of the end-to-end example of the specification. -/
def zonasConstantes (x : F32) (c : Clima) : Zonas := fun i =>
  { inicializarZonas i with
    hist := fun _ _ => x
    climaActual := c }

/-- Values written with at most two decimals, from 0 to 10000. -/
def F32.dosDecimales (x : F32) : Prop := ∃ h : Nat, h ≤ 1000000 ∧ x = F32.lit h 100

/-- The climate as read back from the file. -/
def Clima.releido (c : Clima) : Clima :=
  { temp := scanF (fmt2 c.temp), viento := scanF (fmt2 c.viento), humedad := scanF (fmt2 c.humedad) }

/-! ## Lemmas on rounding -/

theorem log2Aux_spec : ∀ (fuel n : Nat), n ≤ fuel → n ≠ 0 →
    2 ^ log2Aux fuel n ≤ n ∧ n < 2 ^ (log2Aux fuel n + 1) := by
  intro fuel
  induction fuel with
  | zero => intro n h h0; omega
  | succ f ih =>
    intro n h h0
    unfold log2Aux
    by_cases h2 : n < 2
    · simp only [h2, if_true]
      constructor
      · simp; omega
      · simp; omega
    · simp only [h2, if_false]
      have h3 := ih (n / 2) (by omega) (by omega)
      obtain ⟨h4, h5⟩ := h3
      constructor
      · rw [pow_succ]; omega
      · rw [pow_succ]; omega

theorem ilog2_eq_log (n : Nat) : ilog2 n = Nat.log 2 n := by
  by_cases h0 : n = 0
  · subst h0; simp [ilog2, log2Aux]
  · obtain ⟨h1, h2⟩ := log2Aux_spec n n le_rfl h0
    exact ((Nat.log_eq_iff (Or.inr ⟨by norm_num, h0⟩)).mpr ⟨h1, h2⟩).symm

theorem ilog2_mono {m n : Nat} (h : m ≤ n) : ilog2 m ≤ ilog2 n := by
  rw [ilog2_eq_log, ilog2_eq_log]; exact Nat.log_mono_right h

theorem pow_ilog2_le {n : Nat} (h : n ≠ 0) : 2 ^ ilog2 n ≤ n := by
  rw [ilog2_eq_log]; exact Nat.pow_log_le_self 2 h

theorem lt_pow_ilog2 (n : Nat) : n < 2 ^ (ilog2 n + 1) := by
  rw [ilog2_eq_log]; exact Nat.lt_pow_succ_log_self (by norm_num) n

theorem ilog2_lt_of_lt_pow {n k : Nat} (h : n < 2 ^ k) (hk : 0 < k) : ilog2 n < k := by
  by_cases h0 : n = 0
  · subst h0; simpa [ilog2_eq_log] using hk
  · have h1 := pow_ilog2_le h0
    exact (Nat.pow_lt_pow_iff_right (by norm_num : 1 < 2)).mp (lt_of_le_of_lt h1 h)

theorem le_ilog2_of_pow_le {n k : Nat} (h : 2 ^ k ≤ n) : k ≤ ilog2 n := by
  have h1 := lt_pow_ilog2 n
  have := (Nat.pow_lt_pow_iff_right (by norm_num : 1 < 2)).mp (lt_of_le_of_lt h h1)
  omega

/-! rne -/

theorem rne_le_of_le {a b k : Nat} (hb : 0 < b) (h : a ≤ k * b) : rne a b ≤ k := by
  have hq : a / b ≤ k := by
    calc a / b ≤ k * b / b := Nat.div_le_div_right h
      _ = k := Nat.mul_div_cancel k hb
  have hdm := Nat.div_add_mod a b
  unfold rne
  by_cases hlt : a / b < k
  · split_ifs <;> omega
  · have hqk : a / b = k := by omega
    have hr : a % b = 0 := by
      rw [hqk] at hdm
      have : b * k = k * b := Nat.mul_comm b k
      omega
    simp [hr, hb, hqk]

theorem le_rne_of_le {a b k : Nat} (hb : 0 < b) (h : k * b ≤ a) : k ≤ rne a b := by
  have hq : k ≤ a / b := (Nat.le_div_iff_mul_le hb).mpr h
  unfold rne
  split_ifs <;> omega

theorem rne_mul (k b : Nat) (hb : 0 < b) : rne (k * b) b = k :=
  le_antisymm (rne_le_of_le hb le_rfl) (le_rne_of_le hb le_rfl)

theorem rne_mono {a b c d : Nat} (hb : 0 < b) (hd : 0 < d) (h : a * d ≤ c * b) :
    rne a b ≤ rne c d := by
  have hq : a / b ≤ c / d := by
    rw [Nat.le_div_iff_mul_le hd]
    have h1 : a / b * b ≤ a := Nat.div_mul_le_self a b
    have h2 : a / b * d * b ≤ c * b := by
      calc a / b * d * b = a / b * b * d := by ring
        _ ≤ a * d := Nat.mul_le_mul_right d h1
        _ ≤ c * b := h
    exact Nat.le_of_mul_le_mul_right h2 hb
  by_cases hlt : a / b < c / d
  · have h1 : rne a b ≤ a / b + 1 := by unfold rne; split_ifs <;> omega
    have h2 : c / d ≤ rne c d := by unfold rne; split_ifs <;> omega
    omega
  · have heq : a / b = c / d := by omega
    have e1 := Nat.div_add_mod a b
    have e2 := Nat.div_add_mod c d
    -- a % b / b ≤ c % d / d
    have hr : (a % b) * d ≤ (c % d) * b := by
      have : (b * (a / b) + a % b) * d ≤ (d * (c / d) + c % d) * b := by rw [e1, e2]; exact h
      rw [heq] at this
      nlinarith
    set q := c / d
    set r := a % b
    set s := c % d
    have hrb : r < b := Nat.mod_lt a hb
    have hsd : s < d := Nat.mod_lt c hd
    unfold rne
    simp only [heq]
    show (if 2 * r < b then q else if b < 2 * r then q + 1 else if q % 2 = 0 then q else q + 1) ≤
      (if 2 * s < d then q else if d < 2 * s then q + 1 else if q % 2 = 0 then q else q + 1)
    by_cases c1 : 2 * r < b
    · simp only [c1, if_true]; split_ifs <;> omega
    · have hb2 : b ≤ 2 * r := by omega
      have n1 : ¬ 2 * s < d := by
        intro hc
        nlinarith
      simp only [c1, n1, if_false]
      by_cases c2 : b < 2 * r
      · have : d < 2 * s := by nlinarith
        simp [c2, this]
      · simp only [c2, if_false]
        split_ifs <;> omega

theorem rne_err (a b : Nat) (hb : 0 < b) :
    2 * (rne a b * b) ≤ 2 * a + b ∧ 2 * a ≤ 2 * (rne a b * b) + b := by
  have e1 := Nat.div_add_mod a b
  have hrb : a % b < b := Nat.mod_lt a hb
  set q := a / b
  set r := a % b
  have hc : b * q = q * b := Nat.mul_comm _ _
  unfold rne
  show 2 * ((if 2 * r < b then q else if b < 2 * r then q + 1 else if q % 2 = 0 then q else q + 1) * b) ≤ 2 * a + b ∧ 2 * a ≤ 2 * ((if 2 * r < b then q else if b < 2 * r then q + 1 else if q % 2 = 0 then q else q + 1) * b) + b
  split_ifs <;> constructor <;> nlinarith

theorem rne_unique {a b k : Nat} (hb : 0 < b) (h1 : 2 * a < 2 * (k * b) + b)
    (h2 : 2 * (k * b) < 2 * a + b) : rne a b = k := by
  obtain ⟨e1, e2⟩ := rne_err a b hb
  set m := rne a b
  by_contra hne
  rcases Nat.lt_or_gt_of_ne hne with hlt | hgt
  · have : (m + 1) * b ≤ k * b := Nat.mul_le_mul_right b hlt
    nlinarith
  · have : (k + 1) * b ≤ m * b := Nat.mul_le_mul_right b hgt
    nlinarith

namespace F32

theorem lt_pow_qexp (a b : Nat) (hb : 0 < b) : a < 2 ^ (24 + qexp a b) * b := by
  have h1 := lt_pow_ilog2 (a / b)
  have h2 : 2 ^ (ilog2 (a / b) + 1) ≤ 2 ^ (24 + qexp a b) := by
    apply Nat.pow_le_pow_right (by norm_num)
    unfold qexp; omega
  have h3 : a / b < 2 ^ (24 + qexp a b) := lt_of_lt_of_le h1 h2
  exact (Nat.div_lt_iff_lt_mul hb).mp h3

theorem pow_qexp_le (a b : Nat) (hb : 0 < b) (hj : 0 < qexp a b) :
    2 ^ (23 + qexp a b) * b ≤ a := by
  have h0 : a / b ≠ 0 := by
    intro h
    unfold qexp at hj
    rw [h] at hj
    simp [ilog2, log2Aux] at hj
  have h1 := pow_ilog2_le h0
  have h2 : 23 + qexp a b = ilog2 (a / b) := by unfold qexp at hj ⊢; omega
  rw [h2]
  exact (Nat.le_div_iff_mul_le hb).mp h1

theorem rmag_le_pow (a b : Nat) (hb : 0 < b) : rmag a b ≤ 2 ^ (24 + qexp a b) := by
  have h1 := lt_pow_qexp a b hb
  have hpos : 0 < b * 2 ^ qexp a b := Nat.mul_pos hb (by positivity)
  have h2 : rne a (b * 2 ^ qexp a b) ≤ 2 ^ 24 := by
    apply rne_le_of_le hpos
    have : 2 ^ (24 + qexp a b) * b = 2 ^ 24 * (b * 2 ^ qexp a b) := by
      rw [pow_add]; ring
    omega
  calc rmag a b = rne a (b * 2 ^ qexp a b) * 2 ^ qexp a b := rfl
    _ ≤ 2 ^ 24 * 2 ^ qexp a b := Nat.mul_le_mul_right _ h2
    _ = 2 ^ (24 + qexp a b) := by rw [pow_add]

theorem pow_le_rmag (a b : Nat) (hb : 0 < b) (hj : 0 < qexp a b) :
    2 ^ (23 + qexp a b) ≤ rmag a b := by
  have h1 := pow_qexp_le a b hb hj
  have hpos : 0 < b * 2 ^ qexp a b := Nat.mul_pos hb (by positivity)
  have h2 : 2 ^ 23 ≤ rne a (b * 2 ^ qexp a b) := by
    apply le_rne_of_le hpos
    have : 2 ^ (23 + qexp a b) * b = 2 ^ 23 * (b * 2 ^ qexp a b) := by
      rw [pow_add]; ring
    omega
  calc 2 ^ (23 + qexp a b) = 2 ^ 23 * 2 ^ qexp a b := by rw [pow_add]
    _ ≤ rne a (b * 2 ^ qexp a b) * 2 ^ qexp a b := Nat.mul_le_mul_right _ h2

theorem isRep_dvd {n : Nat} (h : IsRep n) : 2 ^ (ilog2 n - 23) ∣ n :=
  Nat.dvd_of_mod_eq_zero h.2

theorem isRep_of_mul_pow {M j : Nat} (hM : M ≤ 2 ^ 24) (hn : M * 2 ^ j < 2 ^ 277) :
    IsRep (M * 2 ^ j) := by
  refine ⟨hn, Nat.mod_eq_zero_of_dvd ?_⟩
  rcases Nat.lt_or_ge M (2 ^ 24) with hlt | hge
  · have h1 : M * 2 ^ j < 2 ^ (24 + j) := by
      rw [pow_add]; exact Nat.mul_lt_mul_of_lt_of_le hlt le_rfl (by positivity)
    have h2 := ilog2_lt_of_lt_pow h1 (by omega)
    have h3 : ilog2 (M * 2 ^ j) - 23 ≤ j := by omega
    exact Dvd.dvd.mul_left (Nat.pow_dvd_pow 2 h3) M
  · have hMe : M = 2 ^ 24 := le_antisymm hM hge
    subst hMe
    have e : (2 : Nat) ^ 24 * 2 ^ j = 2 ^ (24 + j) := (pow_add 2 24 j).symm
    rw [e]
    have h1 : (2 : Nat) ^ (24 + j) < 2 ^ (25 + j) :=
      Nat.pow_lt_pow_right (by norm_num) (by omega)
    have h2 := ilog2_lt_of_lt_pow h1 (by omega)
    exact Nat.pow_dvd_pow 2 (by omega)

theorem isRep_rmag (a b : Nat) (hb : 0 < b) (h : rmag a b < 2 ^ 277) : IsRep (rmag a b) := by
  have hpos : 0 < b * 2 ^ qexp a b := Nat.mul_pos hb (by positivity)
  have h1 := lt_pow_qexp a b hb
  have h2 : rne a (b * 2 ^ qexp a b) ≤ 2 ^ 24 := by
    apply rne_le_of_le hpos
    have : 2 ^ (24 + qexp a b) * b = 2 ^ 24 * (b * 2 ^ qexp a b) := by
      rw [pow_add]; ring
    omega
  exact isRep_of_mul_pow h2 h

theorem rmag_exact {n b : Nat} (hn : IsRep n) (hb : 0 < b) : rmag (n * b) b = n := by
  have hj : qexp (n * b) b = ilog2 n - 23 := by
    unfold qexp; rw [Nat.mul_div_cancel n hb]
  obtain ⟨k, hk⟩ := isRep_dvd hn
  unfold rmag
  rw [hj]
  set p := 2 ^ (ilog2 n - 23) with hp
  have hpos : 0 < b * p := Nat.mul_pos hb (by positivity)
  have : n * b = k * (b * p) := by rw [hk]; ring
  rw [this, rne_mul k _ hpos, hk]; ring

theorem qexp_mono {a b c d : Nat} (hb : 0 < b) (hd : 0 < d) (h : a * d ≤ c * b) :
    qexp a b ≤ qexp c d := by
  have hq : a / b ≤ c / d := by
    rw [Nat.le_div_iff_mul_le hd]
    have h1 : a / b * b ≤ a := Nat.div_mul_le_self a b
    have h2 : a / b * d * b ≤ c * b := by
      calc a / b * d * b = a / b * b * d := by ring
        _ ≤ a * d := Nat.mul_le_mul_right d h1
        _ ≤ c * b := h
    exact Nat.le_of_mul_le_mul_right h2 hb
  have := ilog2_mono hq
  unfold qexp; omega

theorem rmag_mono {a b c d : Nat} (hb : 0 < b) (hd : 0 < d) (h : a * d ≤ c * b) :
    rmag a b ≤ rmag c d := by
  have hj := qexp_mono hb hd h
  rcases Nat.lt_or_ge (qexp a b) (qexp c d) with hlt | hge
  · have h1 := rmag_le_pow a b hb
    have h2 := pow_le_rmag c d hd (by omega)
    have h3 : 2 ^ (24 + qexp a b) ≤ 2 ^ (23 + qexp c d) :=
      Nat.pow_le_pow_right (by norm_num) (by omega)
    omega
  · have he : qexp a b = qexp c d := by omega
    unfold rmag
    rw [he]
    apply Nat.mul_le_mul_right
    apply rne_mono (Nat.mul_pos hb (by positivity)) (Nat.mul_pos hd (by positivity))
    calc a * (d * 2 ^ qexp c d) = a * d * 2 ^ qexp c d := by ring
      _ ≤ c * b * 2 ^ qexp c d := Nat.mul_le_mul_right _ h
      _ = c * (b * 2 ^ qexp c d) := by ring

theorem rmag_le_of_le {a b F : Nat} (hF : IsRep F) (hb : 0 < b) (h : a ≤ F * b) :
    rmag a b ≤ F := by
  have h1 : rmag a b ≤ rmag (F * b) b := rmag_mono hb hb (Nat.mul_le_mul_right b h)
  rwa [rmag_exact hF hb] at h1

theorem le_rmag_of_le {a b F : Nat} (hF : IsRep F) (hb : 0 < b) (h : F * b ≤ a) :
    F ≤ rmag a b := by
  have h1 : rmag (F * b) b ≤ rmag a b := rmag_mono hb hb (Nat.mul_le_mul_right b h)
  rwa [rmag_exact hF hb] at h1

theorem rmag_err (a b : Nat) (hb : 0 < b) :
    2 * (rmag a b * b) ≤ 2 * a + b * 2 ^ qexp a b ∧
    2 * a ≤ 2 * (rmag a b * b) + b * 2 ^ qexp a b := by
  have hpos : 0 < b * 2 ^ qexp a b := Nat.mul_pos hb (by positivity)
  obtain ⟨h1, h2⟩ := rne_err a (b * 2 ^ qexp a b) hpos
  have e : rmag a b * b = rne a (b * 2 ^ qexp a b) * (b * 2 ^ qexp a b) := by
    unfold rmag; ring
  rw [e]
  exact ⟨h1, h2⟩


theorem isNan_round (s : Bool) (a b : Nat) : (round s a b).isNan = false := by
  unfold round; split <;> rfl

theorem ext_round (s : Bool) (a b : Nat) (hb : 0 < b) :
    (round s a b).ext = sgn s (min (rmag a b) (2 ^ 277)) := by
  unfold round
  split
  · rename_i h
    simp only [ext]
    rw [Nat.min_eq_left (le_of_lt h.1)]
  · rename_i h
    have h1 : 2 ^ 277 ≤ rmag a b := by
      by_contra hc
      exact h (isRep_rmag a b hb (by omega))
    simp only [ext]
    rw [Nat.min_eq_right h1]

theorem round_exact (s : Bool) {n b : Nat} (hn : IsRep n) (hb : 0 < b) :
    round s (n * b) b = fin s n hn := by
  have e := rmag_exact hn hb
  unfold round
  have h : IsRep (rmag (n * b) b) := by rw [e]; exact hn
  rw [dif_pos h]
  congr

theorem lt_iff (x y : F32) :
    lt x y = true ↔ x.isNan = false ∧ y.isNan = false ∧ x.ext < y.ext := by
  unfold lt; simp [and_assoc]

theorem le_iff (x y : F32) :
    le x y = true ↔ x.isNan = false ∧ y.isNan = false ∧ x.ext ≤ y.ext := by
  unfold le; simp [and_assoc]

theorem lt_of_le_lt {x y z : F32} (h1 : le x y = true) (h2 : lt y z = true) :
    lt x z = true := by
  rw [le_iff] at h1; rw [lt_iff] at h2 ⊢
  exact ⟨h1.1, h2.2.1, Int.lt_of_le_of_lt h1.2.2 h2.2.2⟩

theorem isRep_one : IsRep (2 ^ 149) := by decide!

theorem lit_one : lit 1 1 = fin false (2 ^ 149) isRep_one := by
  have := round_exact false isRep_one (Nat.one_pos)
  simpa [lit] using this

theorem mul_lit_one (x : F32) : mul x (lit 1 1) = x := by
  rw [lit_one]
  cases x with
  | nan => rfl
  | inf s => simp [mul]
  | fin s m h =>
    simp only [mul, Bool.bne_false]
    exact round_exact s h (by positivity)


theorem rmag_zero (b : Nat) : rmag 0 b = 0 := by
  simp [rmag, rne]

theorem sgn_nonneg_iff (s : Bool) (n : Nat) : 0 ≤ sgn s n ↔ (s = false ∨ n = 0) := by
  cases s <;> simp [sgn]

theorem sgn_eq_of_nonneg {s : Bool} {n : Nat} (h : 0 ≤ sgn s n) : sgn s n = n := by
  cases s
  · simp [sgn]
  · simp [sgn] at h ⊢; omega

/-- Non-negative non-NaN values are `+inf` or finite with `ext` equal to the magnitude. -/
theorem nonneg_cases {x : F32} (hx : x.isNan = false) (h0 : 0 ≤ x.ext) :
    x = inf false ∨ ∃ s n h, x = fin s n h ∧ x.ext = n := by
  cases x with
  | nan => simp [isNan] at hx
  | inf s =>
    cases s
    · exact Or.inl rfl
    · simp [ext, sgn] at h0
  | fin s n h =>
    right
    exact ⟨s, n, h, rfl, sgn_eq_of_nonneg h0⟩

theorem pos_fin_cases {c : F32} (hf : c.isFin = true) (h0 : 0 < c.ext) :
    ∃ k h, c = fin false k h ∧ 0 < k ∧ c.ext = k := by
  cases c with
  | nan => simp [isFin] at hf
  | inf s => simp [isFin] at hf
  | fin s n h =>
    cases s
    · refine ⟨n, h, rfl, ?_, ?_⟩
      · simp [ext, sgn] at h0; exact h0
      · simp [ext, sgn]
    · simp [ext, sgn] at h0; omega

theorem isNan_mul_pos {x c : F32} (hx : x.isNan = false) (hc : c.isFin = true)
    (hc0 : 0 < c.ext) : (mul x c).isNan = false := by
  obtain ⟨k, hk, rfl, hk0, -⟩ := pos_fin_cases hc hc0
  cases x with
  | nan => simp [isNan] at hx
  | inf s => simp [mul, Nat.pos_iff_ne_zero.mp hk0, isNan]
  | fin s n h => simp only [mul]; exact isNan_round _ _ _

/-- Product of a non-negative finite value by a positive finite constant. -/
theorem ext_mul_fin {s : Bool} {n k : Nat} (h : IsRep n) (hk : IsRep k)
    (h0 : 0 ≤ sgn s n) :
    (mul (fin s n h) (fin false k hk)).ext = ((min (rmag (n * k) (2 ^ 149)) (2 ^ 277) : Nat) : Int) := by
  simp only [mul, Bool.bne_false]
  rw [ext_round _ _ _ (by positivity)]
  rcases (sgn_nonneg_iff s n).mp h0 with hs | hn
  · subst hs; simp [sgn]
  · subst hn; simp [rmag_zero, sgn]

theorem mul_le_self {x c : F32} (hx : x.isNan = false) (h0 : 0 ≤ x.ext)
    (hc : c.isFin = true) (hc0 : 0 < c.ext) (hc1 : c.ext ≤ 2 ^ 149) :
    le (mul x c) x = true := by
  rw [le_iff]
  refine ⟨isNan_mul_pos hx hc hc0, hx, ?_⟩
  obtain ⟨k, hk, rfl, hk0, hke⟩ := pos_fin_cases hc hc0
  rw [hke] at hc1
  rcases nonneg_cases hx h0 with rfl | ⟨s, n, h, rfl, he⟩
  · simp [mul, Nat.pos_iff_ne_zero.mp hk0]
  · rw [ext_mul_fin h hk h0, he]
    have h1 : rmag (n * k) (2 ^ 149) ≤ n := by
      apply rmag_le_of_le h (by positivity)
      exact Nat.mul_le_mul_left n (by exact_mod_cast hc1)
    have : min (rmag (n * k) (2 ^ 149)) (2 ^ 277) ≤ n := le_trans (Nat.min_le_left _ _) h1
    exact_mod_cast this

theorem self_le_mul {x c : F32} (hx : x.isNan = false) (h0 : 0 ≤ x.ext)
    (hc : c.isFin = true) (hc1 : 2 ^ 149 ≤ c.ext) :
    le x (mul x c) = true := by
  have hc0 : 0 < c.ext := lt_of_lt_of_le (by positivity) hc1
  rw [le_iff]
  refine ⟨hx, isNan_mul_pos hx hc hc0, ?_⟩
  obtain ⟨k, hk, rfl, hk0, hke⟩ := pos_fin_cases hc hc0
  rw [hke] at hc1
  rcases nonneg_cases hx h0 with rfl | ⟨s, n, h, rfl, he⟩
  · simp [mul, Nat.pos_iff_ne_zero.mp hk0]
  · rw [ext_mul_fin h hk h0, he]
    have h1 : n ≤ rmag (n * k) (2 ^ 149) := by
      apply le_rmag_of_le h (by positivity)
      exact Nat.mul_le_mul_left n (by exact_mod_cast hc1)
    have : n ≤ min (rmag (n * k) (2 ^ 149)) (2 ^ 277) := le_min h1 (le_of_lt h.1)
    exact_mod_cast this

theorem mul_mono {x y c : F32} (hx : x.isNan = false) (h0 : 0 ≤ x.ext)
    (hxy : le x y = true) (hc : c.isFin = true) (hc0 : 0 < c.ext) :
    le (mul x c) (mul y c) = true := by
  rw [le_iff] at hxy
  obtain ⟨-, hy, hle⟩ := hxy
  have hy0 : 0 ≤ y.ext := le_trans h0 hle
  rw [le_iff]
  refine ⟨isNan_mul_pos hx hc hc0, isNan_mul_pos hy hc hc0, ?_⟩
  obtain ⟨k, hk, rfl, hk0, hke⟩ := pos_fin_cases hc hc0
  rcases nonneg_cases hy hy0 with rfl | ⟨t, m, hm, rfl, hem⟩
  · rcases nonneg_cases hx h0 with rfl | ⟨s, n, h, rfl, he⟩
    · exact le_rfl
    · rw [ext_mul_fin h hk h0]
      have e : (mul (inf false) (fin false k hk)).ext = ((2 ^ 277 : Nat) : Int) := by
        simp [mul, Nat.pos_iff_ne_zero.mp hk0, ext, sgn]
      rw [e]
      have : min (rmag (n * k) (2 ^ 149)) (2 ^ 277) ≤ 2 ^ 277 := Nat.min_le_right _ _
      exact_mod_cast this
  · rcases nonneg_cases hx h0 with rfl | ⟨s, n, h, rfl, he⟩
    · exfalso
      rw [hem] at hle
      simp only [ext, sgn] at hle
      have := hm.1
      have h2 : ((2 ^ 277 : Nat) : Int) ≤ (m : Int) := by simpa using hle
      omega
    · rw [ext_mul_fin h hk h0, ext_mul_fin hm hk hy0]
      rw [he, hem] at hle
      have hnm : n ≤ m := by exact_mod_cast hle
      have h1 : rmag (n * k) (2 ^ 149) ≤ rmag (m * k) (2 ^ 149) := by
        apply rmag_mono (by positivity) (by positivity)
        exact Nat.mul_le_mul_right _ (Nat.mul_le_mul_right k hnm)
      have : min (rmag (n * k) (2 ^ 149)) (2 ^ 277) ≤ min (rmag (m * k) (2 ^ 149)) (2 ^ 277) :=
        min_le_min_right _ h1
      exact_mod_cast this

theorem rmag_mul_lt {n k : Nat} (hn : 3 ≤ n) (hk : 6 * k < 5 * 2 ^ 149) :
    rmag (n * k) (2 ^ 149) < n := by
  by_contra hc
  have hR : n ≤ rmag (n * k) (2 ^ 149) := by omega
  obtain ⟨h1, -⟩ := rmag_err (n * k) (2 ^ 149) (by positivity)
  obtain ⟨d, hd⟩ : ∃ d, k + d = 2 ^ 149 := ⟨2 ^ 149 - k, by omega⟩
  have e1 : n * k + n * d = n * 2 ^ 149 := by rw [← Nat.mul_add, hd]
  have e2 : 3 * d ≤ n * d := Nat.mul_le_mul_right d hn
  have e3 : n * k ≤ 6 * (n * d) := by
    have : k ≤ 6 * d := by omega
    calc n * k ≤ n * (6 * d) := Nat.mul_le_mul_left n this
      _ = 6 * (n * d) := by ring
  have e4 : n * 2 ^ 149 ≤ rmag (n * k) (2 ^ 149) * 2 ^ 149 := Nat.mul_le_mul_right _ hR
  by_cases hq : qexp (n * k) (2 ^ 149) = 0
  · rw [hq] at h1
    omega
  · have h2 := pow_qexp_le (n * k) (2 ^ 149) (by positivity) (by omega)
    rw [pow_add] at h2
    generalize 2 ^ qexp (n * k) (2 ^ 149) = X at h1 h2
    generalize rmag (n * k) (2 ^ 149) = R at h1 e4
    have h3 : 2 ^ 23 * (2 ^ 149 * X) ≤ n * k := by
      calc 2 ^ 23 * (2 ^ 149 * X) = 2 ^ 23 * X * 2 ^ 149 := by ring
        _ ≤ n * k := h2
    generalize n * k = A at *
    generalize n * d = D at *
    generalize 2 ^ 149 * X = Y at *
    omega

theorem lt_rmag_mul {n k : Nat} (hn : 3 ≤ n) (hk : 7 * 2 ^ 149 < 6 * k) :
    n < rmag (n * k) (2 ^ 149) := by
  by_contra hc
  have hR : rmag (n * k) (2 ^ 149) ≤ n := by omega
  obtain ⟨-, h1⟩ := rmag_err (n * k) (2 ^ 149) (by positivity)
  obtain ⟨e, he⟩ : ∃ e, 2 ^ 149 + e = k := ⟨k - 2 ^ 149, by omega⟩
  have e1 : n * k = n * 2 ^ 149 + n * e := by rw [← Nat.mul_add, he]
  have e2 : 3 * e ≤ n * e := Nat.mul_le_mul_right e hn
  have e3 : n * 2 ^ 149 ≤ 6 * (n * e) := by
    have : 2 ^ 149 ≤ 6 * e := by omega
    calc n * 2 ^ 149 ≤ n * (6 * e) := Nat.mul_le_mul_left n this
      _ = 6 * (n * e) := by ring
  have e4 : rmag (n * k) (2 ^ 149) * 2 ^ 149 ≤ n * 2 ^ 149 := Nat.mul_le_mul_right _ hR
  by_cases hq : qexp (n * k) (2 ^ 149) = 0
  · rw [hq] at h1
    omega
  · have h2 := pow_qexp_le (n * k) (2 ^ 149) (by positivity) (by omega)
    rw [pow_add] at h2
    generalize 2 ^ qexp (n * k) (2 ^ 149) = X at h1 h2
    generalize rmag (n * k) (2 ^ 149) = R at h1 e4
    have h3 : 2 ^ 23 * (2 ^ 149 * X) ≤ n * k := by
      calc 2 ^ 23 * (2 ^ 149 * X) = 2 ^ 23 * X * 2 ^ 149 := by ring
        _ ≤ n * k := h2
    generalize n * k = A at *
    generalize n * e = D at *
    generalize 2 ^ 149 * X = Y at *
    omega

theorem rmag_bound (a b : Nat) (hb : 0 < b) :
    2 ^ 24 * (rmag a b * b) ≤ 2 ^ 24 * a + (2 ^ 23 * b + a) ∧
    2 ^ 24 * a ≤ 2 ^ 24 * (rmag a b * b) + (2 ^ 23 * b + a) := by
  obtain ⟨h1, h2⟩ := rmag_err a b hb
  by_cases hq : qexp a b = 0
  · rw [hq] at h1 h2
    simp only [pow_zero, Nat.mul_one] at h1 h2
    generalize rmag a b * b = Rb at *
    omega
  · have h3 := pow_qexp_le a b hb (by omega)
    rw [pow_add] at h3
    generalize 2 ^ qexp a b = X at *
    have h4 : 2 ^ 23 * (b * X) ≤ a := by
      calc 2 ^ 23 * (b * X) = 2 ^ 23 * X * b := by ring
        _ ≤ a := h3
    generalize b * X = Y at *
    generalize rmag a b * b = Rb at *
    omega

theorem rmag_err_rat (a b : Nat) (hb : 0 < b) :
    (a : ℚ) / b - (1 / 2 + ((a : ℚ) / b) / 2 ^ 24) ≤ (rmag a b : ℚ) ∧
    (rmag a b : ℚ) ≤ (a : ℚ) / b + (1 / 2 + ((a : ℚ) / b) / 2 ^ 24) := by
  obtain ⟨h1, h2⟩ := rmag_bound a b hb
  have hbq : (0 : ℚ) < b := by exact_mod_cast hb
  have h1q : (2 : ℚ) ^ 24 * (rmag a b * b) ≤ 2 ^ 24 * a + (2 ^ 23 * b + a) := by
    exact_mod_cast h1
  have h2q : (2 : ℚ) ^ 24 * a ≤ 2 ^ 24 * (rmag a b * b) + (2 ^ 23 * b + a) := by
    exact_mod_cast h2
  have hv : (a : ℚ) = (a : ℚ) / b * b := by field_simp
  generalize (a : ℚ) / b = v at hv ⊢
  rw [hv] at h1q h2q
  generalize (rmag a b : ℚ) = R at *
  have k1 : (2 ^ 24 * R) * b ≤ (2 ^ 24 * v + (2 ^ 23 + v)) * b := by linarith
  have k2 : (2 ^ 24 * v) * b ≤ (2 ^ 24 * R + (2 ^ 23 + v)) * b := by linarith
  have k3 := le_of_mul_le_mul_right k1 hbq
  have k4 := le_of_mul_le_mul_right k2 hbq
  constructor <;> linarith

theorem round_bd (s : Bool) (a b : Nat) (hb : 0 < b) (B : ℚ) (hB : (a : ℚ) / b ≤ B)
    (hB2 : B ≤ 30 * 2 ^ 272) :
    (round s a b).isFin = true ∧ (round s a b).ext = sgn s (rmag a b) ∧
    (a : ℚ) / b - (1 / 2 + B / 2 ^ 24) ≤ (rmag a b : ℚ) ∧
    (rmag a b : ℚ) ≤ (a : ℚ) / b + (1 / 2 + B / 2 ^ 24) := by
  obtain ⟨h1, h2⟩ := rmag_err_rat a b hb
  have h0 : (0 : ℚ) ≤ (a : ℚ) / b := div_nonneg (Nat.cast_nonneg a) (Nat.cast_nonneg b)
  have hlt : (rmag a b : ℚ) < 2 ^ 277 := by
    have : (2 : ℚ) ^ 277 = 32 * 2 ^ 272 := by norm_num
    have h3 : (1 : ℚ) ≤ 2 ^ 272 := one_le_pow₀ (by norm_num)
    have h4 : B / 2 ^ 24 ≤ B / 30 := by
      have hb0 : 0 ≤ B := le_trans h0 hB
      apply div_le_div_of_nonneg_left hb0 (by norm_num) (by norm_num)
    have h5 : (a : ℚ) / b / 2 ^ 24 ≤ B / 2 ^ 24 := by
      apply div_le_div_of_nonneg_right hB (by positivity)
    linarith
  have hlt2 : rmag a b < 2 ^ 277 := by exact_mod_cast hlt
  have hrep := isRep_rmag a b hb hlt2
  have h5 : (a : ℚ) / b / 2 ^ 24 ≤ B / 2 ^ 24 := by
    apply div_le_div_of_nonneg_right hB (by positivity)
  refine ⟨?_, ?_, by linarith, by linarith⟩
  · unfold round; rw [dif_pos hrep]; rfl
  · unfold round; rw [dif_pos hrep]; rfl

theorem isNan_of_isFin {x : F32} (h : x.isFin = true) : x.isNan = false := by
  cases x <;> simp [isFin, isNan] at h ⊢

theorem ext_fin (s : Bool) (n : Nat) (h : IsRep n) : (fin s n h).ext = sgn s n := rfl

theorem add_bd {x y : F32} (hx : x.isFin = true) (hy : y.isFin = true) (B : ℚ)
    (h1 : -B ≤ (x.ext : ℚ) + y.ext) (h2 : (x.ext : ℚ) + y.ext ≤ B) (hB : B ≤ 30 * 2 ^ 272) :
    (add x y).isFin = true ∧
    (x.ext : ℚ) + y.ext - (1 / 2 + B / 2 ^ 24) ≤ ((add x y).ext : ℚ) ∧
    ((add x y).ext : ℚ) ≤ (x.ext : ℚ) + y.ext + (1 / 2 + B / 2 ^ 24) := by
  have hB0 : 0 ≤ B := by linarith
  have hp : (0 : ℚ) ≤ 1 / 2 + B / 2 ^ 24 := by
    have : 0 ≤ B / 2 ^ 24 := div_nonneg hB0 (by norm_num)
    linarith
  cases x with
  | nan => simp [isFin] at hx
  | inf s => simp [isFin] at hx
  | fin s m hm =>
  cases y with
  | nan => simp [isFin] at hy
  | inf t => simp [isFin] at hy
  | fin t n hn =>
  simp only [ext_fin] at h1 h2 ⊢
  simp only [add]
  have e : ((sgn s m : Int) : ℚ) + ((sgn t n : Int) : ℚ) = ((sgn s m + sgn t n : Int) : ℚ) := by
    push_cast; rfl
  rw [e] at h1 h2 ⊢
  generalize sgn s m + sgn t n = z at *
  by_cases hz : z = 0
  · subst hz
    simp only [if_true, zero, isFin, ext_fin, sgn, Int.cast_zero, Nat.cast_zero, neg_zero,
      ite_self, zero_sub, zero_add, true_and]
    constructor <;> linarith
  · simp only [hz, if_false]
    by_cases hneg : z < 0
    · have q0 : (z.natAbs : Int) = -z := by omega
      have q : ((z.natAbs : Nat) : ℚ) = -(z : ℚ) := by
        have : ((z.natAbs : Nat) : ℚ) = (((z.natAbs : Nat) : Int) : ℚ) := (Int.cast_natCast _).symm
        rw [this, q0, Int.cast_neg]
      have ha : ((z.natAbs : Nat) : ℚ) / ((1 : Nat) : ℚ) ≤ B := by
        rw [q]; simp only [Nat.cast_one, div_one]; linarith
      obtain ⟨r1, r2, r3, r4⟩ := round_bd (decide (z < 0)) z.natAbs 1 Nat.one_pos B ha hB
      rw [q] at r3 r4
      simp only [Nat.cast_one, div_one] at r3 r4
      refine ⟨r1, ?_, ?_⟩
      · rw [r2]
        simp only [hneg, decide_True, sgn, if_true, Int.cast_neg, Int.cast_natCast]
        linarith
      · rw [r2]
        simp only [hneg, decide_True, sgn, if_true, Int.cast_neg, Int.cast_natCast]
        linarith
    · have q0 : (z.natAbs : Int) = z := by omega
      have q : ((z.natAbs : Nat) : ℚ) = (z : ℚ) := by
        have : ((z.natAbs : Nat) : ℚ) = (((z.natAbs : Nat) : Int) : ℚ) := (Int.cast_natCast _).symm
        rw [this, q0]
      have ha : ((z.natAbs : Nat) : ℚ) / ((1 : Nat) : ℚ) ≤ B := by
        rw [q]; simp only [Nat.cast_one, div_one]; linarith
      obtain ⟨r1, r2, r3, r4⟩ := round_bd (decide (z < 0)) z.natAbs 1 Nat.one_pos B ha hB
      rw [q] at r3 r4
      simp only [Nat.cast_one, div_one] at r3 r4
      refine ⟨r1, ?_, ?_⟩
      · rw [r2]
        simp only [hneg, decide_False, sgn, Bool.false_eq_true, if_false, Int.cast_natCast]
        linarith
      · rw [r2]
        simp only [hneg, decide_False, sgn, Bool.false_eq_true, if_false, Int.cast_natCast]
        linarith

/-- Signed magnitude as a rational. -/
theorem sgn_cast (s : Bool) (n : Nat) : ((sgn s n : Int) : ℚ) = if s then -(n : ℚ) else (n : ℚ) := by
  cases s <;> simp [sgn]

theorem mul_bd {x y : F32} (hx : x.isFin = true) (hy : y.isFin = true) (w B : ℚ)
    (hw : (y.ext : ℚ) = w * 2 ^ 149)
    (h1 : -B ≤ w * (x.ext : ℚ)) (h2 : w * (x.ext : ℚ) ≤ B) (hB : B ≤ 30 * 2 ^ 272) :
    (mul x y).isFin = true ∧
    w * (x.ext : ℚ) - (1 / 2 + B / 2 ^ 24) ≤ ((mul x y).ext : ℚ) ∧
    ((mul x y).ext : ℚ) ≤ w * (x.ext : ℚ) + (1 / 2 + B / 2 ^ 24) := by
  cases x with
  | nan => simp [isFin] at hx
  | inf s => simp [isFin] at hx
  | fin s m hm =>
  cases y with
  | nan => simp [isFin] at hy
  | inf t => simp [isFin] at hy
  | fin t n hn =>
  simp only [ext_fin, sgn_cast] at h1 h2 hw ⊢
  simp only [mul]
  have hp : (0 : ℚ) < 2 ^ 149 := by positivity
  have hmn : (((m * n : Nat) : ℚ)) / ((2 ^ 149 : Nat) : ℚ) =
      (m : ℚ) * ((n : ℚ) / 2 ^ 149) := by
    push_cast; ring
  have hwn : w = (if t then -(n : ℚ) else (n : ℚ)) / 2 ^ 149 := by
    rw [hw]; field_simp
  have ha : (((m * n : Nat) : ℚ)) / ((2 ^ 149 : Nat) : ℚ) ≤ B := by
    rw [hmn]
    cases s <;> cases t <;> simp only [Bool.false_eq_true, if_false, if_true] at hwn h1 h2 <;>
      rw [hwn] at h1 h2 <;> linarith
  obtain ⟨r1, r2, r3, r4⟩ := round_bd (s != t) (m * n) (2 ^ 149) (by positivity) B ha hB
  rw [hmn] at r3 r4
  refine ⟨r1, ?_, ?_⟩
  · rw [r2, sgn_cast]
    cases s <;> cases t <;> simp only [Bool.false_eq_true, if_false, if_true, bne_self_eq_false,
      Bool.bne_true, Bool.not_false, Bool.not_true, Bool.bne_false] at hwn ⊢ <;>
      rw [hwn] <;> ring_nf at r3 r4 ⊢ <;> linarith
  · rw [r2, sgn_cast]
    cases s <;> cases t <;> simp only [Bool.false_eq_true, if_false, if_true, bne_self_eq_false,
      Bool.bne_true, Bool.not_false, Bool.not_true, Bool.bne_false] at hwn ⊢ <;>
      rw [hwn] <;> ring_nf at r3 r4 ⊢ <;> linarith

theorem div_bd {x y : F32} (hx : x.isFin = true) (hy : y.isFin = true) (c B : ℚ) (hc : 0 < c)
    (hw : (y.ext : ℚ) = c * 2 ^ 149)
    (h1 : -B ≤ (x.ext : ℚ) / c) (h2 : (x.ext : ℚ) / c ≤ B) (hB : B ≤ 30 * 2 ^ 272) :
    (div x y).isFin = true ∧
    (x.ext : ℚ) / c - (1 / 2 + B / 2 ^ 24) ≤ ((div x y).ext : ℚ) ∧
    ((div x y).ext : ℚ) ≤ (x.ext : ℚ) / c + (1 / 2 + B / 2 ^ 24) := by
  cases x with
  | nan => simp [isFin] at hx
  | inf s => simp [isFin] at hx
  | fin s m hm =>
  cases y with
  | nan => simp [isFin] at hy
  | inf t => simp [isFin] at hy
  | fin t n hn =>
  simp only [ext_fin, sgn_cast] at h1 h2 hw ⊢
  have hp : (0 : ℚ) < 2 ^ 149 := by positivity
  have hcp : (0 : ℚ) < c * 2 ^ 149 := mul_pos hc hp
  have hn0 : (0 : ℚ) ≤ (n : ℚ) := Nat.cast_nonneg n
  have ht : t = false := by
    cases t
    · rfl
    · simp only [if_true] at hw; linarith
  subst ht
  simp only [Bool.false_eq_true, if_false] at hw
  have hnpos : (0 : ℚ) < (n : ℚ) := by rw [hw]; exact hcp
  have hn1 : n ≠ 0 := by
    intro h; rw [h] at hnpos; simp at hnpos
  simp only [div, hn1, if_false, Bool.bne_false]
  have hmn : (((m * 2 ^ 149 : Nat) : ℚ)) / (n : ℚ) = (m : ℚ) / c := by
    rw [hw, Nat.cast_mul, Nat.cast_pow, Nat.cast_ofNat, mul_div_mul_right _ _ (ne_of_gt hp)]
  have ha : (((m * 2 ^ 149 : Nat) : ℚ)) / (n : ℚ) ≤ B := by
    rw [hmn]
    cases s <;> simp only [Bool.false_eq_true, if_false, if_true] at h1 h2
    · exact h2
    · rw [neg_div] at h1; linarith
  obtain ⟨r1, r2, r3, r4⟩ := round_bd s (m * 2 ^ 149) n (Nat.pos_of_ne_zero hn1) B ha hB
  rw [hmn] at r3 r4
  refine ⟨r1, ?_, ?_⟩
  · rw [r2, sgn_cast]
    cases s <;> simp only [Bool.false_eq_true, if_false, if_true]
    · exact r3
    · rw [neg_div]; linarith
  · rw [r2, sgn_cast]
    cases s <;> simp only [Bool.false_eq_true, if_false, if_true]
    · exact r4
    · rw [neg_div]; linarith

end F32

theorem F32.mul_symm (x y : F32) : F32.mul x y = F32.mul y x := by
  cases x with
  | nan => cases y <;> rfl
  | inf s =>
    cases y with
    | nan => rfl
    | inf t => simp only [F32.mul]; cases s <;> cases t <;> rfl
    | fin t n h => simp only [F32.mul]; cases s <;> cases t <;> rfl
  | fin s m h =>
    cases y with
    | nan => rfl
    | inf t => simp only [F32.mul]; cases s <;> cases t <;> rfl
    | fin t n hn =>
      simp only [F32.mul]
      rw [Nat.mul_comm m n]
      cases s <;> cases t <;> rfl

theorem F32.le_refl_of {x : F32} (h : x.isNan = false) : F32.le x x = true := by
  rw [F32.le_iff]; exact ⟨h, h, le_rfl⟩

theorem F32.le_trans_of {x y z : F32} (h1 : F32.le x y = true) (h2 : F32.le y z = true) :
    F32.le x z = true := by
  rw [F32.le_iff] at *
  exact ⟨h1.1, h2.2.1, le_trans h1.2.2 h2.2.2⟩

theorem F32.mul_nonneg_ext {x c : F32} (hx : x.isNan = false) (h0 : 0 ≤ x.ext)
    (hc : c.isFin = true) (hc0 : 0 < c.ext) : 0 ≤ (F32.mul x c).ext := by
  obtain ⟨k, hk, rfl, hk0, hke⟩ := F32.pos_fin_cases hc hc0
  rcases F32.nonneg_cases hx h0 with rfl | ⟨s, n, h, rfl, he⟩
  · simp [F32.mul, Nat.pos_iff_ne_zero.mp hk0, F32.ext, F32.sgn]
  · rw [F32.ext_mul_fin h hk h0]; exact Int.natCast_nonneg _

/-! ## Facts on the constants of the program -/

theorem lit0_facts : (F32.lit 0 1).isNan = false ∧ (F32.lit 0 1).ext = 0 := by decide!

theorem lit80_facts : (F32.lit 80 100).isFin = true ∧ 0 < (F32.lit 80 100).ext ∧
    (F32.lit 80 100).ext ≤ 2 ^ 149 := by decide!

theorem lit120_facts : (F32.lit 120 100).isFin = true ∧ 2 ^ 149 ≤ (F32.lit 120 100).ext := by
  decide!

theorem lit_adj_facts :
    (F32.lit 92 100).isFin = true ∧ 0 < (F32.lit 92 100).ext ∧ (F32.lit 92 100).ext ≤ 2 ^ 149 ∧
    (F32.lit 108 100).isFin = true ∧ 2 ^ 149 ≤ (F32.lit 108 100).ext ∧
    (F32.lit 105 100).isFin = true ∧ 2 ^ 149 ≤ (F32.lit 105 100).ext ∧
    (F32.lit 15 10).isNan = false ∧ (F32.lit 40 10).isNan = false ∧
    (F32.lit 15 10).ext < (F32.lit 40 10).ext := by decide!

theorem lit80_120_strict : 6 * (F32.lit 80 100).ext < 5 * 2 ^ 149 ∧
    7 * 2 ^ 149 < 6 * (F32.lit 120 100).ext := by decide!

theorem F32.mul_lit_strict {t : F32} (hf : t.isFin = true) (h3 : 3 ≤ t.ext) :
    (F32.mul t (F32.lit 80 100)).ext < t.ext ∧ t.ext < (F32.mul t (F32.lit 120 100)).ext := by
  obtain ⟨n, hn, rfl, -, hne⟩ := F32.pos_fin_cases hf (by omega)
  rw [hne] at h3 ⊢
  have h3n : 3 ≤ n := by exact_mod_cast h3
  have h0 : 0 ≤ F32.sgn false n := by simp [F32.sgn]
  obtain ⟨k, hk, ek, -, hke⟩ := F32.pos_fin_cases lit80_facts.1 lit80_facts.2.1
  obtain ⟨j, hj, ej, -, hje⟩ := F32.pos_fin_cases lit120_facts.1
    (lt_of_lt_of_le (by positivity) lit120_facts.2)
  obtain ⟨s1, s2⟩ := lit80_120_strict
  rw [hke] at s1
  rw [hje] at s2
  have s1n : 6 * k < 5 * 2 ^ 149 := by exact_mod_cast s1
  have s2n : 7 * 2 ^ 149 < 6 * j := by exact_mod_cast s2
  rw [ek, ej, F32.ext_mul_fin hn hk h0, F32.ext_mul_fin hn hj h0]
  have a1 := F32.rmag_mul_lt h3n s1n
  have a2 := F32.lt_rmag_mul h3n s2n
  have a3 := hn.1
  constructor
  · have : min (F32.rmag (n * k) (2 ^ 149)) (2 ^ 277) < n :=
      lt_of_le_of_lt (Nat.min_le_left _ _) a1
    exact_mod_cast this
  · have : n < min (F32.rmag (n * j) (2 ^ 149)) (2 ^ 277) := lt_min a2 a3
    exact_mod_cast this

/-! ## The loops as folds -/

theorem leer_natCast (arr : List F32) (k : Nat) : leer arr (k : Int) = arr[k]? := by
  simp [leer]

theorem promedioArreglo_bucle_eq (arr : List F32) :
    ∀ (pasos k : Nat) (suma : F32), k + pasos = arr.length →
      promedioArreglo.bucle arr (arr.length : Int) pasos (k : Int) suma =
        some ((arr.drop k).foldl F32.add suma) := by
  intro pasos
  induction pasos with
  | zero =>
    intro k suma h
    have hk : k = arr.length := by omega
    subst hk
    simp [promedioArreglo.bucle]
  | succ p ih =>
    intro k suma h
    have hk : k < arr.length := by omega
    have hlt : (k : Int) < (arr.length : Int) := by exact_mod_cast hk
    have e := ih (k + 1) (F32.add suma arr[k]) (by omega)
    simp only [promedioArreglo.bucle, hlt, if_true, leer_natCast, List.getElem?_eq_getElem hk]
    rw [show ((k : Int) + 1) = ((k + 1 : Nat) : Int) by push_cast; rfl, e]
    rw [List.drop_eq_getElem_cons hk]
    rfl

theorem promedioArreglo_eq (arr : List F32) :
    promedioArreglo arr (arr.length : Int) =
      some (if arr = [] then F32.lit 0 1
        else F32.div (sumaF arr) (F32.ofInt (arr.length : Int))) := by
  unfold promedioArreglo
  have e := promedioArreglo_bucle_eq arr arr.length 0 (F32.lit 0 1) (by omega)
  simp only [Int.toNat_ofNat, Nat.cast_zero] at e ⊢
  rw [e]
  simp only [List.drop_zero]
  cases arr with
  | nil => simp
  | cons x xs => simp [sumaF]

theorem promedioArreglo_nonpos (arr : List F32) (n : Int) (h : n ≤ 0) :
    promedioArreglo arr n = some (F32.lit 0 1) := by
  unfold promedioArreglo
  have e : n.toNat = 0 := by omega
  have h2 : ¬ (0 < n) := by omega
  simp [e, promedioArreglo.bucle, h2]

theorem promedioPonderado_bucle_eq (arr : List F32) :
    ∀ (pasos k p : Nat) (suma sumaPesos : F32), k + pasos = arr.length → p + pasos < 2 ^ 31 →
      promedioPonderadoUltimos.bucle arr (arr.length : Int) pasos (k : Int) (p : Int)
          suma sumaPesos =
        some ((List.zipWith F32.mul (arr.drop k)
                ((List.range' p pasos).map (fun q : Nat => F32.ofInt (q : Int)))).foldl F32.add suma,
              ((List.range' p pasos).map (fun q : Nat => F32.ofInt (q : Int))).foldl F32.add
                sumaPesos) := by
  intro pasos
  induction pasos with
  | zero =>
    intro k p suma sumaPesos h _
    have hk : k = arr.length := by omega
    subst hk
    simp [promedioPonderadoUltimos.bucle]
  | succ n ih =>
    intro k p suma sumaPesos h hp
    have hk : k < arr.length := by omega
    have hlt : (k : Int) < (arr.length : Int) := by exact_mod_cast hk
    have e := ih (k + 1) (p + 1) (F32.add suma (F32.mul arr[k] (F32.ofInt (p : Int))))
      (F32.add sumaPesos (F32.ofInt (p : Int))) (by omega) (by omega)
    have hg : enInt32 ((p : Int) + 1) = true := by
      unfold enInt32
      simp only [Bool.and_eq_true, decide_eq_true_eq]
      norm_num at hp ⊢
      omega
    simp only [promedioPonderadoUltimos.bucle, hlt, if_true, leer_natCast,
      List.getElem?_eq_getElem hk, hg]
    rw [show ((k : Int) + 1) = ((k + 1 : Nat) : Int) by push_cast; rfl,
      show ((p : Int) + 1) = ((p + 1 : Nat) : Int) by push_cast; rfl, e]
    rw [List.drop_eq_getElem_cons hk]
    rfl

theorem ofInt_pos_facts (p : Nat) (hp : 1 ≤ p) :
    (F32.ofInt (p : Int)).isNan = false ∧ 0 < (F32.ofInt (p : Int)).ext := by
  unfold F32.ofInt
  refine ⟨F32.isNan_round _ _ _, ?_⟩
  rw [F32.ext_round _ _ _ Nat.one_pos]
  have hneg : decide ((p : Int) < 0) = false := by simp
  rw [hneg]
  have h1 : 2 ^ 149 ≤ F32.rmag ((p : Int).natAbs * 2 ^ 149) 1 := by
    apply F32.le_rmag_of_le F32.isRep_one Nat.one_pos
    simp only [Int.natAbs_ofNat, Nat.mul_one]
    exact Nat.le_mul_of_pos_left _ hp
  have h2 : 0 < min (F32.rmag ((p : Int).natAbs * 2 ^ 149) 1) (2 ^ 277) :=
    lt_min (lt_of_lt_of_le (by positivity) h1) (by positivity)
  simp only [F32.sgn, Bool.false_eq_true, if_false]
  exact_mod_cast h2

theorem add_pos_facts {a b : F32} (ha : a.isNan = false) (ha0 : 0 ≤ a.ext)
    (hb : b.isNan = false) (hb0 : 0 < b.ext) :
    (F32.add a b).isNan = false ∧ 0 < (F32.add a b).ext := by
  rcases F32.nonneg_cases ha ha0 with rfl | ⟨s, m, hm, rfl, hem⟩
  · rcases F32.nonneg_cases hb (le_of_lt hb0) with rfl | ⟨t, n, hn, rfl, hen⟩
    · simp [F32.add, F32.isNan, F32.ext, F32.sgn]
    · simp [F32.add, F32.isNan, F32.ext, F32.sgn]
  · rcases F32.nonneg_cases hb (le_of_lt hb0) with rfl | ⟨t, n, hn, rfl, hen⟩
    · simp [F32.add, F32.isNan, F32.ext, F32.sgn]
    · simp only [F32.ext] at hem hen hb0 ha0
      have hz : F32.sgn s m + F32.sgn t n = ((m + n : Nat) : Int) := by
        rw [hem, hen]; push_cast; rfl
      have hn0 : 0 < n := by rw [hen] at hb0; exact_mod_cast hb0
      have hne : ¬ (F32.sgn s m + F32.sgn t n = 0) := by rw [hz]; exact_mod_cast (by omega : m + n ≠ 0)
      have hd : decide (F32.sgn s m + F32.sgn t n < 0) = false := by
        rw [hz]; simp only [decide_eq_false_iff_not, not_lt]; exact Int.natCast_nonneg _
      simp only [F32.add, hne, if_false, hd]
      refine ⟨F32.isNan_round _ _ _, ?_⟩
      rw [F32.ext_round _ _ _ Nat.one_pos, hz]
      have h1 : n ≤ F32.rmag (m + n) 1 := by
        apply F32.le_rmag_of_le hn Nat.one_pos; omega
      have h2 : 0 < min (F32.rmag (m + n) 1) (2 ^ 277) :=
        lt_min (lt_of_lt_of_le hn0 h1) (by positivity)
      simp only [Int.natAbs_ofNat, F32.sgn, Bool.false_eq_true, if_false]
      exact_mod_cast h2

theorem foldl_pesos_pos : ∀ (m p : Nat) (acc : F32), 1 ≤ p →
    acc.isNan = false → 0 < acc.ext →
    (((List.range' p m).map (fun q : Nat => F32.ofInt (q : Int))).foldl F32.add acc).isNan = false ∧
    0 < (((List.range' p m).map (fun q : Nat => F32.ofInt (q : Int))).foldl F32.add acc).ext := by
  intro m
  induction m with
  | zero => intro p acc _ h1 h2; exact ⟨h1, h2⟩
  | succ n ih =>
    intro p acc hp h1 h2
    obtain ⟨q1, q2⟩ := ofInt_pos_facts p hp
    obtain ⟨r1, r2⟩ := add_pos_facts h1 (le_of_lt h2) q1 q2
    simpa [List.range'] using ih (p + 1) _ (by omega) r1 r2

theorem sumaF_pesos_pos (k : Nat) (hk : 1 ≤ k) :
    F32.gt (sumaF (pesosVentana k)) (F32.ofInt 0) = true := by
  unfold sumaF pesosVentana
  obtain ⟨n, rfl⟩ : ∃ n, k = n + 1 := ⟨k - 1, by omega⟩
  obtain ⟨q1, q2⟩ := ofInt_pos_facts 1 le_rfl
  obtain ⟨r1, r2⟩ := add_pos_facts lit0_facts.1 (le_of_eq lit0_facts.2.symm) q1 q2
  have := foldl_pesos_pos n 2 _ (by omega) r1 r2
  have e0 : (F32.ofInt 0).isNan = false ∧ (F32.ofInt 0).ext = 0 := by decide!
  unfold F32.gt
  rw [F32.lt_iff]
  refine ⟨e0.1, ?_, ?_⟩
  · simpa [List.range'] using this.1
  · rw [e0.2]; simpa [List.range'] using this.2

theorem min_toNat_le (w : Int) (n : Nat) : (min w (n : Int)).toNat ≤ n := by
  omega

/-- refinement of promedioPonderadoUltimos -/
theorem promedioPonderadoUltimos_eq (arr : List F32) (w : Int)
    (hr : enInt32 ((arr.length : Int) - min w (arr.length : Int)) = true)
    (hp : min w (arr.length : Int) < 2147483647) :
    promedioPonderadoUltimos arr (arr.length : Int) w =
      some (promedioPonderadoSpec arr w) := by
  have hmin : (if w > (arr.length : Int) then (arr.length : Int) else w) =
      min w (arr.length : Int) := by
    split_ifs with h
    · omega
    · omega
  unfold promedioPonderadoUltimos
  rw [hmin, hr]
  simp only [if_true]
  set k := (min w (arr.length : Int)).toNat with hk
  have hkle : k ≤ arr.length := min_toNat_le w arr.length
  by_cases hpos : 0 < min w (arr.length : Int)
  · have e1 : (arr.length : Int) - min w (arr.length : Int) = ((arr.length - k : Nat) : Int) := by
      omega
    have e2 : ((arr.length : Int) - (arr.length - k : Nat)).toNat = k := by omega
    rw [e1, e2]
    have e3 := promedioPonderado_bucle_eq arr k (arr.length - k) 1 (F32.lit 0 1) (F32.lit 0 1)
      (by omega) (by norm_num; omega)
    simp only [Nat.cast_one] at e3
    rw [e3]
    have hk1 : 1 ≤ k := by omega
    have hk0 : k ≠ 0 := by omega
    have hg := sumaF_pesos_pos k hk1
    unfold promedioPonderadoSpec
    simp only [← hk, hk0, if_false]
    unfold sumaF pesosVentana ultimos at *
    simp only [hg, if_true]
  · have e1 : ((arr.length : Int) - ((arr.length : Int) - min w (arr.length : Int))).toNat = 0 := by
      omega
    have hk0 : k = 0 := by omega
    have hnlt : ¬ ((arr.length : Int) - min w (arr.length : Int) < (arr.length : Int)) := by omega
    rw [e1]
    unfold promedioPonderadoSpec
    simp only [← hk, hk0, if_true, promedioPonderadoUltimos.bucle, hnlt, if_false]
    have : F32.gt (F32.lit 0 1) (F32.ofInt 0) = false := by decide!
    simp [this]

theorem promedioPonderado_bucle_none (arr : List F32) :
    ∀ (pasos k p : Nat) (suma sumaPesos : F32), k + pasos = arr.length → 1 ≤ pasos →
      2 ^ 31 ≤ p + pasos →
      promedioPonderadoUltimos.bucle arr (arr.length : Int) pasos (k : Int) (p : Int)
          suma sumaPesos = none := by
  intro pasos
  induction pasos with
  | zero => intro k p suma sumaPesos _ h1 _; omega
  | succ n ih =>
    intro k p suma sumaPesos h _ hp
    have hk : k < arr.length := by omega
    have hlt : (k : Int) < (arr.length : Int) := by exact_mod_cast hk
    simp only [promedioPonderadoUltimos.bucle, hlt, if_true, leer_natCast,
      List.getElem?_eq_getElem hk]
    split_ifs with hg
    · unfold enInt32 at hg
      simp only [Bool.and_eq_true, decide_eq_true_eq] at hg
      norm_num at hp hg
      rw [show ((k : Int) + 1) = ((k + 1 : Nat) : Int) by push_cast; rfl,
        show ((p : Int) + 1) = ((p + 1 : Nat) : Int) by push_cast; rfl]
      exact ih (k + 1) (p + 1) _ _ (by omega) (by omega) (by norm_num; omega)
    · rfl

theorem promedioPonderadoUltimos_none_of_length (arr : List F32) (N : Int)
    (h : (arr.length : Int) = N) (hN : N = 2147483647) :
    promedioPonderadoUltimos arr N N = none := by
  subst h
  have hl : arr.length = 2147483647 := by exact_mod_cast hN
  have e := promedioPonderado_bucle_none arr arr.length 0 1
    (F32.lit 0 1) (F32.lit 0 1) (by omega) (by omega) (by rw [hl]; norm_num)
  simp only [Nat.cast_zero, Nat.cast_one] at e
  unfold promedioPonderadoUltimos
  have h1 : ¬ ((arr.length : Int) > (arr.length : Int)) := by omega
  simp only [h1, if_false, sub_self]
  have h2 : enInt32 0 = true := by decide
  have h3 : ((arr.length : Int) - 0).toNat = arr.length := by omega
  rw [h2, h3]
  simp only [if_true]
  rw [e]

/-- With `nTotal = nUltimos = INT_MAX` the last `peso++` leaves the range of `int`. -/
theorem promedioPonderadoUltimos_intMax (x : F32) :
    promedioPonderadoUltimos (List.replicate 2147483647 x) 2147483647 2147483647 = none :=
  promedioPonderadoUltimos_none_of_length _ _
    (by rw [List.length_replicate]; rfl) rfl

/-! ## Exact binary32 arithmetic -/

theorem F32.ofUnits_eq (s : Bool) {n : Nat} (h : IsRep n) : F32.ofUnits s n = F32.fin s n h := by
  unfold F32.ofUnits; rw [dif_pos h]

theorem F32.round_eq_ofUnits (s : Bool) (a b : Nat) : F32.round s a b = F32.ofUnits s (F32.rmag a b) := rfl

theorem F32.round_exact_units (s : Bool) {n b : Nat} (hn : IsRep n) (hb : 0 < b) :
    F32.round s (n * b) b = F32.ofUnits s n := by
  rw [F32.round_exact s hn hb, F32.ofUnits_eq s hn]

theorem F32.sgn_decide_natAbs (z : Int) : F32.sgn (decide (z < 0)) z.natAbs = z := by
  unfold F32.sgn
  by_cases h : z < 0
  · simp only [h, decide_True, if_true]
    omega
  · simp only [h, decide_False, Bool.false_eq_true, if_false]
    omega

theorem F32.ofSigned_eq_fin {s : Bool} {n : Nat} (h : IsRep n) (h0 : n = 0 → s = false) :
    F32.fin s n h = F32.ofSigned (F32.sgn s n) := by
  unfold F32.ofSigned
  have e1 : (F32.sgn s n).natAbs = n := by cases s <;> simp [F32.sgn]
  have e2 : decide (F32.sgn s n < 0) = s := by
    cases s
    · simp [F32.sgn]
    · have : n ≠ 0 := fun hn => by simpa using h0 hn
      simp [F32.sgn]; omega
  rw [e1, e2, F32.ofUnits_eq s h]

theorem F32.add_ofSigned {a b : Int} (ha : IsRep a.natAbs) (hb : IsRep b.natAbs)
    (hab : IsRep (a + b).natAbs) :
    F32.add (F32.ofSigned a) (F32.ofSigned b) = F32.ofSigned (a + b) := by
  unfold F32.ofSigned
  rw [F32.ofUnits_eq _ ha, F32.ofUnits_eq _ hb]
  simp only [F32.add, F32.sgn_decide_natAbs]
  by_cases h0 : a + b = 0
  · simp only [h0, if_true]
    have : (decide (a < 0) && decide (b < 0)) = false := by
      by_cases h1 : a < 0
      · have : ¬ b < 0 := by omega
        simp [this]
      · simp [h1]
    rw [this]
    simp only [F32.zero, Int.natAbs_zero, lt_self_iff_false, decide_False]
    rw [F32.ofUnits_eq false (by decide : IsRep 0)]
  · simp only [h0, if_false]
    have := F32.round_exact_units (decide (a + b < 0)) hab Nat.one_pos
    simpa using this

theorem F32.mul_ofSigned {a : Int} {p : Nat} (hp : 0 < p) (ha : IsRep a.natAbs)
    (hp2 : IsRep (p * 2 ^ 149)) (hap : IsRep (a * p).natAbs) :
    F32.mul (F32.ofSigned a) (F32.ofSigned ((p * 2 ^ 149 : Nat) : Int)) = F32.ofSigned (a * p) := by
  unfold F32.ofSigned
  have e1 : decide ((((p * 2 ^ 149 : Nat) : Int)) < 0) = false := by
    simp only [decide_eq_false_iff_not, not_lt]; exact Int.natCast_nonneg _
  rw [e1, Int.natAbs_ofNat, F32.ofUnits_eq _ ha, F32.ofUnits_eq _ hp2]
  simp only [F32.mul, Bool.bne_false]
  have e2 : decide (a * (p : Int) < 0) = decide (a < 0) := by
    have hp0 : (0 : Int) < p := by exact_mod_cast hp
    by_cases h : a < 0
    · have : a * (p : Int) < 0 := Int.mul_neg_of_neg_of_pos h hp0
      simp [h, this]
    · have : 0 ≤ a * (p : Int) := Int.mul_nonneg (by omega) (le_of_lt hp0)
      have h3 : ¬ a * (p : Int) < 0 := by omega
      simp [h, h3]
  have e3 : a.natAbs * (p * 2 ^ 149) = (a * (p : Int)).natAbs * 2 ^ 149 := by
    rw [Int.natAbs_mul, Int.natAbs_ofNat]; ring
  rw [e2, e3]
  exact F32.round_exact_units _ hap (by positivity)

theorem F32.div_ofSigned {a : Int} {p : Nat} (hp : 0 < p) (ha : IsRep a.natAbs)
    (hp2 : IsRep (p * 2 ^ 149)) (hap : IsRep (a * p).natAbs) :
    F32.div (F32.ofSigned (a * p)) (F32.ofSigned ((p * 2 ^ 149 : Nat) : Int)) = F32.ofSigned a := by
  unfold F32.ofSigned
  have e1 : decide ((((p * 2 ^ 149 : Nat) : Int)) < 0) = false := by
    simp only [decide_eq_false_iff_not, not_lt]; exact Int.natCast_nonneg _
  rw [e1, Int.natAbs_ofNat, F32.ofUnits_eq _ hap, F32.ofUnits_eq _ hp2]
  have hne : p * 2 ^ 149 ≠ 0 := by positivity
  simp only [F32.div, hne, if_false, Bool.bne_false]
  have e2 : decide (a * (p : Int) < 0) = decide (a < 0) := by
    have hp0 : (0 : Int) < p := by exact_mod_cast hp
    by_cases h : a < 0
    · have : a * (p : Int) < 0 := Int.mul_neg_of_neg_of_pos h hp0
      simp [h, this]
    · have : 0 ≤ a * (p : Int) := Int.mul_nonneg (by omega) (le_of_lt hp0)
      have h3 : ¬ a * (p : Int) < 0 := by omega
      simp [h, h3]
  have e3 : (a * (p : Int)).natAbs * 2 ^ 149 = a.natAbs * (p * 2 ^ 149) := by
    rw [Int.natAbs_mul, Int.natAbs_ofNat]; ring
  rw [e2, e3]
  exact F32.round_exact_units _ ha (by positivity)

theorem isRep_nat_units {p : Nat} (hp : p ≤ 2 ^ 24) : IsRep (p * 2 ^ 149) := by
  apply F32.isRep_of_mul_pow hp
  calc p * 2 ^ 149 ≤ 2 ^ 24 * 2 ^ 149 := Nat.mul_le_mul_right _ hp
    _ < 2 ^ 277 := by norm_num

theorem F32.ofInt_natCast {p : Nat} (hp : p ≤ 2 ^ 24) :
    F32.ofInt (p : Int) = F32.ofSigned ((p * 2 ^ 149 : Nat) : Int) := by
  unfold F32.ofInt F32.ofSigned
  have e1 : decide ((((p * 2 ^ 149 : Nat) : Int)) < 0) = false := by
    simp only [decide_eq_false_iff_not, not_lt]; exact Int.natCast_nonneg _
  have e0 : decide ((p : Int) < 0) = false := by
    simp only [decide_eq_false_iff_not, not_lt]; exact Int.natCast_nonneg _
  rw [e1, e0, Int.natAbs_ofNat, Int.natAbs_ofNat]
  have := F32.round_exact_units false (isRep_nat_units hp) Nat.one_pos
  simpa using this

theorem lit0_eq : F32.lit 0 1 = F32.ofSigned 0 := by decide!

theorem foldl_add_exact : ∀ (zs : List Int) (t : Int), SumasRep t zs →
    (zs.map F32.ofSigned).foldl F32.add (F32.ofSigned t) = F32.ofSigned (t + zs.sum) := by
  intro zs
  induction zs with
  | nil => intro t _; simp
  | cons z zs ih =>
    intro t h
    obtain ⟨h1, h2, h3⟩ := h
    have h4 : IsRep (t + z).natAbs := by
      cases zs with
      | nil => exact h3
      | cons y ys => exact h3.1
    simp only [List.map_cons, List.foldl_cons, List.sum_cons]
    rw [F32.add_ofSigned h1 h2 h4, ih (t + z) h3]
    congr 1; ring

theorem zipWith_mul_exact : ∀ (zs : List Int) (p : Nat), ProdRep zs p →
    List.zipWith F32.mul (zs.map F32.ofSigned)
        ((List.range' p zs.length).map (fun q : Nat => F32.ofInt (q : Int))) =
      (List.zipWith (fun (z : Int) (q : Nat) => z * (q : Int)) zs (List.range' p zs.length)).map F32.ofSigned := by
  intro zs
  induction zs with
  | nil => intro p _; simp
  | cons z zs ih =>
    intro p h
    obtain ⟨h1, h2, h3, h4, h5⟩ := h
    simp only [List.length_cons, List.range', List.map_cons, List.zipWith_cons_cons]
    rw [ih (p + 1) h5, F32.ofInt_natCast h4,
      F32.mul_ofSigned (by omega) h1 (isRep_nat_units h4) h2]

theorem isRep_corto_mul {z : Int} {M j : Nat} (hz : z.natAbs = M * 2 ^ j) (hM : M < 2 ^ 19)
    (hlt : z.natAbs < 2 ^ 272) (c : Nat) (hc : c ≤ 32) : IsRep (z * (c : Int)).natAbs := by
  rw [Int.natAbs_mul, Int.natAbs_ofNat, hz]
  have e : M * 2 ^ j * c = (c * M) * 2 ^ j := by ring
  rw [e]
  apply F32.isRep_of_mul_pow
  · calc c * M ≤ 32 * 2 ^ 19 := Nat.mul_le_mul hc (le_of_lt hM)
      _ = 2 ^ 24 := by norm_num
  · rw [← e, ← hz]
    calc z.natAbs * c ≤ z.natAbs * 32 := Nat.mul_le_mul_left _ hc
      _ < 2 ^ 272 * 32 := Nat.mul_lt_mul_of_pos_right hlt (by norm_num)
      _ = 2 ^ 277 := by norm_num

theorem corto_cases {x : F32} (h : x.corto = true) :
    ∃ (z : Int) (M j : Nat), x = F32.ofSigned z ∧ z.natAbs = M * 2 ^ j ∧ M < 2 ^ 19 ∧
      z.natAbs < 2 ^ 272 := by
  cases x with
  | nan => simp [F32.corto] at h
  | inf s => simp [F32.corto] at h
  | fin s n hn =>
    simp only [F32.corto, Bool.and_eq_true, decide_eq_true_eq, Bool.not_eq_true',
      Bool.and_eq_false_imp] at h
    obtain ⟨⟨h1, h2⟩, h3⟩ := h
    have h0 : n = 0 → s = false := by
      intro hn0
      cases s
      · rfl
      · have := h3 rfl; simp [hn0] at this
    have e1 : (F32.sgn s n).natAbs = n := by cases s <;> simp [F32.sgn]
    refine ⟨F32.sgn s n, n / 2 ^ (ilog2 n - 18), ilog2 n - 18, F32.ofSigned_eq_fin hn h0, ?_, ?_, ?_⟩
    · rw [e1]; exact (Nat.div_mul_cancel (Nat.dvd_of_mod_eq_zero h1)).symm
    · rw [Nat.div_lt_iff_lt_mul (by positivity), ← pow_add]
      have := lt_pow_ilog2 n
      exact lt_of_lt_of_le this (Nat.pow_le_pow_right (by norm_num) (by omega))
    · rw [e1]; exact h2

theorem sumasRep_replicate {z : Int} (hrep : ∀ c : Nat, c ≤ 32 → IsRep (z * (c : Int)).natAbs) :
    ∀ (m k : Nat), k + m ≤ 32 → SumasRep (z * (k : Int)) (List.replicate m z) := by
  intro m
  induction m with
  | zero => intro k hk; exact hrep k (by omega)
  | succ n ih =>
    intro k hk
    refine ⟨hrep k (by omega), ?_, ?_⟩
    · simpa using hrep 1 (by omega)
    · have := ih (k + 1) (by omega)
      have e : z * (k : Int) + z = z * ((k + 1 : Nat) : Int) := by push_cast; ring
      rw [e]; exact this

theorem sumaF_replicate_corto {x : F32} (h : x.corto = true) (m : Nat) (hm : m ≤ 32) :
    ∃ (z : Int), x = F32.ofSigned z ∧ sumaF (List.replicate m x) = F32.ofSigned (z * (m : Int)) ∧
      (∀ c : Nat, c ≤ 32 → IsRep (z * (c : Int)).natAbs) := by
  obtain ⟨z, M, j, rfl, hz, hM, hlt⟩ := corto_cases h
  have hrep := isRep_corto_mul hz hM hlt
  refine ⟨z, rfl, ?_, hrep⟩
  unfold sumaF
  rw [lit0_eq]
  have := foldl_add_exact (List.replicate m z) 0
    (by simpa using sumasRep_replicate hrep m 0 (by omega))
  rw [List.map_replicate] at this
  rw [this]
  congr 1
  simp [List.sum_replicate]; ring

/-! ## The computations on the zones -/

theorem paso_promedios_eq (zs : Zonas) (i : Fin ZONAS) (c : Fin CONT) :
    calcularPromediosYActual.paso zs i c =
      some (Function.update zs i ((zs i).conPromedio c)) := by
  unfold calcularPromediosYActual.paso Zona.conPromedio
  have e := promedioArreglo_eq (List.ofFn ((zs i).hist c))
  rw [List.length_ofFn] at e
  have hne : List.ofFn ((zs i).hist c) ≠ [] := by
    intro h
    have := congrArg List.length h
    simp at this
  simp only [hne, if_false] at e
  simp only [Nat.cast_ofNat] at e
  rw [show ((DIAS : Nat) : Int) = (30 : Int) from rfl, e]

theorem paso_prediccion_eq (zs : Zonas) (i : Fin ZONAS) (c : Fin CONT) :
    calcularPrediccion24h.paso zs i c =
      some (Function.update zs i ((zs i).conPrediccion c)) := by
  unfold calcularPrediccion24h.paso Zona.conPrediccion
  have e := promedioPonderadoUltimos_eq (List.ofFn ((zs i).hist c)) 7 (by
    rw [List.length_ofFn]; decide) (by rw [List.length_ofFn]; decide)
  rw [List.length_ofFn] at e
  simp only [Nat.cast_ofNat] at e
  rw [show ((DIAS : Nat) : Int) = (30 : Int) from rfl, e]

theorem foldlM_eq_some_foldl {α β : Type} (f : α → β → Option α) (g : α → β → α)
    (h : ∀ a b, f a b = some (g a b)) : ∀ (l : List β) (a : α),
    l.foldlM f a = some (l.foldl g a) := by
  intro l
  induction l with
  | nil => intro a; rfl
  | cons b bs ih =>
    intro a
    simp only [List.foldlM_cons, h, List.foldl_cons]
    exact ih (g a b)

theorem foldl_update_same {ι α β : Type} [DecidableEq ι] (i : ι) (u : α → β → α) :
    ∀ (l : List β) (zs : ι → α),
    l.foldl (fun zs2 c => Function.update zs2 i (u (zs2 i) c)) zs =
      Function.update zs i (l.foldl u (zs i)) := by
  intro l
  induction l with
  | nil => intro zs; simp
  | cons b bs ih =>
    intro zs
    simp only [List.foldl_cons]
    rw [ih]
    simp

theorem foldl_update_all {ι α : Type} [DecidableEq ι] (v : α → α) :
    ∀ (l : List ι) (zs : ι → α), l.Nodup → ∀ j,
    (l.foldl (fun zs2 i => Function.update zs2 i (v (zs2 i))) zs) j =
      if j ∈ l then v (zs j) else zs j := by
  intro l
  induction l with
  | nil => intro zs _ j; simp
  | cons b bs ih =>
    intro zs hnd j
    rw [List.nodup_cons] at hnd
    simp only [List.foldl_cons]
    rw [ih _ hnd.2 j]
    by_cases hj : j ∈ bs
    · have hne : j ≠ b := fun h => hnd.1 (h ▸ hj)
      simp [hj, hne, Function.update_noteq hne]
    · by_cases hjb : j = b
      · subst hjb; simp [hj]
      · simp [hj, hjb, Function.update_noteq hjb]

theorem promedios_inner (l : List (Fin CONT)) : ∀ (z : Zona), l.Nodup →
    (l.foldl Zona.conPromedio z).nombre = z.nombre ∧
    (l.foldl Zona.conPromedio z).hist = z.hist ∧
    (l.foldl Zona.conPromedio z).climaActual = z.climaActual ∧
    (l.foldl Zona.conPromedio z).pred24h = z.pred24h ∧
    ∀ c, ((l.foldl Zona.conPromedio z).promedio30 c
        = if c ∈ l then F32.div (sumaF (List.ofFn (z.hist c))) (F32.ofInt 30)
          else z.promedio30 c) ∧
      ((l.foldl Zona.conPromedio z).actual c
        = if c ∈ l then z.hist c ⟨DIAS - 1, by decide⟩ else z.actual c) := by
  induction l with
  | nil => intro z _; simp
  | cons b bs ih =>
    intro z hnd
    rw [List.nodup_cons] at hnd
    simp only [List.foldl_cons]
    obtain ⟨h1, h2, h3, h4, h5⟩ := ih (z.conPromedio b) hnd.2
    refine ⟨h1, h2, h3, h4, ?_⟩
    intro c
    obtain ⟨h6, h7⟩ := h5 c
    rw [h6, h7]
    by_cases hc : c ∈ bs
    · simp [hc, Zona.conPromedio]
    · by_cases hcb : c = b
      · subst hcb; simp [hc, Zona.conPromedio]
      · simp [hc, hcb, Zona.conPromedio, Function.update_noteq hcb]

theorem prediccion_inner (l : List (Fin CONT)) : ∀ (z : Zona), l.Nodup →
    (l.foldl Zona.conPrediccion z).nombre = z.nombre ∧
    (l.foldl Zona.conPrediccion z).hist = z.hist ∧
    (l.foldl Zona.conPrediccion z).climaActual = z.climaActual ∧
    (l.foldl Zona.conPrediccion z).promedio30 = z.promedio30 ∧
    (l.foldl Zona.conPrediccion z).actual = z.actual ∧
    ∀ c, ((l.foldl Zona.conPrediccion z).pred24h c
        = if c ∈ l then
            ajustarPorClima (promedioPonderadoSpec (List.ofFn (z.hist c)) 7) z.climaActual
          else z.pred24h c) := by
  induction l with
  | nil => intro z _; simp
  | cons b bs ih =>
    intro z hnd
    rw [List.nodup_cons] at hnd
    simp only [List.foldl_cons]
    obtain ⟨h1, h2, h3, h4, h5, h6⟩ := ih (z.conPrediccion b) hnd.2
    refine ⟨h1, h2, h3, h4, h5, ?_⟩
    intro c
    rw [h6 c]
    by_cases hc : c ∈ bs
    · simp [hc, Zona.conPrediccion]
    · by_cases hcb : c = b
      · subst hcb; simp [hc, Zona.conPrediccion]
      · simp [hc, hcb, Zona.conPrediccion, Function.update_noteq hcb]

theorem calcularPromediosYActual_eq (zs : Zonas) :
    ∃ r, calcularPromediosYActual zs = some r ∧
      ∀ i, (r i).nombre = (zs i).nombre ∧ (r i).hist = (zs i).hist ∧
        (r i).climaActual = (zs i).climaActual ∧ (r i).pred24h = (zs i).pred24h ∧
        ∀ c, (r i).promedio30 c = F32.div (sumaF (List.ofFn ((zs i).hist c))) (F32.ofInt 30) ∧
          (r i).actual c = (zs i).hist c ⟨DIAS - 1, by decide⟩ := by
  unfold calcularPromediosYActual
  have inner : ∀ (zs2 : Zonas) (i : Fin ZONAS),
      (List.finRange CONT).foldlM (fun zs3 c => calcularPromediosYActual.paso zs3 i c) zs2 =
        some (Function.update zs2 i ((List.finRange CONT).foldl Zona.conPromedio (zs2 i))) := by
    intro zs2 i
    rw [foldlM_eq_some_foldl _ _ (fun a b => paso_promedios_eq a i b)]
    rw [foldl_update_same i Zona.conPromedio]
  rw [foldlM_eq_some_foldl _ _ inner]
  refine ⟨_, rfl, ?_⟩
  intro i
  rw [foldl_update_all (fun (z : Zona) => (List.finRange CONT).foldl Zona.conPromedio z)
      (List.finRange ZONAS) zs (List.nodup_finRange _) i]
  simp only [List.mem_finRange, if_true]
  obtain ⟨h1, h2, h3, h4, h5⟩ := promedios_inner (List.finRange CONT) (zs i) (List.nodup_finRange _)
  refine ⟨h1, h2, h3, h4, ?_⟩
  intro c
  simpa using h5 c

theorem calcularPrediccion24h_eq (zs : Zonas) :
    ∃ r, calcularPrediccion24h zs = some r ∧
      ∀ i, (r i).nombre = (zs i).nombre ∧ (r i).hist = (zs i).hist ∧
        (r i).climaActual = (zs i).climaActual ∧ (r i).promedio30 = (zs i).promedio30 ∧
        (r i).actual = (zs i).actual ∧
        ∀ c, (r i).pred24h c =
          ajustarPorClima (promedioPonderadoSpec (List.ofFn ((zs i).hist c)) 7)
            (zs i).climaActual := by
  unfold calcularPrediccion24h
  have inner : ∀ (zs2 : Zonas) (i : Fin ZONAS),
      (List.finRange CONT).foldlM (fun zs3 c => calcularPrediccion24h.paso zs3 i c) zs2 =
        some (Function.update zs2 i ((List.finRange CONT).foldl Zona.conPrediccion (zs2 i))) := by
    intro zs2 i
    rw [foldlM_eq_some_foldl _ _ (fun a b => paso_prediccion_eq a i b)]
    rw [foldl_update_same i Zona.conPrediccion]
  rw [foldlM_eq_some_foldl _ _ inner]
  refine ⟨_, rfl, ?_⟩
  intro i
  rw [foldl_update_all (fun (z : Zona) => (List.finRange CONT).foldl Zona.conPrediccion z)
      (List.finRange ZONAS) zs (List.nodup_finRange _) i]
  simp only [List.mem_finRange, if_true]
  obtain ⟨h1, h2, h3, h4, h5, h6⟩ :=
    prediccion_inner (List.finRange CONT) (zs i) (List.nodup_finRange _)
  refine ⟨h1, h2, h3, h4, h5, ?_⟩
  intro c
  simpa using h6 c

theorem recalcular_eq (zs : Zonas) :
    ∃ r, recalcular zs = some r ∧
      ∀ i, (r i).nombre = (zs i).nombre ∧ (r i).hist = (zs i).hist ∧
        (r i).climaActual = (zs i).climaActual ∧
        ∀ c, (r i).promedio30 c = F32.div (sumaF (List.ofFn ((zs i).hist c))) (F32.ofInt 30) ∧
          (r i).actual c = (zs i).hist c ⟨DIAS - 1, by decide⟩ ∧
          (r i).pred24h c =
            ajustarPorClima (promedioPonderadoSpec (List.ofFn ((zs i).hist c)) 7)
              (zs i).climaActual := by
  obtain ⟨r1, e1, h1⟩ := calcularPromediosYActual_eq zs
  obtain ⟨r2, e2, h2⟩ := calcularPrediccion24h_eq r1
  refine ⟨r2, by simp [recalcular, e1, e2], ?_⟩
  intro i
  obtain ⟨a1, a2, a3, -, a5⟩ := h1 i
  obtain ⟨b1, b2, b3, b4, b5, b6⟩ := h2 i
  refine ⟨b1.trans a1, b2.trans a2, b3.trans a3, ?_⟩
  intro c
  refine ⟨?_, ?_, ?_⟩
  · rw [b4]; exact (a5 c).1
  · rw [b5]; exact (a5 c).2
  · rw [b6 c, a2, a3]

theorem sumasRep_weighted {z : Int} (hrep : ∀ c : Nat, c ≤ 32 → IsRep (z * (c : Int)).natAbs) :
    ∀ (m p t : Nat), t + (List.range' p m).sum ≤ 32 →
      SumasRep (z * (t : Int))
        (List.zipWith (fun (z : Int) (q : Nat) => z * (q : Int)) (List.replicate m z)
          (List.range' p m)) := by
  intro m
  induction m with
  | zero => intro p t h; exact hrep t (by simpa using h)
  | succ n ih =>
    intro p t h
    simp only [List.range', List.sum_cons] at h
    simp only [List.replicate, List.range', List.zipWith_cons_cons]
    refine ⟨hrep t (by omega), hrep p (by omega), ?_⟩
    have e : z * (t : Int) + z * (p : Int) = z * ((t + p : Nat) : Int) := by push_cast; ring
    rw [e]
    exact ih (p + 1) (t + p) (by omega)

theorem prodRep_replicate {z : Int} (hrep : ∀ c : Nat, c ≤ 32 → IsRep (z * (c : Int)).natAbs) :
    ∀ (m p : Nat), 1 ≤ p → p + m ≤ 33 → ProdRep (List.replicate m z) p := by
  intro m
  induction m with
  | zero => intro p _ _; trivial
  | succ n ih =>
    intro p h1 h2
    refine ⟨by simpa using hrep 1 (by omega), hrep p (by omega), h1, ?_, ih (p + 1) (by omega) (by omega)⟩
    calc p ≤ 33 := by omega
      _ ≤ 2 ^ 24 := by norm_num

theorem sumaF_pesos7 : sumaF (pesosVentana 7) = F32.ofSigned ((28 * 2 ^ 149 : Nat) : Int) := by
  decide!

/-- the weighted average of 30 equal short values -/
theorem promedioPonderadoSpec_replicate {x : F32} (h : x.corto = true) :
    promedioPonderadoSpec (List.replicate 30 x) 7 = x := by
  obtain ⟨z, M, j, rfl, hz, hM, hlt⟩ := corto_cases h
  have hrep := isRep_corto_mul hz hM hlt
  unfold promedioPonderadoSpec
  have e7 : (min (7 : Int) ((List.replicate 30 (F32.ofSigned z)).length : Int)).toNat = 7 := by
    simp
  rw [e7]
  simp only [Nat.reduceEqDiff, if_false]
  have eu : ultimos (List.replicate 30 (F32.ofSigned z)) 7 = (List.replicate 7 z).map F32.ofSigned := by
    simp [ultimos]
  rw [eu, sumaF_pesos7]
  unfold pesosVentana
  have ez := zipWith_mul_exact (List.replicate 7 z) 1 (prodRep_replicate hrep 7 1 le_rfl (by norm_num))
  simp only [List.length_replicate] at ez
  rw [ez]
  unfold sumaF
  rw [lit0_eq]
  have hs : SumasRep 0 (List.zipWith (fun (z : Int) (q : Nat) => z * (q : Int))
      (List.replicate 7 z) (List.range' 1 7)) := by
    have := sumasRep_weighted hrep 7 1 0 (by decide)
    rwa [Nat.cast_zero, mul_zero] at this
  rw [foldl_add_exact _ 0 hs]
  have esum : (0 : Int) + (List.zipWith (fun (z : Int) (q : Nat) => z * (q : Int))
      (List.replicate 7 z) (List.range' 1 7)).sum = z * ((28 : Nat) : Int) := by
    simp [List.replicate, List.range']; ring
  rw [esum]
  exact F32.div_ofSigned (by norm_num) (by simpa using hrep 1 (by norm_num))
    (isRep_nat_units (by norm_num)) (hrep 28 (by norm_num))

theorem promedio_replicate {x : F32} (h : x.corto = true) :
    F32.div (sumaF (List.replicate 30 x)) (F32.ofInt 30) = x := by
  obtain ⟨z, rfl, es, hrep⟩ := sumaF_replicate_corto h 30 (by norm_num)
  rw [es]
  have e30 : F32.ofInt 30 = F32.ofSigned ((30 * 2 ^ 149 : Nat) : Int) := by
    have := F32.ofInt_natCast (p := 30) (by norm_num)
    simpa using this
  rw [e30]
  exact F32.div_ofSigned (by norm_num) (by simpa using hrep 1 (by norm_num))
    (isRep_nat_units (by norm_num)) (hrep 30 (by norm_num))

theorem ajustarPorClima_id (v : F32) (c : Clima)
    (h1 : F32.ge c.viento (F32.lit 40 10) = false)
    (h2 : (F32.lt c.viento (F32.lit 15 10) && F32.ge c.humedad (F32.lit 750 10)) = false)
    (h3 : F32.le c.temp (F32.lit 120 10) = false) : ajustarPorClima v c = v := by
  unfold ajustarPorClima
  simp [h1, h2, h3]

theorem ofFn_const_hist {x : F32} {f : Fin DIAS → F32} (h : ∀ d, f d = x) :
    List.ofFn f = List.replicate 30 x := by
  have : f = fun _ => x := funext h
  rw [this, List.ofFn_const]

theorem zonasConstantes_hist (x : F32) (c : Clima) (i : Fin ZONAS) (p : Fin CONT)
    (d : Fin DIAS) : (zonasConstantes x c i).hist p d = x := rfl

theorem zonasConstantes_clima (x : F32) (c : Clima) (i : Fin ZONAS) :
    (zonasConstantes x c i).climaActual = c := rfl

theorem sum_range_succ_two : ∀ (m p : Nat), 2 * (List.range' p m).sum = m * (2 * p + m - 1) := by
  intro m
  induction m with
  | zero => intro p; simp
  | succ n ih =>
    intro p
    simp only [List.range', List.sum_cons]
    have := ih (p + 1)
    have e1 : 2 * (p + (List.range' (p + 1) n).sum) = 2 * p + n * (2 * (p + 1) + n - 1) := by
      rw [← this]; ring
    rw [e1]
    have e2 : 2 * (p + 1) + n - 1 = 2 * p + n + 1 := by omega
    have e3 : 2 * p + (n + 1) - 1 = 2 * p + n := by omega
    rw [e2, e3]; ring

theorem foldl_pesos_exact : ∀ (m p t : Nat), 1 ≤ p → t + (List.range' p m).sum ≤ 2 ^ 24 →
    ((List.range' p m).map (fun q : Nat => F32.ofInt (q : Int))).foldl F32.add
        (F32.ofSigned ((t * 2 ^ 149 : Nat) : Int)) =
      F32.ofSigned (((t + (List.range' p m).sum) * 2 ^ 149 : Nat) : Int) := by
  intro m
  induction m with
  | zero => intro p t _ _; simp
  | succ n ih =>
    intro p t hp h
    simp only [List.range', List.sum_cons] at h ⊢
    simp only [List.map_cons, List.foldl_cons]
    have hp24 : p ≤ 2 ^ 24 := by omega
    rw [F32.ofInt_natCast hp24]
    have hrep : ∀ k : Nat, k ≤ 2 ^ 24 → IsRep (((k * 2 ^ 149 : Nat) : Int)).natAbs := by
      intro k hk; rw [Int.natAbs_ofNat]; exact isRep_nat_units hk
    have e : ((t * 2 ^ 149 : Nat) : Int) + ((p * 2 ^ 149 : Nat) : Int) =
        (((t + p) * 2 ^ 149 : Nat) : Int) := by push_cast; ring
    rw [F32.add_ofSigned (hrep t (by omega)) (hrep p hp24) (by rw [e]; exact hrep (t + p) (by omega)),
      e, ih (p + 1) (t + p) (by omega) (by omega), Nat.add_assoc]

theorem sumaF_pesos_exact (k : Nat) (hk : k ≤ 5792) :
    sumaF (pesosVentana k) = F32.ofSigned (((k * (k + 1) / 2) * 2 ^ 149 : Nat) : Int) := by
  unfold sumaF pesosVentana
  rw [lit0_eq]
  have h2 := sum_range_succ_two k 1
  have e2 : 2 * 1 + k - 1 = k + 1 := by omega
  rw [e2] at h2
  have hs : (List.range' 1 k).sum = k * (k + 1) / 2 := by omega
  have hb : k * (k + 1) ≤ 5792 * 5793 := Nat.mul_le_mul hk (by omega)
  have := foldl_pesos_exact k 1 0 le_rfl (by rw [hs]; omega)
  simp only [Nat.zero_mul, Nat.cast_zero, Nat.zero_add] at this
  rw [this, hs]

theorem toRat_ofSigned_nat {t : Nat} (ht : t ≤ 2 ^ 24) :
    (F32.ofSigned ((t * 2 ^ 149 : Nat) : Int)).toRat = (t : ℚ) := by
  unfold F32.ofSigned
  have e1 : decide ((((t * 2 ^ 149 : Nat) : Int)) < 0) = false := by
    simp only [decide_eq_false_iff_not, not_lt]; exact Int.natCast_nonneg _
  rw [e1, Int.natAbs_ofNat, F32.ofUnits_eq _ (isRep_nat_units ht)]
  simp only [F32.toRat, F32.sgn, Bool.false_eq_true, if_false]
  have h : ((2 : ℚ) ^ 149) ≠ 0 := by positivity
  rw [Int.cast_natCast, Nat.cast_mul, Nat.cast_pow, Nat.cast_ofNat]
  exact mul_div_cancel_right₀ _ h

theorem sumaF_pesos_5793 : (sumaF (pesosVentana 5793)).toRat = 16782320 := by
  have e : pesosVentana 5793 = pesosVentana 5792 ++ [F32.ofInt 5793] := by
    unfold pesosVentana
    rw [show (5793 : Nat) = 5792 + 1 from rfl, List.range'_concat]
    simp
  have h := sumaF_pesos_exact 5792 le_rfl
  unfold sumaF at h ⊢
  rw [e, List.foldl_append, h]
  simp only [List.foldl_cons, List.foldl_nil]
  decide!

/-! ## Rounding error of the two averages of seven values -/

theorem pesos7_eq : pesosVentana 7 =
    [F32.ofInt 1, F32.ofInt 2, F32.ofInt 3, F32.ofInt 4, F32.ofInt 5, F32.ofInt 6, F32.ofInt 7] := by
  simp [pesosVentana, List.range']

theorem pesos7_facts :
    ((F32.lit 0 1).isFin = true ∧ (F32.lit 0 1).ext = 0) ∧
    ((F32.ofInt 1).isFin = true ∧ (F32.ofInt 1).ext = 1 * 2 ^ 149) ∧
    ((F32.ofInt 2).isFin = true ∧ (F32.ofInt 2).ext = 2 * 2 ^ 149) ∧
    ((F32.ofInt 3).isFin = true ∧ (F32.ofInt 3).ext = 3 * 2 ^ 149) ∧
    ((F32.ofInt 4).isFin = true ∧ (F32.ofInt 4).ext = 4 * 2 ^ 149) ∧
    ((F32.ofInt 5).isFin = true ∧ (F32.ofInt 5).ext = 5 * 2 ^ 149) ∧
    ((F32.ofInt 6).isFin = true ∧ (F32.ofInt 6).ext = 6 * 2 ^ 149) ∧
    ((F32.ofInt 7).isFin = true ∧ (F32.ofInt 7).ext = 7 * 2 ^ 149) ∧
    ((sumaF (pesosVentana 7)).isFin = true ∧ (sumaF (pesosVentana 7)).ext = 28 * 2 ^ 149) := by
  decide!

theorem ext_cast_units {y : F32} {k : Int} (w : ℚ) (h : y.ext = k * 2 ^ 149) (hk : (k : ℚ) = w) :
    (y.ext : ℚ) = w * 2 ^ 149 := by
  rw [h, Int.cast_mul, Int.cast_pow, Int.cast_ofNat, hk]

set_option maxHeartbeats 1000000 in
/-- Error analysis of the two averages of seven well separated values. -/
theorem siete_separados (x0 x1 x2 x3 x4 x5 x6 D : F32) (M : Int)
    (f0 : x0.isFin = true) (f1 : x1.isFin = true) (f2 : x2.isFin = true) (f3 : x3.isFin = true)
    (f4 : x4.isFin = true) (f5 : x5.isFin = true) (f6 : x6.isFin = true)
    (fD : D.isFin = true) (eD : D.ext = 28 * 2 ^ 149)
    (hM1 : 2 ^ 23 ≤ M) (hM2 : M < 2 ^ 272) (h0 : -M ≤ x0.ext) (h6 : x6.ext ≤ M)
    (h01 : M ≤ 2 ^ 20 * (x1.ext - x0.ext)) (h12 : M ≤ 2 ^ 20 * (x2.ext - x1.ext))
    (h23 : M ≤ 2 ^ 20 * (x3.ext - x2.ext)) (h34 : M ≤ 2 ^ 20 * (x4.ext - x3.ext))
    (h45 : M ≤ 2 ^ 20 * (x5.ext - x4.ext)) (h56 : M ≤ 2 ^ 20 * (x6.ext - x5.ext)) :
    (F32.div (sumaF [F32.mul x0 (F32.ofInt 1), F32.mul x1 (F32.ofInt 2), F32.mul x2 (F32.ofInt 3),
        F32.mul x3 (F32.ofInt 4), F32.mul x4 (F32.ofInt 5), F32.mul x5 (F32.ofInt 6),
        F32.mul x6 (F32.ofInt 7)]) D).isFin = true ∧
    (F32.div (sumaF [x0, x1, x2, x3, x4, x5, x6]) (F32.ofInt 7)).isFin = true ∧
    (F32.div (sumaF [x0, x1, x2, x3, x4, x5, x6]) (F32.ofInt 7)).ext <
      (F32.div (sumaF [F32.mul x0 (F32.ofInt 1), F32.mul x1 (F32.ofInt 2),
        F32.mul x2 (F32.ofInt 3), F32.mul x3 (F32.ofInt 4), F32.mul x4 (F32.ofInt 5),
        F32.mul x5 (F32.ofInt 6), F32.mul x6 (F32.ofInt 7)]) D).ext ∧
    (F32.div (sumaF [F32.mul x0 (F32.ofInt 1), F32.mul x1 (F32.ofInt 2), F32.mul x2 (F32.ofInt 3),
        F32.mul x3 (F32.ofInt 4), F32.mul x4 (F32.ofInt 5), F32.mul x5 (F32.ofInt 6),
        F32.mul x6 (F32.ofInt 7)]) D).ext < x6.ext := by
  obtain ⟨⟨fz, ez⟩, ⟨a1, b1⟩, ⟨a2, b2⟩, ⟨a3, b3⟩, ⟨a4, b4⟩, ⟨a5, b5⟩, ⟨a6, b6⟩, ⟨a7, b7⟩, -⟩ :=
    pesos7_facts
  have c1 := ext_cast_units 1 b1 (by norm_num)
  have c2 := ext_cast_units 2 b2 (by norm_num)
  have c3 := ext_cast_units 3 b3 (by norm_num)
  have c4 := ext_cast_units 4 b4 (by norm_num)
  have c5 := ext_cast_units 5 b5 (by norm_num)
  have c6 := ext_cast_units 6 b6 (by norm_num)
  have c7 := ext_cast_units 7 b7 (by norm_num)
  have cD := ext_cast_units 28 eD (by norm_num)
  have qz : ((F32.lit 0 1).ext : ℚ) = 0 := by rw [ez]; rfl
  have qM1 : (2 : ℚ) ^ 23 ≤ (M : ℚ) := by exact_mod_cast hM1
  have qM2 : (M : ℚ) < 2 ^ 272 := by exact_mod_cast hM2
  have q0 : -(M : ℚ) ≤ (x0.ext : ℚ) := by exact_mod_cast h0
  have q6 : (x6.ext : ℚ) ≤ (M : ℚ) := by exact_mod_cast h6
  have q01 : (M : ℚ) ≤ 2 ^ 20 * ((x1.ext : ℚ) - x0.ext) := by exact_mod_cast h01
  have q12 : (M : ℚ) ≤ 2 ^ 20 * ((x2.ext : ℚ) - x1.ext) := by exact_mod_cast h12
  have q23 : (M : ℚ) ≤ 2 ^ 20 * ((x3.ext : ℚ) - x2.ext) := by exact_mod_cast h23
  have q34 : (M : ℚ) ≤ 2 ^ 20 * ((x4.ext : ℚ) - x3.ext) := by exact_mod_cast h34
  have q45 : (M : ℚ) ≤ 2 ^ 20 * ((x5.ext : ℚ) - x4.ext) := by exact_mod_cast h45
  have q56 : (M : ℚ) ≤ 2 ^ 20 * ((x6.ext : ℚ) - x5.ext) := by exact_mod_cast h56
  clear hM1 hM2 h0 h6 h01 h12 h23 h34 h45 h56 b1 b2 b3 b4 b5 b6 b7 eD ez
  simp only [sumaF, List.foldl]
  generalize (M : ℚ) = Mq at *
  norm_num at qM1 q01 q12 q23 q34 q45 q56
  have bl0 : -Mq ≤ (x0.ext : ℚ) := by linarith only [qM1, q0, q01, q12, q23, q34, q45, q56]
  have bu0 : (x0.ext : ℚ) ≤ Mq := by linarith only [qM1, q6, q01, q12, q23, q34, q45, q56]
  have bl1 : -Mq ≤ (x1.ext : ℚ) := by linarith only [qM1, q0, q01, q12, q23, q34, q45, q56]
  have bu1 : (x1.ext : ℚ) ≤ Mq := by linarith only [qM1, q6, q01, q12, q23, q34, q45, q56]
  have bl2 : -Mq ≤ (x2.ext : ℚ) := by linarith only [qM1, q0, q01, q12, q23, q34, q45, q56]
  have bu2 : (x2.ext : ℚ) ≤ Mq := by linarith only [qM1, q6, q01, q12, q23, q34, q45, q56]
  have bl3 : -Mq ≤ (x3.ext : ℚ) := by linarith only [qM1, q0, q01, q12, q23, q34, q45, q56]
  have bu3 : (x3.ext : ℚ) ≤ Mq := by linarith only [qM1, q6, q01, q12, q23, q34, q45, q56]
  have bl4 : -Mq ≤ (x4.ext : ℚ) := by linarith only [qM1, q0, q01, q12, q23, q34, q45, q56]
  have bu4 : (x4.ext : ℚ) ≤ Mq := by linarith only [qM1, q6, q01, q12, q23, q34, q45, q56]
  have bl5 : -Mq ≤ (x5.ext : ℚ) := by linarith only [qM1, q0, q01, q12, q23, q34, q45, q56]
  have bu5 : (x5.ext : ℚ) ≤ Mq := by linarith only [qM1, q6, q01, q12, q23, q34, q45, q56]
  have bl6 : -Mq ≤ (x6.ext : ℚ) := by linarith only [qM1, q0, q01, q12, q23, q34, q45, q56]
  have bu6 : (x6.ext : ℚ) ≤ Mq := by linarith only [qM1, q6, q01, q12, q23, q34, q45, q56]
  obtain ⟨fp0, lp0, up0⟩ := F32.mul_bd f0 a1 1 (1 * Mq) c1
    (by linarith only [bl0]) (by linarith only [bu0]) (by linarith only [qM1, qM2])
  generalize F32.mul x0 (F32.ofInt 1) = P0 at *
  obtain ⟨fp1, lp1, up1⟩ := F32.mul_bd f1 a2 2 (2 * Mq) c2
    (by linarith only [bl1]) (by linarith only [bu1]) (by linarith only [qM1, qM2])
  generalize F32.mul x1 (F32.ofInt 2) = P1 at *
  obtain ⟨fp2, lp2, up2⟩ := F32.mul_bd f2 a3 3 (3 * Mq) c3
    (by linarith only [bl2]) (by linarith only [bu2]) (by linarith only [qM1, qM2])
  generalize F32.mul x2 (F32.ofInt 3) = P2 at *
  obtain ⟨fp3, lp3, up3⟩ := F32.mul_bd f3 a4 4 (4 * Mq) c4
    (by linarith only [bl3]) (by linarith only [bu3]) (by linarith only [qM1, qM2])
  generalize F32.mul x3 (F32.ofInt 4) = P3 at *
  obtain ⟨fp4, lp4, up4⟩ := F32.mul_bd f4 a5 5 (5 * Mq) c5
    (by linarith only [bl4]) (by linarith only [bu4]) (by linarith only [qM1, qM2])
  generalize F32.mul x4 (F32.ofInt 5) = P4 at *
  obtain ⟨fp5, lp5, up5⟩ := F32.mul_bd f5 a6 6 (6 * Mq) c6
    (by linarith only [bl5]) (by linarith only [bu5]) (by linarith only [qM1, qM2])
  generalize F32.mul x5 (F32.ofInt 6) = P5 at *
  obtain ⟨fp6, lp6, up6⟩ := F32.mul_bd f6 a7 7 (7 * Mq) c7
    (by linarith only [bl6]) (by linarith only [bu6]) (by linarith only [qM1, qM2])
  generalize F32.mul x6 (F32.ofInt 7) = P6 at *
  obtain ⟨fs0, ls0, us0⟩ := F32.add_bd fz fp0 (2 * Mq)
    (by linarith only [qz, lp0, up0, bl0, bu0, qM1]) (by linarith only [qz, lp0, up0, bl0, bu0, qM1]) (by linarith only [qM1, qM2])
  generalize F32.add (F32.lit 0 1) P0 = S0 at *
  have hl0 : 1 * (x0.ext : ℚ) - 5 * Mq / 2 ^ 24 ≤ (S0.ext : ℚ) := by
    linarith only [qz, ls0, us0, lp0, up0, qM1]
  have hu0 : (S0.ext : ℚ) ≤ 1 * (x0.ext : ℚ) + 5 * Mq / 2 ^ 24 := by
    linarith only [qz, ls0, us0, lp0, up0, qM1]
  obtain ⟨fs1, ls1, us1⟩ := F32.add_bd fs0 fp1 (4 * Mq)
    (by linarith only [hl0, hu0, lp1, up1, bl0, bu0, bl1, bu1, qM1]) (by linarith only [hl0, hu0, lp1, up1, bl0, bu0, bl1, bu1, qM1]) (by linarith only [qM1, qM2])
  generalize F32.add S0 P1 = S1 at *
  have hl1 : 1 * (x0.ext : ℚ) + 2 * (x1.ext : ℚ) - 13 * Mq / 2 ^ 24 ≤ (S1.ext : ℚ) := by
    linarith only [hl0, hu0, ls1, us1, lp1, up1, qM1]
  have hu1 : (S1.ext : ℚ) ≤ 1 * (x0.ext : ℚ) + 2 * (x1.ext : ℚ) + 13 * Mq / 2 ^ 24 := by
    linarith only [hl0, hu0, ls1, us1, lp1, up1, qM1]
  obtain ⟨fs2, ls2, us2⟩ := F32.add_bd fs1 fp2 (7 * Mq)
    (by linarith only [hl1, hu1, lp2, up2, bl0, bu0, bl1, bu1, bl2, bu2, qM1]) (by linarith only [hl1, hu1, lp2, up2, bl0, bu0, bl1, bu1, bl2, bu2, qM1]) (by linarith only [qM1, qM2])
  generalize F32.add S1 P2 = S2 at *
  have hl2 : 1 * (x0.ext : ℚ) + 2 * (x1.ext : ℚ) + 3 * (x2.ext : ℚ) - 25 * Mq / 2 ^ 24 ≤ (S2.ext : ℚ) := by
    linarith only [hl1, hu1, ls2, us2, lp2, up2, qM1]
  have hu2 : (S2.ext : ℚ) ≤ 1 * (x0.ext : ℚ) + 2 * (x1.ext : ℚ) + 3 * (x2.ext : ℚ) + 25 * Mq / 2 ^ 24 := by
    linarith only [hl1, hu1, ls2, us2, lp2, up2, qM1]
  obtain ⟨fs3, ls3, us3⟩ := F32.add_bd fs2 fp3 (11 * Mq)
    (by linarith only [hl2, hu2, lp3, up3, bl0, bu0, bl1, bu1, bl2, bu2, bl3, bu3, qM1]) (by linarith only [hl2, hu2, lp3, up3, bl0, bu0, bl1, bu1, bl2, bu2, bl3, bu3, qM1]) (by linarith only [qM1, qM2])
  generalize F32.add S2 P3 = S3 at *
  have hl3 : 1 * (x0.ext : ℚ) + 2 * (x1.ext : ℚ) + 3 * (x2.ext : ℚ) + 4 * (x3.ext : ℚ) - 42 * Mq / 2 ^ 24 ≤ (S3.ext : ℚ) := by
    linarith only [hl2, hu2, ls3, us3, lp3, up3, qM1]
  have hu3 : (S3.ext : ℚ) ≤ 1 * (x0.ext : ℚ) + 2 * (x1.ext : ℚ) + 3 * (x2.ext : ℚ) + 4 * (x3.ext : ℚ) + 42 * Mq / 2 ^ 24 := by
    linarith only [hl2, hu2, ls3, us3, lp3, up3, qM1]
  obtain ⟨fs4, ls4, us4⟩ := F32.add_bd fs3 fp4 (16 * Mq)
    (by linarith only [hl3, hu3, lp4, up4, bl0, bu0, bl1, bu1, bl2, bu2, bl3, bu3, bl4, bu4, qM1]) (by linarith only [hl3, hu3, lp4, up4, bl0, bu0, bl1, bu1, bl2, bu2, bl3, bu3, bl4, bu4, qM1]) (by linarith only [qM1, qM2])
  generalize F32.add S3 P4 = S4 at *
  have hl4 : 1 * (x0.ext : ℚ) + 2 * (x1.ext : ℚ) + 3 * (x2.ext : ℚ) + 4 * (x3.ext : ℚ) + 5 * (x4.ext : ℚ) - 65 * Mq / 2 ^ 24 ≤ (S4.ext : ℚ) := by
    linarith only [hl3, hu3, ls4, us4, lp4, up4, qM1]
  have hu4 : (S4.ext : ℚ) ≤ 1 * (x0.ext : ℚ) + 2 * (x1.ext : ℚ) + 3 * (x2.ext : ℚ) + 4 * (x3.ext : ℚ) + 5 * (x4.ext : ℚ) + 65 * Mq / 2 ^ 24 := by
    linarith only [hl3, hu3, ls4, us4, lp4, up4, qM1]
  obtain ⟨fs5, ls5, us5⟩ := F32.add_bd fs4 fp5 (22 * Mq)
    (by linarith only [hl4, hu4, lp5, up5, bl0, bu0, bl1, bu1, bl2, bu2, bl3, bu3, bl4, bu4, bl5, bu5, qM1]) (by linarith only [hl4, hu4, lp5, up5, bl0, bu0, bl1, bu1, bl2, bu2, bl3, bu3, bl4, bu4, bl5, bu5, qM1]) (by linarith only [qM1, qM2])
  generalize F32.add S4 P5 = S5 at *
  have hl5 : 1 * (x0.ext : ℚ) + 2 * (x1.ext : ℚ) + 3 * (x2.ext : ℚ) + 4 * (x3.ext : ℚ) + 5 * (x4.ext : ℚ) + 6 * (x5.ext : ℚ) - 95 * Mq / 2 ^ 24 ≤ (S5.ext : ℚ) := by
    linarith only [hl4, hu4, ls5, us5, lp5, up5, qM1]
  have hu5 : (S5.ext : ℚ) ≤ 1 * (x0.ext : ℚ) + 2 * (x1.ext : ℚ) + 3 * (x2.ext : ℚ) + 4 * (x3.ext : ℚ) + 5 * (x4.ext : ℚ) + 6 * (x5.ext : ℚ) + 95 * Mq / 2 ^ 24 := by
    linarith only [hl4, hu4, ls5, us5, lp5, up5, qM1]
  obtain ⟨fs6, ls6, us6⟩ := F32.add_bd fs5 fp6 (29 * Mq)
    (by linarith only [hl5, hu5, lp6, up6, bl0, bu0, bl1, bu1, bl2, bu2, bl3, bu3, bl4, bu4, bl5, bu5, bl6, bu6, qM1]) (by linarith only [hl5, hu5, lp6, up6, bl0, bu0, bl1, bu1, bl2, bu2, bl3, bu3, bl4, bu4, bl5, bu5, bl6, bu6, qM1]) (by linarith only [qM1, qM2])
  generalize F32.add S5 P6 = S6 at *
  have hl6 : 1 * (x0.ext : ℚ) + 2 * (x1.ext : ℚ) + 3 * (x2.ext : ℚ) + 4 * (x3.ext : ℚ) + 5 * (x4.ext : ℚ) + 6 * (x5.ext : ℚ) + 7 * (x6.ext : ℚ) - 133 * Mq / 2 ^ 24 ≤ (S6.ext : ℚ) := by
    linarith only [hl5, hu5, ls6, us6, lp6, up6, qM1]
  have hu6 : (S6.ext : ℚ) ≤ 1 * (x0.ext : ℚ) + 2 * (x1.ext : ℚ) + 3 * (x2.ext : ℚ) + 4 * (x3.ext : ℚ) + 5 * (x4.ext : ℚ) + 6 * (x5.ext : ℚ) + 7 * (x6.ext : ℚ) + 133 * Mq / 2 ^ 24 := by
    linarith only [hl5, hu5, ls6, us6, lp6, up6, qM1]
  obtain ⟨fW, lW, uW⟩ := F32.div_bd fs6 fD 28 (33 / 32 * Mq) (by norm_num) cD
    (by linarith only [hl6, hu6, bl0, bu0, bl1, bu1, bl2, bu2, bl3, bu3, bl4, bu4, bl5, bu5, bl6, bu6, qM1]) (by linarith only [hl6, hu6, bl0, bu0, bl1, bu1, bl2, bu2, bl3, bu3, bl4, bu4, bl5, bu5, bl6, bu6, qM1])
    (by linarith only [qM1, qM2])
  generalize F32.div S6 D = Wt at *
  have hlW : (1 * (x0.ext : ℚ) + 2 * (x1.ext : ℚ) + 3 * (x2.ext : ℚ) + 4 * (x3.ext : ℚ) + 5 * (x4.ext : ℚ) + 6 * (x5.ext : ℚ) + 7 * (x6.ext : ℚ)) / 28 - 217 / 32 * Mq / 2 ^ 24 ≤ (Wt.ext : ℚ) := by
    linarith only [hl6, hu6, lW, uW, qM1]
  have huW : (Wt.ext : ℚ) ≤ (1 * (x0.ext : ℚ) + 2 * (x1.ext : ℚ) + 3 * (x2.ext : ℚ) + 4 * (x3.ext : ℚ) + 5 * (x4.ext : ℚ) + 6 * (x5.ext : ℚ) + 7 * (x6.ext : ℚ)) / 28 + 217 / 32 * Mq / 2 ^ 24 := by
    linarith only [hl6, hu6, lW, uW, qM1]
  obtain ⟨ft0, lt0, ut0⟩ := F32.add_bd fz f0 (2 * Mq)
    (by linarith only [qz, bl0, bu0, qM1]) (by linarith only [qz, bl0, bu0, qM1]) (by linarith only [qM1, qM2])
  generalize F32.add (F32.lit 0 1) x0 = T0 at *
  have kl0 : (x0.ext : ℚ) - 3 * Mq / 2 ^ 24 ≤ (T0.ext : ℚ) := by
    linarith only [qz, lt0, ut0, qM1]
  have ku0 : (T0.ext : ℚ) ≤ (x0.ext : ℚ) + 3 * Mq / 2 ^ 24 := by
    linarith only [qz, lt0, ut0, qM1]
  obtain ⟨ft1, lt1, ut1⟩ := F32.add_bd ft0 f1 (3 * Mq)
    (by linarith only [kl0, ku0, bl0, bu0, bl1, bu1, qM1]) (by linarith only [kl0, ku0, bl0, bu0, bl1, bu1, qM1]) (by linarith only [qM1, qM2])
  generalize F32.add T0 x1 = T1 at *
  have kl1 : (x0.ext : ℚ) + (x1.ext : ℚ) - 7 * Mq / 2 ^ 24 ≤ (T1.ext : ℚ) := by
    linarith only [kl0, ku0, lt1, ut1, qM1]
  have ku1 : (T1.ext : ℚ) ≤ (x0.ext : ℚ) + (x1.ext : ℚ) + 7 * Mq / 2 ^ 24 := by
    linarith only [kl0, ku0, lt1, ut1, qM1]
  obtain ⟨ft2, lt2, ut2⟩ := F32.add_bd ft1 f2 (4 * Mq)
    (by linarith only [kl1, ku1, bl0, bu0, bl1, bu1, bl2, bu2, qM1]) (by linarith only [kl1, ku1, bl0, bu0, bl1, bu1, bl2, bu2, qM1]) (by linarith only [qM1, qM2])
  generalize F32.add T1 x2 = T2 at *
  have kl2 : (x0.ext : ℚ) + (x1.ext : ℚ) + (x2.ext : ℚ) - 12 * Mq / 2 ^ 24 ≤ (T2.ext : ℚ) := by
    linarith only [kl1, ku1, lt2, ut2, qM1]
  have ku2 : (T2.ext : ℚ) ≤ (x0.ext : ℚ) + (x1.ext : ℚ) + (x2.ext : ℚ) + 12 * Mq / 2 ^ 24 := by
    linarith only [kl1, ku1, lt2, ut2, qM1]
  obtain ⟨ft3, lt3, ut3⟩ := F32.add_bd ft2 f3 (5 * Mq)
    (by linarith only [kl2, ku2, bl0, bu0, bl1, bu1, bl2, bu2, bl3, bu3, qM1]) (by linarith only [kl2, ku2, bl0, bu0, bl1, bu1, bl2, bu2, bl3, bu3, qM1]) (by linarith only [qM1, qM2])
  generalize F32.add T2 x3 = T3 at *
  have kl3 : (x0.ext : ℚ) + (x1.ext : ℚ) + (x2.ext : ℚ) + (x3.ext : ℚ) - 18 * Mq / 2 ^ 24 ≤ (T3.ext : ℚ) := by
    linarith only [kl2, ku2, lt3, ut3, qM1]
  have ku3 : (T3.ext : ℚ) ≤ (x0.ext : ℚ) + (x1.ext : ℚ) + (x2.ext : ℚ) + (x3.ext : ℚ) + 18 * Mq / 2 ^ 24 := by
    linarith only [kl2, ku2, lt3, ut3, qM1]
  obtain ⟨ft4, lt4, ut4⟩ := F32.add_bd ft3 f4 (6 * Mq)
    (by linarith only [kl3, ku3, bl0, bu0, bl1, bu1, bl2, bu2, bl3, bu3, bl4, bu4, qM1]) (by linarith only [kl3, ku3, bl0, bu0, bl1, bu1, bl2, bu2, bl3, bu3, bl4, bu4, qM1]) (by linarith only [qM1, qM2])
  generalize F32.add T3 x4 = T4 at *
  have kl4 : (x0.ext : ℚ) + (x1.ext : ℚ) + (x2.ext : ℚ) + (x3.ext : ℚ) + (x4.ext : ℚ) - 25 * Mq / 2 ^ 24 ≤ (T4.ext : ℚ) := by
    linarith only [kl3, ku3, lt4, ut4, qM1]
  have ku4 : (T4.ext : ℚ) ≤ (x0.ext : ℚ) + (x1.ext : ℚ) + (x2.ext : ℚ) + (x3.ext : ℚ) + (x4.ext : ℚ) + 25 * Mq / 2 ^ 24 := by
    linarith only [kl3, ku3, lt4, ut4, qM1]
  obtain ⟨ft5, lt5, ut5⟩ := F32.add_bd ft4 f5 (7 * Mq)
    (by linarith only [kl4, ku4, bl0, bu0, bl1, bu1, bl2, bu2, bl3, bu3, bl4, bu4, bl5, bu5, qM1]) (by linarith only [kl4, ku4, bl0, bu0, bl1, bu1, bl2, bu2, bl3, bu3, bl4, bu4, bl5, bu5, qM1]) (by linarith only [qM1, qM2])
  generalize F32.add T4 x5 = T5 at *
  have kl5 : (x0.ext : ℚ) + (x1.ext : ℚ) + (x2.ext : ℚ) + (x3.ext : ℚ) + (x4.ext : ℚ) + (x5.ext : ℚ) - 33 * Mq / 2 ^ 24 ≤ (T5.ext : ℚ) := by
    linarith only [kl4, ku4, lt5, ut5, qM1]
  have ku5 : (T5.ext : ℚ) ≤ (x0.ext : ℚ) + (x1.ext : ℚ) + (x2.ext : ℚ) + (x3.ext : ℚ) + (x4.ext : ℚ) + (x5.ext : ℚ) + 33 * Mq / 2 ^ 24 := by
    linarith only [kl4, ku4, lt5, ut5, qM1]
  obtain ⟨ft6, lt6, ut6⟩ := F32.add_bd ft5 f6 (8 * Mq)
    (by linarith only [kl5, ku5, bl0, bu0, bl1, bu1, bl2, bu2, bl3, bu3, bl4, bu4, bl5, bu5, bl6, bu6, qM1]) (by linarith only [kl5, ku5, bl0, bu0, bl1, bu1, bl2, bu2, bl3, bu3, bl4, bu4, bl5, bu5, bl6, bu6, qM1]) (by linarith only [qM1, qM2])
  generalize F32.add T5 x6 = T6 at *
  have kl6 : (x0.ext : ℚ) + (x1.ext : ℚ) + (x2.ext : ℚ) + (x3.ext : ℚ) + (x4.ext : ℚ) + (x5.ext : ℚ) + (x6.ext : ℚ) - 42 * Mq / 2 ^ 24 ≤ (T6.ext : ℚ) := by
    linarith only [kl5, ku5, lt6, ut6, qM1]
  have ku6 : (T6.ext : ℚ) ≤ (x0.ext : ℚ) + (x1.ext : ℚ) + (x2.ext : ℚ) + (x3.ext : ℚ) + (x4.ext : ℚ) + (x5.ext : ℚ) + (x6.ext : ℚ) + 42 * Mq / 2 ^ 24 := by
    linarith only [kl5, ku5, lt6, ut6, qM1]
  obtain ⟨fU, lU, uU⟩ := F32.div_bd ft6 a7 7 (33 / 32 * Mq) (by norm_num) c7
    (by linarith only [kl6, ku6, bl0, bu0, bl1, bu1, bl2, bu2, bl3, bu3, bl4, bu4, bl5, bu5, bl6, bu6, qM1]) (by linarith only [kl6, ku6, bl0, bu0, bl1, bu1, bl2, bu2, bl3, bu3, bl4, bu4, bl5, bu5, bl6, bu6, qM1])
    (by linarith only [qM1, qM2])
  generalize F32.div T6 (F32.ofInt 7) = Ut at *
  have huU : (Ut.ext : ℚ) ≤ ((x0.ext : ℚ) + (x1.ext : ℚ) + (x2.ext : ℚ) + (x3.ext : ℚ) + (x4.ext : ℚ) + (x5.ext : ℚ) + (x6.ext : ℚ)) / 7 + 257 / 32 * Mq / 2 ^ 24 := by
    linarith only [kl6, ku6, lU, uU, qM1]
  have r1 : (Ut.ext : ℚ) < (Wt.ext : ℚ) := by
    linarith only [huU, hlW, qM1, q01, q12, q23, q34, q45, q56]
  have r2 : (Wt.ext : ℚ) < (x6.ext : ℚ) := by
    linarith only [huW, qM1, q01, q12, q23, q34, q45, q56]
  exact ⟨fW, fU, by exact_mod_cast r1, by exact_mod_cast r2⟩

/-! ## Persistence -/

theorem fmt2_lit (h : Nat) (hh : h ≤ 1000000) : fmt2 (F32.lit h 100) = Texto2.num false h := by
  have hb : (0 : Nat) < 100 := by norm_num
  -- the rounded magnitude is below 2 ^ 163
  have hF : IsRep (2 ^ 14 * 2 ^ 149) := F32.isRep_of_mul_pow (by norm_num) (by norm_num)
  have hle : F32.rmag (h * 2 ^ 149) 100 ≤ 2 ^ 14 * 2 ^ 149 := by
    apply F32.rmag_le_of_le hF hb
    calc h * 2 ^ 149 ≤ 1000000 * 2 ^ 149 := Nat.mul_le_mul_right _ hh
      _ ≤ 2 ^ 14 * 2 ^ 149 * 100 := by norm_num
  have hrep : IsRep (F32.rmag (h * 2 ^ 149) 100) :=
    F32.isRep_rmag _ _ hb (lt_of_le_of_lt hle (by norm_num))
  have e : F32.lit h 100 = F32.fin false (F32.rmag (h * 2 ^ 149) 100) hrep := by
    unfold F32.lit F32.round
    rw [dif_pos hrep]
  rw [e]
  simp only [fmt2]
  congr 1
  -- the rounding error is below half a hundredth
  have hq : F32.qexp (h * 2 ^ 149) 100 ≤ 139 := by
    unfold F32.qexp
    have h1 : h * 2 ^ 149 / 100 < 2 ^ 163 := by
      apply Nat.div_lt_of_lt_mul
      calc h * 2 ^ 149 ≤ 1000000 * 2 ^ 149 := Nat.mul_le_mul_right _ hh
        _ < 100 * 2 ^ 163 := by norm_num
    have := ilog2_lt_of_lt_pow h1 (by norm_num)
    omega
  have hp : 100 * 2 ^ F32.qexp (h * 2 ^ 149) 100 < 2 ^ 149 := by
    calc 100 * 2 ^ F32.qexp (h * 2 ^ 149) 100 ≤ 100 * 2 ^ 139 :=
        Nat.mul_le_mul_left _ (Nat.pow_le_pow_right (by norm_num) hq)
      _ < 2 ^ 149 := by norm_num
  obtain ⟨e1, e2⟩ := F32.rmag_err (h * 2 ^ 149) 100 hb
  apply rne_unique (by positivity)
  · omega
  · omega

theorem scanF_fmt2_dosDecimales {x : F32} (hx : x.dosDecimales) : scanF (fmt2 x) = x := by
  obtain ⟨h, hh, rfl⟩ := hx
  rw [fmt2_lit h hh]
  rfl

theorem buscar_nombres : ∀ i : Fin ZONAS,
    (List.finRange ZONAS).find? (fun j => decide (nombresZonas i = nombresZonas j)) = some i := by
  decide

theorem buscar_eq (st : Zonas) (hn : ∀ i, (st i).nombre = nombresZonas i) (i : Fin ZONAS) :
    cargarDatos.buscar st (nombresZonas i) = some i := by
  unfold cargarDatos.buscar
  have : (fun j => decide (nombresZonas i = (st j).nombre)) =
      (fun j => decide (nombresZonas i = nombresZonas j)) := by
    funext j; rw [hn j]
  rw [this]
  exact buscar_nombres i

theorem update4_apply {β : Type} (f g : Fin CONT → β) (c : Fin CONT) :
    Function.update (Function.update (Function.update (Function.update f PM25 (g PM25))
      NO2 (g NO2)) SO2 (g SO2)) CO2 (g CO2) c = g c := by
  by_cases h3 : c = CO2
  · subst h3; simp
  · rw [Function.update_noteq h3]
    by_cases h2 : c = SO2
    · subst h2; simp
    · rw [Function.update_noteq h2]
      by_cases h1 : c = NO2
      · subst h1; simp
      · rw [Function.update_noteq h1]
        have h0 : c = PM25 := by
          have hlt : (c : Nat) < 4 := c.isLt
          have e1 : (c : Nat) ≠ 1 := by intro h; exact h1 (Fin.ext h)
          have e2 : (c : Nat) ≠ 2 := by intro h; exact h2 (Fin.ext h)
          have e3 : (c : Nat) ≠ 3 := by intro h; exact h3 (Fin.ext h)
          have e0 : (c : Nat) = 0 := by omega
          exact Fin.ext e0
        subst h0; simp

/-- Effect of reading the line written for zone `i` and day `d`. -/
theorem linea_fila (zs st : Zonas) (hz : ∀ i, (zs i).nombre = nombresZonas i)
    (hn : ∀ i, (st i).nombre = nombresZonas i) (i : Fin ZONAS) (d : Fin DIAS) :
    (∀ j, (cargarDatos.linea st (guardarDatos.fila zs i d) j).nombre = nombresZonas j) ∧
    (∀ j c e, (cargarDatos.linea st (guardarDatos.fila zs i d) j).hist c e =
      if j = i ∧ e = d then scanF (fmt2 ((zs i).hist c d)) else (st j).hist c e) ∧
    (∀ j, (cargarDatos.linea st (guardarDatos.fila zs i d) j).climaActual =
      if j = i then
        { temp := scanF (fmt2 (zs i).climaActual.temp)
          viento := scanF (fmt2 (zs i).climaActual.viento)
          humedad := scanF (fmt2 (zs i).climaActual.humedad) }
      else (st j).climaActual) := by
  have hb : cargarDatos.buscar st (guardarDatos.fila zs i d).zona = some i := by
    simp only [guardarDatos.fila, hz i]
    exact buscar_eq st hn i
  have hd : 1 ≤ (guardarDatos.fila zs i d).dia ∧ (guardarDatos.fila zs i d).dia ≤ (DIAS : Int) := by
    simp only [guardarDatos.fila]
    have := d.isLt
    constructor <;> omega
  have hidx : ∀ hp : ((guardarDatos.fila zs i d).dia - 1).toNat < DIAS,
      (⟨((guardarDatos.fila zs i d).dia - 1).toNat, hp⟩ : Fin DIAS) = d := by
    intro hp
    apply Fin.ext
    simp [guardarDatos.fila]
  unfold cargarDatos.linea
  rw [hb]
  simp only [dif_pos hd, hidx]
  refine ⟨?_, ?_, ?_⟩
  · intro j
    by_cases hj : j = i
    · subst hj; simp [hn]
    · simp [Function.update_noteq hj, hn]
  · intro j c e
    by_cases hj : j = i
    · subst hj
      simp only [Function.update_same, true_and]
      simp only [guardarDatos.fila]
      have key := update4_apply ((st j).hist)
        (fun c => Function.update ((st j).hist c) d (scanF (fmt2 ((zs j).hist c d)))) c
      simp only [] at key
      rw [key]
      by_cases he : e = d
      · subst he; simp
      · simp [Function.update_noteq he, he]
    · simp [Function.update_noteq hj, hj]
  · intro j
    by_cases hj : j = i
    · subst hj; simp [guardarDatos.fila]
    · simp [Function.update_noteq hj, hj]

theorem cargar_pares (zs : Zonas) (hz : ∀ i, (zs i).nombre = nombresZonas i)
    (l : List (Fin ZONAS × Fin DIAS)) :
    (∀ j, (cargarDatos (l.map (fun p => guardarDatos.fila zs p.1 p.2)) inicializarZonas j).nombre
      = nombresZonas j) ∧
    (∀ j c e, (j, e) ∈ l →
      (cargarDatos (l.map (fun p => guardarDatos.fila zs p.1 p.2)) inicializarZonas j).hist c e =
        scanF (fmt2 ((zs j).hist c e))) ∧
    (∀ j e, (j, e) ∈ l →
      (cargarDatos (l.map (fun p => guardarDatos.fila zs p.1 p.2)) inicializarZonas j).climaActual =
        (zs j).climaActual.releido) := by
  induction l using List.reverseRecOn with
  | nil =>
    refine ⟨fun j => rfl, ?_, ?_⟩
    · intro j c e h; simp at h
    · intro j e h; simp at h
  | append_singleton l p ih =>
    obtain ⟨h1, h2, h3⟩ := ih
    have e : cargarDatos ((l ++ [p]).map (fun p => guardarDatos.fila zs p.1 p.2)) inicializarZonas =
        cargarDatos.linea (cargarDatos (l.map (fun p => guardarDatos.fila zs p.1 p.2)) inicializarZonas)
          (guardarDatos.fila zs p.1 p.2) := by
      simp [cargarDatos, List.foldl_append]
    rw [e]
    obtain ⟨g1, g2, g3⟩ := linea_fila zs _ hz h1 p.1 p.2
    refine ⟨g1, ?_, ?_⟩
    · intro j c d hm
      rw [g2 j c d]
      by_cases hp : j = p.1 ∧ d = p.2
      · rw [if_pos hp, hp.1, hp.2]
      · rw [if_neg hp]
        apply h2
        rcases List.mem_append.mp hm with hm1 | hm1
        · exact hm1
        · exfalso
          apply hp
          have := List.mem_singleton.mp hm1
          rw [Prod.ext_iff] at this
          exact this
    · intro j d hm
      rw [g3 j]
      by_cases hp : j = p.1
      · rw [if_pos hp, hp]; rfl
      · rw [if_neg hp]
        apply h3 j d
        rcases List.mem_append.mp hm with hm1 | hm1
        · exact hm1
        · exfalso
          apply hp
          have := List.mem_singleton.mp hm1
          rw [Prod.ext_iff] at this
          exact this.1

theorem guardarDatos_eq_map (zs : Zonas) :
    guardarDatos zs =
      ((List.finRange ZONAS).flatMap (fun i => (List.finRange DIAS).map (fun d => (i, d)))).map
        (fun p => guardarDatos.fila zs p.1 p.2) := by
  unfold guardarDatos
  rw [List.map_flatMap]
  simp [List.map_map, Function.comp_def]

/-- What `cargarDatos` reads back from the file written by `guardarDatos`. -/
theorem cargar_guardar (zs : Zonas) (hz : ∀ i, (zs i).nombre = nombresZonas i) :
    (∀ j, (cargarDatos (guardarDatos zs) inicializarZonas j).nombre = nombresZonas j) ∧
    (∀ j c e, (cargarDatos (guardarDatos zs) inicializarZonas j).hist c e =
        scanF (fmt2 ((zs j).hist c e))) ∧
    (∀ j, (cargarDatos (guardarDatos zs) inicializarZonas j).climaActual =
        (zs j).climaActual.releido) := by
  rw [guardarDatos_eq_map]
  obtain ⟨h1, h2, h3⟩ := cargar_pares zs hz
    ((List.finRange ZONAS).flatMap (fun i => (List.finRange DIAS).map (fun d => (i, d))))
  have hmem : ∀ (j : Fin ZONAS) (e : Fin DIAS),
      (j, e) ∈ (List.finRange ZONAS).flatMap (fun i => (List.finRange DIAS).map (fun d => (i, d))) := by
    intro j e
    rw [List.mem_flatMap]
    exact ⟨j, List.mem_finRange j, List.mem_map.mpr ⟨e, List.mem_finRange e, rfl⟩⟩
  refine ⟨h1, fun j c e => h2 j c e (hmem j e), fun j => h3 j ⟨0, by decide⟩ (hmem j _)⟩

theorem zonasConstantes_nombre (x : F32) (c : Clima) (i : Fin ZONAS) :
    (zonasConstantes x c i).nombre = nombresZonas i := rfl

/-! ## Alert levels -/

/-- C2: on each of the 16 pairs of alert levels the choice of `nivelFinal` in `verResumen`
is the maximum of the two levels for the order Normal < Preventiva < Alerta < Critica; when
`verResumen` prints recommendations at all (some level is not Normal) it prints them for
that maximum. -/
theorem nivelFinal_eq_maxNivel :
    ∀ a ∈ niveles, ∀ p ∈ niveles,
      nivelFinal a p = maxNivel a p ∧
      (nivelRecomendado a p = none ∨ nivelRecomendado a p = some (maxNivel a p)) := by
  decide

/-- C2 at the pair (Alerta, Normal). -/
theorem nivelFinal_eq_maxNivel_witness :
    nivelFinal "Alerta" "Normal" = maxNivel "Alerta" "Normal" ∧
    (nivelRecomendado "Alerta" "Normal" = none ∨
      nivelRecomendado "Alerta" "Normal" = some (maxNivel "Alerta" "Normal")) :=
  nivelFinal_eq_maxNivel "Alerta" (by decide) "Normal" (by decide)

/-- C10: for every threshold (of any sign, infinite or NaN) `nivelAlerta` is monotone in the
value: if `v1 <= v2` holds in C then the level of `v1` is at most the level of `v2`. -/
theorem nivelAlerta_monotone (v1 v2 t : F32) (h : F32.le v1 v2 = true) :
    rangoNivel (nivelAlerta v1 t) ≤ rangoNivel (nivelAlerta v2 t) := by
  have ha : F32.lt v2 (F32.mul (F32.lit 80 100) t) = true →
      F32.lt v1 (F32.mul (F32.lit 80 100) t) = true := F32.lt_of_le_lt h
  have hb : F32.lt v2 t = true → F32.lt v1 t = true := F32.lt_of_le_lt h
  have hc : F32.lt v2 (F32.mul (F32.lit 120 100) t) = true →
      F32.lt v1 (F32.mul (F32.lit 120 100) t) = true := F32.lt_of_le_lt h
  unfold nivelAlerta
  revert ha hb hc
  generalize F32.lt v1 (F32.mul (F32.lit 80 100) t) = a1
  generalize F32.lt v2 (F32.mul (F32.lit 80 100) t) = a2
  generalize F32.lt v1 t = b1
  generalize F32.lt v2 t = b2
  generalize F32.lt v1 (F32.mul (F32.lit 120 100) t) = c1
  generalize F32.lt v2 (F32.mul (F32.lit 120 100) t) = c2
  revert a1 a2 b1 b2 c1 c2
  decide

/-- C10 at the values 80 and 120 with threshold 100. -/
theorem nivelAlerta_monotone_witness :
    rangoNivel (nivelAlerta (F32.lit 80 1) (F32.lit 100 1)) ≤
      rangoNivel (nivelAlerta (F32.lit 120 1) (F32.lit 100 1)) :=
  nivelAlerta_monotone (F32.lit 80 1) (F32.lit 120 1) (F32.lit 100 1) (by decide!)

/-- C1 fails as stated: the value 120.0 is at least 1.20 times the threshold 100.0, yet
`nivelAlerta(120.0f, 100.0f)` is "Alerta": the product `1.20f * 100.0f` is rounded to
120.00000762939453125, which is above 120.  Moreover a value equal to the threshold is not
always "Alerta": for the positive thresholds `2 ^ (-149)`, `2 ^ (-148)` and `+inf` the product
`1.20f * t` is `t` itself and `nivelAlerta(t, t)` is "Critica". -/
theorem nivelAlerta_boundary_counterexample :
    (6 / 5 : ℚ) * (F32.lit 100 1).toRat ≤ (F32.lit 120 1).toRat ∧
    nivelAlerta (F32.lit 120 1) (F32.lit 100 1) = "Alerta" ∧
    F32.lt (F32.lit 0 1) (F32.ofUnits false 1) = true ∧
    nivelAlerta (F32.ofUnits false 1) (F32.ofUnits false 1) = "Critica" ∧
    nivelAlerta (F32.ofUnits false 2) (F32.ofUnits false 2) = "Critica" ∧
    nivelAlerta (F32.inf false) (F32.inf false) = "Critica" := by
  decide!

/-- C1 (amended): for a non-NaN value `v` and a positive threshold `t`, with the binary32
products `a = 0.80f * t` and `b = 1.20f * t` (which satisfy `a <= t <= b`), `nivelAlerta`
returns Normal exactly when `v < a`, Preventiva exactly when `a <= v < t`, Alerta exactly when
`t <= v < b` and Critica exactly when `b <= v`.  The value `v = b` is Critica; and for every
finite threshold of at least 3 units of `2 ^ (-149)` (every positive finite binary32 value but
the two smallest ones) `a < t < b`, the value `v = t` is Alerta and the value `v = a` is
Preventiva. -/
theorem nivelAlerta_thresholds (v t : F32) (hv : v.isNan = false)
    (ht : F32.lt (F32.lit 0 1) t = true) :
    F32.le (F32.mul (F32.lit 80 100) t) t = true ∧
    F32.le t (F32.mul (F32.lit 120 100) t) = true ∧
    (nivelAlerta v t = "Normal" ↔ F32.lt v (F32.mul (F32.lit 80 100) t) = true) ∧
    (nivelAlerta v t = "Preventiva" ↔
      F32.le (F32.mul (F32.lit 80 100) t) v = true ∧ F32.lt v t = true) ∧
    (nivelAlerta v t = "Alerta" ↔
      F32.le t v = true ∧ F32.lt v (F32.mul (F32.lit 120 100) t) = true) ∧
    (nivelAlerta v t = "Critica" ↔ F32.le (F32.mul (F32.lit 120 100) t) v = true) ∧
    nivelAlerta (F32.mul (F32.lit 120 100) t) t = "Critica" ∧
    (t.isFin = true → 3 ≤ t.ext →
      F32.lt (F32.mul (F32.lit 80 100) t) t = true ∧
      F32.lt t (F32.mul (F32.lit 120 100) t) = true ∧
      nivelAlerta t t = "Alerta" ∧
      nivelAlerta (F32.mul (F32.lit 80 100) t) t = "Preventiva") := by
  rw [F32.lt_iff, lit0_facts.2] at ht
  obtain ⟨-, htn, ht0⟩ := ht
  have hA : F32.le (F32.mul (F32.lit 80 100) t) t = true := by
    rw [F32.mul_symm]
    exact F32.mul_le_self htn (le_of_lt ht0) lit80_facts.1 lit80_facts.2.1 lit80_facts.2.2
  have hB : F32.le t (F32.mul (F32.lit 120 100) t) = true := by
    rw [F32.mul_symm]
    exact F32.self_le_mul htn (le_of_lt ht0) lit120_facts.1 lit120_facts.2
  have hS : t.isFin = true → 3 ≤ t.ext →
      (F32.mul (F32.lit 80 100) t).ext < t.ext ∧ t.ext < (F32.mul (F32.lit 120 100) t).ext := by
    intro hf h3
    rw [F32.mul_symm (F32.lit 80 100), F32.mul_symm (F32.lit 120 100)]
    exact F32.mul_lit_strict hf h3
  refine ⟨hA, hB, ?_⟩
  unfold nivelAlerta
  rw [F32.le_iff] at hA hB
  obtain ⟨hAn, -, hAe⟩ := hA
  obtain ⟨-, hBn, hBe⟩ := hB
  revert hAn hAe hBn hBe hS
  generalize F32.mul (F32.lit 80 100) t = a
  generalize F32.mul (F32.lit 120 100) t = b
  intro hS hAn hAe hBn hBe
  simp only [F32.lt, F32.le, hv, htn, hAn, hBn, Bool.not_false, Bool.true_and, decide_eq_true_eq]
  refine ⟨?_, ?_, ?_, ?_, ?_, ?_⟩
  · by_cases h1 : v.ext < a.ext
    · simp [h1]
    · by_cases h2 : v.ext < t.ext
      · simp [h1, h2]
      · by_cases h3 : v.ext < b.ext <;> simp [h1, h2, h3]
  · by_cases h1 : v.ext < a.ext
    · have h2 : ¬ a.ext ≤ v.ext := by omega
      simp [h1, h2]
    · have h5 : a.ext ≤ v.ext := by omega
      by_cases h2 : v.ext < t.ext
      · simp [h1, h2, h5]
      · by_cases h3 : v.ext < b.ext <;> simp [h1, h2, h3]
  · by_cases h1 : v.ext < a.ext
    · have h3 : ¬ t.ext ≤ v.ext := by omega
      simp [h1, h3]
    · by_cases h2 : v.ext < t.ext
      · have h3 : ¬ t.ext ≤ v.ext := by omega
        simp [h1, h2, h3]
      · have h5 : t.ext ≤ v.ext := by omega
        by_cases h3 : v.ext < b.ext <;> simp [h1, h2, h3, h5]
  · by_cases h1 : v.ext < a.ext
    · have h4 : ¬ b.ext ≤ v.ext := by omega
      simp [h1, h4]
    · by_cases h2 : v.ext < t.ext
      · have h4 : ¬ b.ext ≤ v.ext := by omega
        simp [h1, h2, h4]
      · by_cases h3 : v.ext < b.ext
        · have h4 : ¬ b.ext ≤ v.ext := by omega
          simp [h1, h2, h3, h4]
        · have h4 : b.ext ≤ v.ext := by omega
          simp [h1, h2, h3, h4]
  · have h1 : ¬ b.ext < a.ext := by omega
    have h2 : ¬ b.ext < t.ext := by omega
    simp [h1, h2]
  · intro hf h3
    obtain ⟨s1, s2⟩ := hS hf h3
    refine ⟨s1, s2, ?_, ?_⟩
    · have h1 : ¬ t.ext < a.ext := by omega
      simp [h1, s2]
    · simp [s1]

/-- C1 (amended) at the threshold 100: 79.9 is Normal, 80.0 and 99.9 are Preventiva, 100.0, 119.9
and 120.0 are Alerta, and 120.00000762939453125 (the binary32 product `1.20f * 100.0f`) is
Critica; the products satisfy `0.80f * 100.0f < 100.0f < 1.20f * 100.0f`, the threshold itself
is Alerta and the product `0.80f * 100.0f` is Preventiva. -/
theorem nivelAlerta_thresholds_witness :
    nivelAlerta (F32.lit 799 10) (F32.lit 100 1) = "Normal" ∧
    nivelAlerta (F32.lit 80 1) (F32.lit 100 1) = "Preventiva" ∧
    nivelAlerta (F32.lit 999 10) (F32.lit 100 1) = "Preventiva" ∧
    nivelAlerta (F32.lit 100 1) (F32.lit 100 1) = "Alerta" ∧
    nivelAlerta (F32.lit 1199 10) (F32.lit 100 1) = "Alerta" ∧
    nivelAlerta (F32.lit 120 1) (F32.lit 100 1) = "Alerta" ∧
    nivelAlerta (F32.mul (F32.lit 120 100) (F32.lit 100 1)) (F32.lit 100 1) = "Critica" ∧
    (F32.mul (F32.lit 120 100) (F32.lit 100 1)).toRat = 120 + 1 / 2 ^ 17 ∧
    (F32.lt (F32.mul (F32.lit 80 100) (F32.lit 100 1)) (F32.lit 100 1) = true ∧
      F32.lt (F32.lit 100 1) (F32.mul (F32.lit 120 100) (F32.lit 100 1)) = true ∧
      nivelAlerta (F32.lit 100 1) (F32.lit 100 1) = "Alerta" ∧
      nivelAlerta (F32.mul (F32.lit 80 100) (F32.lit 100 1)) (F32.lit 100 1) = "Preventiva") :=
  ⟨(nivelAlerta_thresholds (F32.lit 799 10) (F32.lit 100 1) (by decide!) (by decide!)).2.2.1.mpr
      (by decide!),
    (nivelAlerta_thresholds (F32.lit 80 1) (F32.lit 100 1) (by decide!) (by decide!)).2.2.2.1.mpr
      (by decide!),
    (nivelAlerta_thresholds (F32.lit 999 10) (F32.lit 100 1) (by decide!) (by decide!)).2.2.2.1.mpr
      (by decide!),
    (nivelAlerta_thresholds (F32.lit 100 1) (F32.lit 100 1) (by decide!) (by decide!)).2.2.2.2.1.mpr
      (by decide!),
    (nivelAlerta_thresholds (F32.lit 1199 10) (F32.lit 100 1) (by decide!) (by decide!)).2.2.2.2.1.mpr
      (by decide!),
    (nivelAlerta_thresholds (F32.lit 120 1) (F32.lit 100 1) (by decide!) (by decide!)).2.2.2.2.1.mpr
      (by decide!),
    (nivelAlerta_thresholds (F32.lit 100 1) (F32.lit 100 1) (by decide!) (by decide!)).2.2.2.2.2.2.1,
    by decide!,
    (nivelAlerta_thresholds (F32.lit 100 1) (F32.lit 100 1) (by decide!) (by decide!)).2.2.2.2.2.2.2
      (by decide!) (by decide!)⟩

/-! ## Climate adjustment -/

/-- C3 fails as stated: for the value 100 with wind 1.0, humidity 80 and temperature 20 the
code returns 108.00000762939453125 (the binary32 product `100.0f * 1.08f`), not
100 * 1 * 1.08 * 1 = 108. -/
theorem ajustarPorClima_counterexample :
    (ajustarPorClima (F32.lit 100 1)
      { temp := F32.lit 20 1, viento := F32.lit 10 10, humedad := F32.lit 80 1 }).toRat
        = 108 + 1 / 2 ^ 17 ∧
    (F32.lit 100 1).toRat * 1 * (108 / 100) * 1 = 108 := by
  decide!

/-- C3 (amended): `ajustarPorClima(v, c)` is the binary32 product `((v * a) * b) * c3`, each
product rounded, with `a = 0.92f` if `viento >= 4.0f` else `1.0f`, `b = 1.08f` if
`viento < 1.5f && humedad >= 75.0f` else `1.0f`, `c3 = 1.05f` if `temp <= 12.0f` else `1.0f`,
all conditions read on the climate passed in.  For the value 100 it gives 92 with wind 5,
humidity 50, temperature 20; 108 + 2^-17 with wind 1.0, humidity 80, temperature 20; and the
binary32 nearest 96.6 with wind 5, humidity 50, temperature 5. -/
theorem ajustarPorClima_factors (v : F32) (c : Clima) :
    ajustarPorClima v c =
      F32.mul (F32.mul (F32.mul v
        (if F32.ge c.viento (F32.lit 40 10) = true then F32.lit 92 100 else F32.lit 1 1))
        (if F32.lt c.viento (F32.lit 15 10) = true ∧ F32.ge c.humedad (F32.lit 750 10) = true
          then F32.lit 108 100 else F32.lit 1 1))
        (if F32.le c.temp (F32.lit 120 10) = true then F32.lit 105 100 else F32.lit 1 1) ∧
    ajustarPorClima (F32.lit 100 1)
      { temp := F32.lit 20 1, viento := F32.lit 5 1, humedad := F32.lit 50 1 } = F32.lit 92 1 ∧
    (ajustarPorClima (F32.lit 100 1)
      { temp := F32.lit 20 1, viento := F32.lit 10 10, humedad := F32.lit 80 1 }).toRat
        = 108 + 1 / 2 ^ 17 ∧
    ajustarPorClima (F32.lit 100 1)
      { temp := F32.lit 5 1, viento := F32.lit 5 1, humedad := F32.lit 50 1 } = F32.lit 966 10 := by
  refine ⟨?_, by decide!, by decide!, by decide!⟩
  unfold ajustarPorClima
  by_cases h1 : F32.ge c.viento (F32.lit 40 10) = true <;>
  by_cases h2 : F32.lt c.viento (F32.lit 15 10) = true <;>
  by_cases h3 : F32.ge c.humedad (F32.lit 750 10) = true <;>
  by_cases h4 : F32.le c.temp (F32.lit 120 10) = true <;>
  simp [h1, h2, h3, h4, F32.mul_lit_one]

/-- C9 fails as stated: for the value 10 under high wind the result 9.19999980926513671875 is
below 0.92 * 10, and for the value 100 under stagnation and cold the result
113.40000152587890625 is above 1.134 * 100. -/
theorem ajustarPorClima_bounds_counterexample :
    F32.le (F32.lit 0 1) (F32.lit 10 1) = true ∧
    (ajustarPorClima (F32.lit 10 1)
      { temp := F32.lit 20 1, viento := F32.lit 5 1, humedad := F32.lit 50 1 }).toRat
        < (92 / 100) * (F32.lit 10 1).toRat ∧
    F32.le (F32.lit 0 1) (F32.lit 100 1) = true ∧
    (1134 / 1000) * (F32.lit 100 1).toRat <
      (ajustarPorClima (F32.lit 100 1)
        { temp := F32.lit 5 1, viento := F32.lit 10 10, humedad := F32.lit 80 1 }).toRat := by
  decide!

/-- C9 (amended): the high-wind and the stagnation adjustments never both apply; the result
is one of `v`, `v * 0.92f`, `v * 1.08f`, `v * 1.05f`, `(v * 0.92f) * 1.05f`,
`(v * 1.08f) * 1.05f` (binary32 products); and for `v >= 0` it lies between the binary32 values
`v * 0.92f` and `(v * 1.08f) * 1.05f`. -/
theorem ajustarPorClima_bounds (v : F32) (c : Clima) :
    ¬ (F32.ge c.viento (F32.lit 40 10) = true ∧
        (F32.lt c.viento (F32.lit 15 10) = true ∧ F32.ge c.humedad (F32.lit 750 10) = true)) ∧
    (ajustarPorClima v c = v ∨
      ajustarPorClima v c = F32.mul v (F32.lit 92 100) ∨
      ajustarPorClima v c = F32.mul v (F32.lit 108 100) ∨
      ajustarPorClima v c = F32.mul v (F32.lit 105 100) ∨
      ajustarPorClima v c = F32.mul (F32.mul v (F32.lit 92 100)) (F32.lit 105 100) ∨
      ajustarPorClima v c = F32.mul (F32.mul v (F32.lit 108 100)) (F32.lit 105 100)) ∧
    (F32.le (F32.lit 0 1) v = true →
      F32.le (F32.mul v (F32.lit 92 100)) (ajustarPorClima v c) = true ∧
      F32.le (ajustarPorClima v c)
        (F32.mul (F32.mul v (F32.lit 108 100)) (F32.lit 105 100)) = true) := by
  obtain ⟨f92, p92, l92, f108, g108, f105, g105, n15, n40, hlt⟩ := lit_adj_facts
  have p108 : 0 < (F32.lit 108 100).ext := lt_of_lt_of_le (by positivity) g108
  have p105 : 0 < (F32.lit 105 100).ext := lt_of_lt_of_le (by positivity) g105
  have hex : ¬ (F32.ge c.viento (F32.lit 40 10) = true ∧
        (F32.lt c.viento (F32.lit 15 10) = true ∧ F32.ge c.humedad (F32.lit 750 10) = true)) := by
    rintro ⟨h1, h2, -⟩
    unfold F32.ge at h1
    rw [F32.le_iff] at h1
    rw [F32.lt_iff] at h2
    omega
  refine ⟨hex, ?_, ?_⟩
  · unfold ajustarPorClima
    by_cases h1 : F32.ge c.viento (F32.lit 40 10) = true <;>
    by_cases h2 : F32.lt c.viento (F32.lit 15 10) = true <;>
    by_cases h3 : F32.ge c.humedad (F32.lit 750 10) = true <;>
    by_cases h4 : F32.le c.temp (F32.lit 120 10) = true <;>
    simp [h1, h2, h3, h4] at hex ⊢
  · intro hv
    rw [F32.le_iff, lit0_facts.2] at hv
    obtain ⟨-, hvn, hv0⟩ := hv
    -- abbreviations
    have a1 : F32.le (F32.mul v (F32.lit 92 100)) v = true :=
      F32.mul_le_self hvn hv0 f92 p92 l92
    have a2 : F32.le v (F32.mul v (F32.lit 108 100)) = true :=
      F32.self_le_mul hvn hv0 f108 g108
    have a3 : F32.le v (F32.mul v (F32.lit 105 100)) = true :=
      F32.self_le_mul hvn hv0 f105 g105
    have n92 : (F32.mul v (F32.lit 92 100)).isNan = false := F32.isNan_mul_pos hvn f92 p92
    have n108 : (F32.mul v (F32.lit 108 100)).isNan = false := F32.isNan_mul_pos hvn f108 p108
    have e92 : 0 ≤ (F32.mul v (F32.lit 92 100)).ext := F32.mul_nonneg_ext hvn hv0 f92 p92
    have e108 : 0 ≤ (F32.mul v (F32.lit 108 100)).ext := by
      have := (F32.le_iff _ _).mp a2; omega
    have b1 : F32.le (F32.mul v (F32.lit 92 100))
        (F32.mul (F32.mul v (F32.lit 92 100)) (F32.lit 105 100)) = true :=
      F32.self_le_mul n92 e92 f105 g105
    have b2 : F32.le (F32.mul v (F32.lit 108 100))
        (F32.mul (F32.mul v (F32.lit 108 100)) (F32.lit 105 100)) = true :=
      F32.self_le_mul n108 e108 f105 g105
    have b3 : F32.le (F32.mul v (F32.lit 105 100))
        (F32.mul (F32.mul v (F32.lit 108 100)) (F32.lit 105 100)) = true :=
      F32.mul_mono hvn hv0 a2 f105 p105
    have b4 : F32.le (F32.mul (F32.mul v (F32.lit 92 100)) (F32.lit 105 100))
        (F32.mul (F32.mul v (F32.lit 108 100)) (F32.lit 105 100)) = true :=
      F32.mul_mono n92 e92 (F32.le_trans_of a1 a2) f105 p105
    have c1 := F32.le_refl_of n92
    have c2 := F32.le_trans_of a1 a2
    have c3 := F32.le_trans_of a1 a3
    have c4 := F32.le_trans_of c2 b2
    have c5 := F32.le_trans_of a2 b2
    have c6 := F32.le_refl_of ((F32.le_iff _ _).mp b2).2.1
    unfold ajustarPorClima
    by_cases h1 : F32.ge c.viento (F32.lit 40 10) = true <;>
    by_cases h2 : F32.lt c.viento (F32.lit 15 10) = true <;>
    by_cases h3 : F32.ge c.humedad (F32.lit 750 10) = true <;>
    by_cases h4 : F32.le c.temp (F32.lit 120 10) = true <;>
    simp only [h1, h2, h3, h4, if_true, if_false, Bool.and_true, Bool.and_false,
      Bool.true_and, Bool.false_and, Bool.false_eq_true, Bool.and_self, not_true_eq_false,
      and_self, and_true, true_and, not_false_eq_true] at hex ⊢ <;>
    first
      | exact hex.elim
      | (constructor <;> with_reducible assumption)

/-! ## Averages -/

/-- C7 fails as stated: on 30 copies of `0.1f` (13421773 / 2^27) `promedioArreglo` returns
13421770 / 2^27, which is neither that value nor the exact arithmetic mean: the binary32
additions of the loop round. -/
theorem promedioArreglo_counterexample :
    (promedioArreglo (List.replicate 30 (F32.lit 1 10)) 30).map F32.toRat =
      some (13421770 / 134217728) ∧
    (F32.lit 1 10).toRat = 13421773 / 134217728 := by
  decide!

/-- C7 (amended): on a sequence of length `n >= 1`, `promedioArreglo` returns the binary32
quotient of the binary32 sum (accumulated from `0.0f`, left to right) by `(float) n`; it returns
`0.0f` on the empty sequence and for every `n <= 0`; on 30 copies of `x` it returns `x` for every
finite `x` other than `-0` with at most 19 significant bits and magnitude below `2 ^ 123`. -/
theorem promedioArreglo_spec :
    (∀ arr : List F32, promedioArreglo arr (arr.length : Int) =
      some (if arr = [] then F32.lit 0 1
        else F32.div (sumaF arr) (F32.ofInt (arr.length : Int)))) ∧
    (∀ (arr : List F32) (n : Int), n ≤ 0 → promedioArreglo arr n = some (F32.lit 0 1)) ∧
    (∀ x : F32, x.corto = true → promedioArreglo (List.replicate 30 x) 30 = some x) := by
  refine ⟨promedioArreglo_eq, promedioArreglo_nonpos, ?_⟩
  intro x hx
  have e := promedioArreglo_eq (List.replicate 30 x)
  simp only [List.length_replicate, Nat.cast_ofNat] at e
  rw [e]
  have hne : List.replicate 30 x ≠ [] := by simp
  simp only [hne, if_false]
  rw [promedio_replicate hx]

/-- C7 (amended) on 30 copies of 50.0. -/
theorem promedioArreglo_spec_witness :
    promedioArreglo (List.replicate 30 (F32.lit 50 1)) 30 = some (F32.lit 50 1) :=
  promedioArreglo_spec.2.2 (F32.lit 50 1) (by decide!)

/-- C4 fails as stated, in four ways.  On the sequence 1, 0 with window 2 the code returns
11184811 / 2^25, the binary32 quotient, and not the exact (1 * 1 + 0 * 2) / (1 + 2) = 1 / 3.
On a sequence of one entry with window -2147483648 the subtraction `nTotal - nUltimos` leaves
the range of `int` (undefined behaviour), so no result `0` is guaranteed.  On a sequence of
2147483647 entries with window 2147483647 the last `peso++` leaves the range of `int`
(undefined behaviour).  With 5793 weights the binary32 sum of the weights is 16782320 and not
5793 * 5794 / 2 = 16782321. -/
theorem promedioPonderadoUltimos_counterexample :
    (promedioPonderadoUltimos [F32.lit 1 1, F32.lit 0 1] 2 2).map F32.toRat =
      some (11184811 / 33554432) ∧
    ((F32.lit 1 1).toRat * 1 + (F32.lit 0 1).toRat * 2) / (1 + 2) = 1 / 3 ∧
    promedioPonderadoUltimos [F32.lit 1 1] 1 (-2147483648) = none ∧
    promedioPonderadoUltimos (List.replicate 2147483647 (F32.lit 1 1)) 2147483647 2147483647 =
      none ∧
    (sumaF (pesosVentana 5793)).toRat = 16782320 ∧
    (5793 : ℚ) * (5793 + 1) / 2 = 16782321 :=
  ⟨by decide!, by decide!, by decide!, promedioPonderadoUltimos_intMax _,
    sumaF_pesos_5793, by norm_num⟩

/-- C4 (amended): for a sequence of `N` numbers and a window size, both in the range of `int`,
for which `N - min(windowSize, N)` stays in the range of `int` and `min(windowSize, N)` is below
`INT_MAX = 2147483647` (so that `peso++` stays in the range of `int`),
`promedioPonderadoUltimos` returns the value of `promedioPonderadoSpec`: with
`k = min(windowSize, N)`, the binary32 quotient of the binary32 sum of `value_i * weight_i` over
the last `k` entries (weights 1 for the oldest to `k` for the last, each product and each
addition rounded, accumulated from the oldest entry) by the binary32 sum of the weights; it is
`0.0f` when `k <= 0`; and the sum of the weights is exactly `k * (k + 1) / 2` for `k <= 5792`. -/
theorem promedioPonderadoUltimos_spec :
    (∀ (arr : List F32) (windowSize : Int),
      enInt32 (arr.length : Int) = true → enInt32 windowSize = true →
      enInt32 ((arr.length : Int) - min windowSize (arr.length : Int)) = true →
      min windowSize (arr.length : Int) < 2147483647 →
      promedioPonderadoUltimos arr (arr.length : Int) windowSize =
        some (promedioPonderadoSpec arr windowSize)) ∧
    (∀ (arr : List F32) (windowSize : Int), min windowSize (arr.length : Int) ≤ 0 →
      promedioPonderadoSpec arr windowSize = F32.lit 0 1) ∧
    (∀ k : Nat, k ≤ 5792 → (sumaF (pesosVentana k)).toRat = (k : ℚ) * ((k : ℚ) + 1) / 2) := by
  refine ⟨fun arr w _ _ h1 h2 => promedioPonderadoUltimos_eq arr w h1 h2, ?_, ?_⟩
  · intro arr w h
    unfold promedioPonderadoSpec
    have : (min w (arr.length : Int)).toNat = 0 := by omega
    simp [this]
  · intro k hk
    rw [sumaF_pesos_exact k hk]
    have hb : k * (k + 1) ≤ 5792 * 5793 := Nat.mul_le_mul hk (by omega)
    rw [toRat_ofSigned_nat (by omega)]
    have hev : 2 ∣ k * (k + 1) := (Nat.even_mul_succ_self k).two_dvd
    rw [Nat.cast_div hev (by norm_num)]
    push_cast
    ring

/-- C4 (amended) on the sequence 1, 0 with window 2, and on the same sequence with window 0. -/
theorem promedioPonderadoUltimos_spec_witness :
    promedioPonderadoUltimos [F32.lit 1 1, F32.lit 0 1] (([F32.lit 1 1, F32.lit 0 1].length : Nat) : Int) 2 =
      some (promedioPonderadoSpec [F32.lit 1 1, F32.lit 0 1] 2) ∧
    promedioPonderadoSpec [F32.lit 1 1, F32.lit 0 1] 0 = F32.lit 0 1 :=
  ⟨promedioPonderadoUltimos_spec.1 [F32.lit 1 1, F32.lit 0 1] 2 (by decide) (by decide)
      (by decide) (by decide),
    promedioPonderadoUltimos_spec.2.1 [F32.lit 1 1, F32.lit 0 1] 0 (by decide)⟩

/-- C5 fails as stated.  On the strictly increasing binary32 values `m / 2 ^ 26` for
`m` = 16379397, 16379398, 16379399, 16379402, 16379405, 16379406, 16379407 the weighted average
is `16379402 / 2 ^ 26`, strictly below the unweighted average `16379403 / 2 ^ 26` of the same
entries.  On the strictly increasing values 1, 2, 3, 4, 5, 6, 3.4e38 the weighted average is
`+inf`, which is not below the last entry. -/
theorem ponderado_creciente_counterexample :
    F32.lt (F32.lit 16379397 67108864) (F32.lit 16379398 67108864) = true ∧
    F32.lt (F32.lit 16379398 67108864) (F32.lit 16379399 67108864) = true ∧
    F32.lt (F32.lit 16379399 67108864) (F32.lit 16379402 67108864) = true ∧
    F32.lt (F32.lit 16379402 67108864) (F32.lit 16379405 67108864) = true ∧
    F32.lt (F32.lit 16379405 67108864) (F32.lit 16379406 67108864) = true ∧
    F32.lt (F32.lit 16379406 67108864) (F32.lit 16379407 67108864) = true ∧
    promedioPonderadoUltimos
      [F32.lit 16379397 67108864, F32.lit 16379398 67108864, F32.lit 16379399 67108864,
        F32.lit 16379402 67108864, F32.lit 16379405 67108864, F32.lit 16379406 67108864,
        F32.lit 16379407 67108864] 7 7 = some (F32.lit 16379402 67108864) ∧
    promedioArreglo (ultimos
      [F32.lit 16379397 67108864, F32.lit 16379398 67108864, F32.lit 16379399 67108864,
        F32.lit 16379402 67108864, F32.lit 16379405 67108864, F32.lit 16379406 67108864,
        F32.lit 16379407 67108864] 7) 7 = some (F32.lit 16379403 67108864) ∧
    F32.lt (F32.lit 16379402 67108864) (F32.lit 16379403 67108864) = true ∧
    promedioPonderadoUltimos
      [F32.lit 1 1, F32.lit 2 1, F32.lit 3 1, F32.lit 4 1, F32.lit 5 1, F32.lit 6 1,
        F32.lit 340000000000000000000000000000000000000 1] 7 7 = some (F32.inf false) ∧
    F32.lt (F32.lit 6 1) (F32.lit 340000000000000000000000000000000000000 1) = true ∧
    F32.lt (F32.inf false) (F32.lit 340000000000000000000000000000000000000 1) = false := by
  decide!

/-- C5 (amended): for every sequence of at least 7 numbers (its length an `int`) whose last
seven entries `x0, ..., x6` are finite and, for some scale `M` with
`2 ^ (-126) <= M < 2 ^ 123`, satisfy `-M <= x0`, `x6 <= M` and
`x(i+1) - x(i) >= M / 2 ^ 20` for each `i` (strictly increasing entries whose steps are at least
about a millionth of their magnitude, in the normal range and far from overflow),
`promedioPonderadoUltimos` with window 7 is strictly greater than `promedioArreglo` of the same
last 7 entries and strictly less than the last entry.  The hypotheses are written on `F32.ext`,
the value in units of `2 ^ (-149)`: `2 ^ 23` units are `2 ^ (-126)` and `2 ^ 272` units are
`2 ^ 123`. -/
theorem ponderado_creciente (arr : List F32) (x0 x1 x2 x3 x4 x5 x6 : F32) (M : Int)
    (hlen : 7 ≤ arr.length) (hN : (arr.length : Int) < 2 ^ 31)
    (hult : ultimos arr 7 = [x0, x1, x2, x3, x4, x5, x6])
    (hfin : ∀ x ∈ [x0, x1, x2, x3, x4, x5, x6], F32.isFin x = true)
    (hM1 : 2 ^ 23 ≤ M) (hM2 : M < 2 ^ 272) (h0 : -M ≤ x0.ext) (h6 : x6.ext ≤ M)
    (h01 : M ≤ 2 ^ 20 * (x1.ext - x0.ext)) (h12 : M ≤ 2 ^ 20 * (x2.ext - x1.ext))
    (h23 : M ≤ 2 ^ 20 * (x3.ext - x2.ext)) (h34 : M ≤ 2 ^ 20 * (x4.ext - x3.ext))
    (h45 : M ≤ 2 ^ 20 * (x5.ext - x4.ext)) (h56 : M ≤ 2 ^ 20 * (x6.ext - x5.ext)) :
    ∃ w u, promedioPonderadoUltimos arr (arr.length : Int) 7 = some w ∧
      promedioArreglo (ultimos arr 7) 7 = some u ∧
      F32.lt u w = true ∧ F32.lt w x6 = true := by
  have e1 := promedioPonderadoUltimos_eq arr 7 (by
    have : min (7 : Int) (arr.length : Int) = 7 := by omega
    rw [this]; unfold enInt32; simp only [Bool.and_eq_true, decide_eq_true_eq]; omega)
    (by omega)
  have e7 : (min (7 : Int) (arr.length : Int)).toNat = 7 := by omega
  have hw : promedioPonderadoSpec arr 7 =
      F32.div (sumaF [F32.mul x0 (F32.ofInt 1), F32.mul x1 (F32.ofInt 2),
        F32.mul x2 (F32.ofInt 3), F32.mul x3 (F32.ofInt 4), F32.mul x4 (F32.ofInt 5),
        F32.mul x5 (F32.ofInt 6), F32.mul x6 (F32.ofInt 7)]) (sumaF (pesosVentana 7)) := by
    unfold promedioPonderadoSpec
    rw [e7]
    simp only [Nat.reduceEqDiff, if_false]
    rw [hult]
    nth_rewrite 1 [pesos7_eq]
    rfl
  have e2 := promedioArreglo_eq (ultimos arr 7)
  rw [hult] at e2
  simp only [List.length_cons, List.length_nil, Nat.zero_add, Nat.reduceAdd, Nat.cast_ofNat,
    reduceCtorEq, if_false] at e2
  have f : ∀ x ∈ [x0, x1, x2, x3, x4, x5, x6], F32.isFin x = true := hfin
  simp only [List.mem_cons, List.mem_singleton, List.not_mem_nil, or_false, forall_eq_or_imp,
    forall_eq] at f
  obtain ⟨f0, f1, f2, f3, f4, f5, f6⟩ := f
  obtain ⟨-, -, -, -, -, -, -, -, fD, eD⟩ := pesos7_facts
  obtain ⟨r1, r2, r3, r4⟩ := siete_separados x0 x1 x2 x3 x4 x5 x6 (sumaF (pesosVentana 7)) M
    f0 f1 f2 f3 f4 f5 f6 fD eD hM1 hM2 h0 h6 h01 h12 h23 h34 h45 h56
  refine ⟨promedioPonderadoSpec arr 7,
    F32.div (sumaF [x0, x1, x2, x3, x4, x5, x6]) (F32.ofInt 7), e1, ?_, ?_, ?_⟩
  · rw [hult]; exact e2
  · rw [hw, F32.lt_iff]
    exact ⟨F32.isNan_of_isFin r2, F32.isNan_of_isFin r1, r3⟩
  · rw [hw, F32.lt_iff]
    exact ⟨F32.isNan_of_isFin r1, F32.isNan_of_isFin f6, r4⟩

/-- C5 (amended) on the sequence 12.34, 12.35, 12.36, 12.37, 12.38, 12.39, 12.40, with the
scale `M = 12.40`. -/
theorem ponderado_creciente_witness :
    ∃ w u,
      promedioPonderadoUltimos
        [F32.lit 1234 100, F32.lit 1235 100, F32.lit 1236 100, F32.lit 1237 100,
          F32.lit 1238 100, F32.lit 1239 100, F32.lit 1240 100]
        (([F32.lit 1234 100, F32.lit 1235 100, F32.lit 1236 100, F32.lit 1237 100,
          F32.lit 1238 100, F32.lit 1239 100, F32.lit 1240 100].length : Nat) : Int) 7 = some w ∧
      promedioArreglo (ultimos
        [F32.lit 1234 100, F32.lit 1235 100, F32.lit 1236 100, F32.lit 1237 100,
          F32.lit 1238 100, F32.lit 1239 100, F32.lit 1240 100] 7) 7 = some u ∧
      F32.lt u w = true ∧ F32.lt w (F32.lit 1240 100) = true :=
  ponderado_creciente _ (F32.lit 1234 100) (F32.lit 1235 100) (F32.lit 1236 100)
    (F32.lit 1237 100) (F32.lit 1238 100) (F32.lit 1239 100) (F32.lit 1240 100)
    (F32.lit 1240 100).ext (by decide) (by decide) (by simp [ultimos])
    (by decide!) (by decide!) (by decide!) (by decide!) (by decide!) (by decide!) (by decide!)
    (by decide!) (by decide!) (by decide!) (by decide!)

/-! ## End to end -/

/-- C6 (amended): if the 30 history entries of the pollutant `p` of a zone all equal `x`, where
`x` is finite, not `-0`, has at most 19 significant bits and magnitude below `2 ^ 123`, and none
of the three conditions of `ajustarPorClima` holds for the climate of the zone, then after
`calcularPromediosYActual` and `calcularPrediccion24h` the zone has `promedio30[p] = x`,
`actual[p] = x` and `pred24h[p] = x`, so both values get the same alert level. -/
theorem constante_sin_ajuste (zs : Zonas) (i : Fin ZONAS) (p : Fin CONT) (x : F32)
    (hx : x.corto = true) (hh : ∀ d, (zs i).hist p d = x)
    (h1 : F32.ge (zs i).climaActual.viento (F32.lit 40 10) = false)
    (h2 : (F32.lt (zs i).climaActual.viento (F32.lit 15 10) &&
      F32.ge (zs i).climaActual.humedad (F32.lit 750 10)) = false)
    (h3 : F32.le (zs i).climaActual.temp (F32.lit 120 10) = false) :
    ∃ r, recalcular zs = some r ∧ (r i).promedio30 p = x ∧ (r i).actual p = x ∧
      (r i).pred24h p = x ∧
      nivelAlerta ((r i).actual p) (LIMITES p) = nivelAlerta ((r i).pred24h p) (LIMITES p) := by
  obtain ⟨r, e, h⟩ := recalcular_eq zs
  obtain ⟨-, -, -, hc⟩ := h i
  obtain ⟨a1, a2, a3⟩ := hc p
  have b1 : (r i).promedio30 p = x := by
    rw [a1, ofFn_const_hist hh, promedio_replicate hx]
  have b2 : (r i).actual p = x := by rw [a2, hh]
  have b3 : (r i).pred24h p = x := by
    rw [a3, ofFn_const_hist hh, promedioPonderadoSpec_replicate hx, ajustarPorClima_id x _ h1 h2 h3]
  exact ⟨r, e, b1, b2, b3, by rw [b2, b3]⟩

/-- C6 (amended) for `x = 50.0` and PM2.5 (limit 15.0) under wind 0, humidity 0, temperature
20: the three figures are 50.0 and both levels are Critica. -/
theorem constante_sin_ajuste_witness :
    ∃ r, recalcular (zonasConstantes (F32.lit 50 1)
        { temp := F32.lit 20 1, viento := F32.lit 0 1, humedad := F32.lit 0 1 }) = some r ∧
      (r 0).promedio30 PM25 = F32.lit 50 1 ∧ (r 0).actual PM25 = F32.lit 50 1 ∧
      (r 0).pred24h PM25 = F32.lit 50 1 ∧
      nivelAlerta ((r 0).actual PM25) (LIMITES PM25) = "Critica" ∧
      nivelAlerta ((r 0).pred24h PM25) (LIMITES PM25) = "Critica" := by
  obtain ⟨r, e, b1, b2, b3, -⟩ := constante_sin_ajuste
    (zonasConstantes (F32.lit 50 1)
      { temp := F32.lit 20 1, viento := F32.lit 0 1, humedad := F32.lit 0 1 })
    0 PM25 (F32.lit 50 1) (by decide!) (fun d => zonasConstantes_hist _ _ _ _ d)
    (by rw [zonasConstantes_clima]; decide!) (by rw [zonasConstantes_clima]; decide!)
    (by rw [zonasConstantes_clima]; decide!)
  refine ⟨r, e, b1, b2, b3, ?_, ?_⟩
  · rw [b2]; decide!
  · rw [b3]; decide!

/-- C6 fails as stated: with all 30 entries equal to `12.34f` (12939428 / 2^20) and a climate
without adjustment (wind 0, humidity 0, temperature 20) the code gets
`promedio30 = 12939425 / 2^20`, `actual = 12939428 / 2^20` and `pred24h = 12939429 / 2^20`:
three different values. -/
theorem constante_counterexample :
    (recalcular (zonasConstantes (F32.lit 1234 100)
        { temp := F32.lit 20 1, viento := F32.lit 0 1, humedad := F32.lit 0 1 })).map
      (fun r => (((r 0).promedio30 PM25).toRat, ((r 0).actual PM25).toRat,
        ((r 0).pred24h PM25).toRat)) =
      some (12939425 / 1048576, 12939428 / 1048576, 12939429 / 1048576) := by
  obtain ⟨r, e, h⟩ := recalcular_eq (zonasConstantes (F32.lit 1234 100)
        { temp := F32.lit 20 1, viento := F32.lit 0 1, humedad := F32.lit 0 1 })
  obtain ⟨-, -, -, hc⟩ := h 0
  obtain ⟨a1, a2, a3⟩ := hc PM25
  rw [e]
  simp only [Option.map_some', a1, a2, a3]
  have e0 : List.ofFn ((zonasConstantes (F32.lit 1234 100)
        { temp := F32.lit 20 1, viento := F32.lit 0 1, humedad := F32.lit 0 1 } 0).hist PM25) =
      List.replicate 30 (F32.lit 1234 100) :=
    ofFn_const_hist (fun d => zonasConstantes_hist _ _ _ _ d)
  rw [e0, zonasConstantes_hist, zonasConstantes_clima]
  have v1 : (F32.div (sumaF (List.replicate 30 (F32.lit 1234 100))) (F32.ofInt 30)).toRat =
      12939425 / 1048576 := by decide!
  have v2 : (F32.lit 1234 100).toRat = 12939428 / 1048576 := by decide!
  have v3 : (ajustarPorClima (promedioPonderadoSpec (List.replicate 30 (F32.lit 1234 100)) 7)
      { temp := F32.lit 20 1, viento := F32.lit 0 1, humedad := F32.lit 0 1 }).toRat =
      12939429 / 1048576 := by decide!
  rw [v1, v2, v3]

/-! ## Saving and loading -/

/-- C8 fails as stated: the file keeps two decimals.  For the store whose history values are all
`12.345f` (12944671 / 2^20, a valid reading between 0 and 10000) under the initial climate, the
recomputed `actual` of PM2.5 in the first zone is 12944671 / 2^20 before saving and
6474957 / 2^19 (`12.35f`) after saving and loading. -/
theorem guardar_cargar_counterexample :
    (recalcular (zonasConstantes (F32.lit 12345 1000)
        { temp := F32.lit 18 1, viento := F32.lit 2 1, humedad := F32.lit 60 1 })).map
      (fun r => ((r 0).actual PM25).toRat) = some (12944671 / 1048576) ∧
    (recalcular (cargarDatos (guardarDatos (zonasConstantes (F32.lit 12345 1000)
        { temp := F32.lit 18 1, viento := F32.lit 2 1, humedad := F32.lit 60 1 }))
        inicializarZonas)).map
      (fun r => ((r 0).actual PM25).toRat) = some (6474957 / 524288) := by
  obtain ⟨r1, e1, k1⟩ := recalcular_eq (zonasConstantes (F32.lit 12345 1000)
        { temp := F32.lit 18 1, viento := F32.lit 2 1, humedad := F32.lit 60 1 })
  obtain ⟨r2, e2, k2⟩ := recalcular_eq (cargarDatos (guardarDatos (zonasConstantes
        (F32.lit 12345 1000)
        { temp := F32.lit 18 1, viento := F32.lit 2 1, humedad := F32.lit 60 1 }))
        inicializarZonas)
  obtain ⟨-, g2, -⟩ := cargar_guardar (zonasConstantes (F32.lit 12345 1000)
        { temp := F32.lit 18 1, viento := F32.lit 2 1, humedad := F32.lit 60 1 })
        (fun i => zonasConstantes_nombre _ _ i)
  obtain ⟨-, -, -, a⟩ := k1 0
  obtain ⟨-, -, -, b⟩ := k2 0
  rw [e1, e2]
  simp only [Option.map_some', (a PM25).2.1, (b PM25).2.1, g2, zonasConstantes_hist]
  have v1 : (F32.lit 12345 1000).toRat = 12944671 / 1048576 := by decide!
  have v2 : (scanF (fmt2 (F32.lit 12345 1000))).toRat = 6474957 / 524288 := by decide!
  rw [v1, v2]
  exact ⟨rfl, rfl⟩

/-- C8 (amended): for every store of the five zones (with the names given by
`inicializarZonas`) in which every history value and every climate value is the binary32 value
of a decimal number with at most two decimals between 0 and 10000 (`F32.lit h 100` with
`h <= 1000000`), saving with `guardarDatos` and loading with `cargarDatos` into freshly
initialised zones gives, after `calcularPromediosYActual` and `calcularPrediccion24h`, the same
`actual`, `promedio30` and `pred24h` as computed from the store before saving, for every zone and
pollutant. -/
theorem guardar_cargar_recalcular (zs : Zonas) (hz : ∀ i, (zs i).nombre = nombresZonas i)
    (hh : ∀ i c d, ((zs i).hist c d).dosDecimales)
    (hc : ∀ i, (zs i).climaActual.temp.dosDecimales ∧ (zs i).climaActual.viento.dosDecimales ∧
      (zs i).climaActual.humedad.dosDecimales) :
    ∃ r1 r2, recalcular zs = some r1 ∧
      recalcular (cargarDatos (guardarDatos zs) inicializarZonas) = some r2 ∧
      ∀ i c, (r2 i).actual c = (r1 i).actual c ∧ (r2 i).promedio30 c = (r1 i).promedio30 c ∧
        (r2 i).pred24h c = (r1 i).pred24h c := by
  obtain ⟨r1, e1, k1⟩ := recalcular_eq zs
  obtain ⟨r2, e2, k2⟩ := recalcular_eq (cargarDatos (guardarDatos zs) inicializarZonas)
  obtain ⟨-, g2, g3⟩ := cargar_guardar zs hz
  refine ⟨r1, r2, e1, e2, ?_⟩
  intro i c
  have hhist : (cargarDatos (guardarDatos zs) inicializarZonas i).hist = (zs i).hist := by
    funext c2 d
    rw [g2 i c2 d, scanF_fmt2_dosDecimales (hh i c2 d)]
  have hclima : (cargarDatos (guardarDatos zs) inicializarZonas i).climaActual =
      (zs i).climaActual := by
    rw [g3 i]
    unfold Clima.releido
    rw [scanF_fmt2_dosDecimales (hc i).1, scanF_fmt2_dosDecimales (hc i).2.1,
      scanF_fmt2_dosDecimales (hc i).2.2]
  obtain ⟨-, -, -, a⟩ := k1 i
  obtain ⟨-, -, -, b⟩ := k2 i
  obtain ⟨a1, a2, a3⟩ := a c
  obtain ⟨b1, b2, b3⟩ := b c
  rw [a1, a2, a3, b1, b2, b3, hhist, hclima]
  exact ⟨rfl, rfl, rfl⟩

/-- C8 (amended) on the store with all history values 12.34 under temperature 20, wind 0,
humidity 0. -/
theorem guardar_cargar_recalcular_witness :
    ∃ r1 r2,
      recalcular (zonasConstantes (F32.lit 1234 100)
        { temp := F32.lit 2000 100, viento := F32.lit 0 100, humedad := F32.lit 0 100 }) = some r1 ∧
      recalcular (cargarDatos (guardarDatos (zonasConstantes (F32.lit 1234 100)
        { temp := F32.lit 2000 100, viento := F32.lit 0 100, humedad := F32.lit 0 100 }))
        inicializarZonas) = some r2 ∧
      ∀ i c, (r2 i).actual c = (r1 i).actual c ∧ (r2 i).promedio30 c = (r1 i).promedio30 c ∧
        (r2 i).pred24h c = (r1 i).pred24h c := by
  apply guardar_cargar_recalcular
  · intro i; exact zonasConstantes_nombre _ _ i
  · intro i c d
    rw [zonasConstantes_hist]
    exact ⟨1234, by norm_num, rfl⟩
  · intro i
    rw [zonasConstantes_clima]
    dsimp only
    exact ⟨⟨2000, by norm_num, rfl⟩, ⟨0, by norm_num, rfl⟩, ⟨0, by norm_num, rfl⟩⟩
